import Mathlib

/-!
# Terminal snake game: simulation core of `snake_game.cpp`

A shallow embedding of the tick engine of `src/snake_game.cpp`: the global
variables become one record `State`, every function becomes a function on
`State`, and the calls of `rand()` / `std::shuffle` become explicit arguments
(the values drawn), so that a statement quantified over those arguments holds
for every outcome of the random choices.

Conventions of the embedding

* `int` is `Int`; no counter of the program can come near `2^31` (the turn
  limit bounds a stage by 500 ticks), so no wrap-around is modelled.
* `int map[HEIGHT][WIDTH]` is a total function `Int → Int → Int`; only the
  cells with `0 ≤ y < HEIGHT`, `0 ≤ x < WIDTH` are the array.  The loops over
  the whole array are written with an explicit `inBounds` guard.
* `dirIndex`, `prevDirIndex` and every direction argument index the 4-element
  tables `dy`, `dx`, `clockwise`, ... and take only the values of
  `enum Direction { UP = 0, DOWN, LEFT, RIGHT }`; they are `Fin 4`.
* `std::deque` is a `List` whose first element is `front()` and whose last
  element is `back()`.
* A `do { ... } while (map[y][x] != 0)` rejection loop consumes a list of
  drawn pairs of `rand()` values and yields `none` when the list is used up
  before the loop has left, so functions that call it return `Option`.
-/

namespace SnakeGame

/-! ## Constants -/

def HEIGHT : Int := 21
def WIDTH : Int := 21
def ITEM_LIFESPAN : Int := 300
def IMMUNE_WALL : Int := 9
def STAGES : Nat := 4
def GATE_LIFESPAN_TICKS : Int := 100
def GATE_COOLDOWN_TICKS : Int := 5

def maxGrowthItems : Nat := 3
def maxPoisonItems : Nat := 3

/-- Key codes of `<ncurses.h>` (octal 0402 .. 0405) used by `updateDirection`. -/
def KEY_DOWN : Int := 258
def KEY_UP : Int := 259
def KEY_LEFT : Int := 260
def KEY_RIGHT : Int := 261
/-- The character literal `'p'`. -/
def KEY_p : Int := 112

abbrev Dir := Fin 4

def UP : Dir := 0
def DOWN : Dir := 1
def LEFT : Dir := 2
def RIGHT : Dir := 3

/-- Table `int dy[4] = {-1, 1, 0, 0}`. -/
def dy (d : Dir) : Int := ![-1, 1, 0, 0] d
/-- Table `int dx[4] = {0, 0, -1, 1}`. -/
def dx (d : Dir) : Int := ![0, 0, -1, 1] d

def clockwise (d : Dir) : Dir := ![3, 2, 0, 1] d
def counterClockwise (d : Dir) : Dir := ![2, 3, 1, 0] d
def opposite (d : Dir) : Dir := ![1, 0, 3, 2] d

def stageTurnLimitPerStage : List Int := [500, 400, 300, 250]
def mission_length_per_stage : List Int := [6, 9, 12, 15]
def mission_growth_per_stage : List Int := [5, 7, 9, 11]
def mission_poison_per_stage : List Int := [2, 4, 6, 8]
def mission_gate_per_stage : List Int := [2, 3, 4, 5]
def delay_per_stage : List Int := [220000, 180000, 120000, 60000]

/-! ## Grid -/

abbrev Pos := Int × Int
abbrev Grid := Int → Int → Int

def inBounds (y x : Int) : Prop := 0 ≤ y ∧ y < HEIGHT ∧ 0 ≤ x ∧ x < WIDTH

instance (y x : Int) : Decidable (inBounds y x) := by
  unfold inBounds; infer_instance

/-- The assignment `map[y][x] = v`. -/
def setCell (m : Grid) (y x v : Int) : Grid :=
  fun i j => if i = y ∧ j = x then v else m i j

/-- Cells of the array in the order of the nested loops
`for y in 0..HEIGHT-1, for x in 0..WIDTH-1`. -/
def allCells : List Pos :=
  (List.range 21).flatMap fun (y : Nat) =>
    (List.range 21).map fun (x : Nat) => ((y : Int), (x : Int))

/-- The counting loops of the spawn functions: number of cells holding `k`. -/
def countCells (m : Grid) (k : Int) : Nat :=
  (allCells.filter fun p => m p.1 p.2 = k).length

/-! ## State: the global variables -/

structure State where
  gameOver : Bool
  gameOverReason : Int
  gameWon : Bool
  currentStage : Nat
  snake : List Pos
  headY : Int
  headX : Int
  dirIndex : Dir
  prevDirIndex : Dir
  map : Grid
  itemFrame : Int
  gateSpawned : Bool
  gateLifetimeCounter : Int
  collected_growth_items : Int
  collected_poison_items : Int
  gates_used_count : Int
  total_score_growth : Int
  total_score_poison : Int
  total_score_gate : Int
  maxLengthAchieved : Int
  stageTurnCounter : Int
  paused : Bool
  gateA : Pos
  gateB : Pos
  /-- The `static int gateCooldown` of `moveSnake`. -/
  gateCooldown : Int
  /-- The display flags `bool missionStatusLength[STAGES]` etc., one per stage. -/
  missionStatusLength : List Bool
  missionStatusGrowth : List Bool
  missionStatusPoison : List Bool
  missionStatusGate : List Bool

/-! ## updateDirection -/

def updateDirection (s : State) (ch : Int) : State :=
  if s.paused = true ∧ ch = KEY_p then { s with paused := false }
  else if ch = KEY_p then { s with paused := true }
  else
    let newDir : Dir :=
      if ch = KEY_UP then UP
      else if ch = KEY_DOWN then DOWN
      else if ch = KEY_LEFT then LEFT
      else if ch = KEY_RIGHT then RIGHT
      else s.dirIndex
    let isUturn : Bool :=
      decide ((s.dirIndex = UP ∧ newDir = DOWN) ∨ (s.dirIndex = DOWN ∧ newDir = UP) ∨
        (s.dirIndex = LEFT ∧ newDir = RIGHT) ∨ (s.dirIndex = RIGHT ∧ newDir = LEFT))
    let s1 : State := if isUturn = true then { s with gameOverReason := 1 } else s
    if newDir ≠ s1.dirIndex ∧ isUturn = false then
      { s1 with prevDirIndex := s1.dirIndex, dirIndex := newDir }
    else s1

/-! ## Gate geometry -/

/-- The test `nextY >= 0 && nextY < HEIGHT && nextX >= 0 && nextX < WIDTH &&
(map == 0 || map == 4 || map == 2)` of `calculateExitDirection`. -/
def exitOk (m : Grid) (y x : Int) (d : Dir) : Bool :=
  let nextY := y + dy d
  let nextX := x + dx d
  decide (nextY ≥ 0 ∧ nextY < HEIGHT ∧ nextX ≥ 0 ∧ nextX < WIDTH ∧
    (m nextY nextX = 0 ∨ m nextY nextX = 4 ∨ m nextY nextX = 2))

def calculateExitDirection (m : Grid) (exitGateY exitGateX : Int) (entryDirection : Dir) : Dir :=
  if exitGateY = 0 ∧ m exitGateY exitGateX = 1 then DOWN
  else if exitGateY = HEIGHT - 1 ∧ m exitGateY exitGateX = 1 then UP
  else if exitGateX = 0 ∧ m exitGateY exitGateX = 1 then RIGHT
  else if exitGateX = WIDTH - 1 ∧ m exitGateY exitGateX = 1 then LEFT
  else
    let possibleDirections : List Dir :=
      [entryDirection, clockwise entryDirection, counterClockwise entryDirection,
        opposite entryDirection]
    match possibleDirections.find? (exitOk m exitGateY exitGateX) with
    | some d => d
    | none =>
      match ([0, 1, 2, 3] : List Dir).find? (exitOk m exitGateY exitGateX) with
      | some d => d
      | none => entryDirection

/-- Result of `teleportThroughGate(y, x, entryDirection)`: the new values of the
reference parameters `y`, `x` and the state with `dirIndex` updated. -/
def teleportThroughGate (s : State) (y x : Int) (entryDirection : Dir) : Int × Int × State :=
  let otherGate : Pos := if y = s.gateA.1 ∧ x = s.gateA.2 then s.gateB else s.gateA
  let exitGateY := otherGate.1
  let exitGateX := otherGate.2
  let newExitDirection := calculateExitDirection s.map exitGateY exitGateX entryDirection
  (exitGateY + dy newExitDirection, exitGateX + dx newExitDirection,
    { s with dirIndex := newExitDirection })

/-! ## Item spawning -/

/-- The loop `do { y = rand() % HEIGHT; x = rand() % WIDTH; } while (map[y][x] != 0)`
run on the successive pairs of `rand()` values; `none` when the draws are used
up while the loop is still running. -/
def rejectionSample (m : Grid) : List (Nat × Nat) → Option Pos
  | [] => none
  | (r1, r2) :: rest =>
    let y : Int := (r1 : Int) % HEIGHT
    let x : Int := (r2 : Int) % WIDTH
    if m y x ≠ 0 then rejectionSample m rest else some (y, x)

def spawnGrowthItem (s : State) (rnd : List (Nat × Nat)) : Option State :=
  if countCells s.map 4 ≥ maxGrowthItems then some s
  else
    match rejectionSample s.map rnd with
    | none => none
    | some (y, x) => some { s with map := setCell s.map y x 4, itemFrame := ITEM_LIFESPAN }

def spawnPoisonItem (s : State) (rnd : List (Nat × Nat)) : Option State :=
  if countCells s.map 2 ≥ maxPoisonItems then some s
  else
    match rejectionSample s.map rnd with
    | none => none
    | some (y, x) => some { s with map := setCell s.map y x 2, itemFrame := ITEM_LIFESPAN }

/-! ## moveSnake -/

/-- Item expiration block of `moveSnake` (lines 298-306). -/
def expireItems (s : State) : State :=
  if s.itemFrame > 0 then
    let s1 : State := { s with itemFrame := s.itemFrame - 1 }
    if s1.itemFrame = 0 then
      { s1 with map := fun y x =>
          if inBounds y x ∧ (s1.map y x = 4 ∨ s1.map y x = 2) then 0 else s1.map y x }
    else s1
  else s

/-- The block `if (!snake.empty()) { tail = snake.back(); map[tail] = 0; snake.pop_back(); }`. -/
def removeTail (s : State) : State :=
  match s.snake.getLast? with
  | none => s
  | some tail => { s with map := setCell s.map tail.1 tail.2 0, snake := s.snake.dropLast }

/-- Lines 361-389 of `moveSnake`: tail removal, head advance, turn counter,
maximum length, cooldown tick. -/
def finishMove (s : State) (grew : Bool) (ny nx : Int) : State :=
  let s1 : State := if grew = false then removeTail s else s
  let s2 : State :=
    { s1 with headY := ny, headX := nx, snake := (ny, nx) :: s1.snake,
              map := setCell s1.map ny nx 3 }
  let s3 : State := { s2 with stageTurnCounter := s2.stageTurnCounter + 1 }
  if s3.stageTurnCounter > stageTurnLimitPerStage.getD s3.currentStage 0 then
    { s3 with gameOverReason := 4 }
  else
    let s4 : State :=
      { s3 with maxLengthAchieved := max s3.maxLengthAchieved (s3.snake.length : Int) }
    let s5 : State :=
      if s4.gateCooldown > 0 then { s4 with gateCooldown := s4.gateCooldown - 1 } else s4
    { s5 with prevDirIndex := s5.dirIndex }

def moveSnake (s0 : State) (rnd : List (Nat × Nat)) : Option State :=
  let ny := s0.headY + dy s0.dirIndex
  let nx := s0.headX + dx s0.dirIndex
  let s := expireItems s0
  if ny < 0 ∨ ny ≥ HEIGHT ∨ nx < 0 ∨ nx ≥ WIDTH then some { s with gameOverReason := 2 }
  else
    let tgt := s.map ny nx
    if tgt ≠ 5 ∧ (tgt = 1 ∨ tgt = IMMUNE_WALL ∨ tgt = 3) then
      some { s with gameOverReason := if tgt = 3 then 3 else 2 }
    else if tgt = 4 then
      let s1 : State :=
        { s with collected_growth_items := s.collected_growth_items + 1,
                 total_score_growth := s.total_score_growth + 10,
                 map := setCell s.map ny nx 0 }
      (spawnGrowthItem s1 rnd).map fun s2 => finishMove s2 true ny nx
    else if tgt = 2 then
      let s1 : State :=
        { s with collected_poison_items := s.collected_poison_items + 1,
                 total_score_poison := s.total_score_poison - 5 }
      let s2 : State := removeTail s1
      if s1.snake ≠ [] ∧ s2.snake.length < 3 then some { s2 with gameOverReason := 5 }
      else
        let s3 : State := { s2 with map := setCell s2.map ny nx 0 }
        (spawnPoisonItem s3 rnd).map fun s4 => finishMove s4 false ny nx
    else if tgt = 5 then
      if s.gateCooldown > 0 then some { s with gameOverReason := 6 }
      else
        let s1 : State :=
          { s with gates_used_count := s.gates_used_count + 1,
                   total_score_gate := s.total_score_gate + 20 }
        let entry := s1.dirIndex
        let (ty, tx, s2) := teleportThroughGate s1 ny nx entry
        if ty < 0 ∨ ty ≥ HEIGHT ∨ tx < 0 ∨ tx ≥ WIDTH ∨ s2.map ty tx = 1 ∨
            s2.map ty tx = IMMUNE_WALL ∨ s2.map ty tx = 3 then
          some { s2 with gameOverReason := if s2.map ty tx = 3 then 3 else 2 }
        else
          some (finishMove { s2 with gateCooldown := GATE_COOLDOWN_TICKS } false ty tx)
    else some (finishMove s false ny nx)

/-! ## Gates -/

/-- Inner loop of `spawnGates`: some orthogonal neighbour is in bounds and Empty. -/
def hasValidExitSpace (m : Grid) (y x : Int) : Bool :=
  ([0, 1, 2, 3] : List Dir).any fun i =>
    let adjY := y + dy i
    let adjX := x + dx i
    decide (adjY ≥ 0 ∧ adjY < HEIGHT ∧ adjX ≥ 0 ∧ adjX < WIDTH ∧ m adjY adjX = 0)

/-- The vector `wallCandidates` built by the double loop of `spawnGates`. -/
def wallCandidates (m : Grid) : List Pos :=
  allCells.filter fun p => decide (m p.1 p.2 = 1) && hasValidExitSpace m p.1 p.2

/-- The function `spawnGates`; `shuffle` is the rearrangement `std::shuffle` performs. -/
def spawnGates (s : State) (shuffle : List Pos → List Pos) : State :=
  let m1 : Grid := if s.gateA.1 ≠ -1 then setCell s.map s.gateA.1 s.gateA.2 1 else s.map
  let m2 : Grid := if s.gateB.1 ≠ -1 then setCell m1 s.gateB.1 s.gateB.2 1 else m1
  let s1 : State := { s with map := m2, gateA := (-1, -1), gateB := (-1, -1) }
  let cands := wallCandidates m2
  if cands.length < 2 then s1
  else
    let shuffled := shuffle cands
    let a : Pos := shuffled.getD 0 (-1, -1)
    let b : Pos := shuffled.getD 1 (-1, -1)
    { s1 with gateA := a, gateB := b,
              map := setCell (setCell m2 a.1 a.2 5) b.1 b.2 5,
              gateLifetimeCounter := 0 }

/-! ## Stage set-up and the game loop -/

/-- The wall-building double loop of `initStage` (lines 580-589). -/
def buildWalls (m : Grid) : Grid := fun y x =>
  if inBounds y x then
    if (y = 0 ∨ y = HEIGHT - 1) ∧ (x = 0 ∨ x = WIDTH - 1) then IMMUNE_WALL
    else if y = 0 ∨ y = HEIGHT - 1 ∨ x = 0 ∨ x = WIDTH - 1 then 1
    else 0
  else m y x

/-- The inner-wall double loop of `initStage` (lines 592-598); `draw y x` is the
outcome of the test `(rand() / (double)RAND_MAX) * 100.0 < prob` at that cell. -/
def placeInnerWalls (m : Grid) (draw : Int → Int → Bool) : Grid := fun y x =>
  if 1 ≤ y ∧ y < HEIGHT - 1 ∧ 1 ≤ x ∧ x < WIDTH - 1 ∧ m y x = 0 ∧ draw y x = true then 1
  else m y x

/-- The function `initStage(stage)`.  `wallDraw stage` gives the outcomes of the inner-wall
tests (whose probability is `innerWallProbability[stage]`), `rndG` and `rndP`
the draws of the two item spawns, `shuffle` the rearrangement of the gate
candidates.  The unused globals `gateEntryY` .. `gateExitX` and `length` are
not part of `State`. -/
def initStage (s : State) (stage : Nat) (wallDraw : Nat → Int → Int → Bool)
    (rndG rndP : List (Nat × Nat)) (shuffle : List Pos → List Pos) : Option State :=
  let s1 : State :=
    { s with snake := [], stageTurnCounter := 0, gateSpawned := false,
             gateLifetimeCounter := 0, itemFrame := ITEM_LIFESPAN }
  let m1 := placeInnerWalls (buildWalls s1.map) (wallDraw stage)
  let headY := HEIGHT / 2
  let headX := WIDTH / 2
  let m2 := setCell (setCell (setCell m1 headY headX 0) headY (headX - 1) 0) headY (headX - 2) 0
  let snake : List Pos := (headY, headX - 2) :: (headY, headX - 1) :: (headY, headX) :: s1.snake
  let m3 := snake.foldl (fun m seg => setCell m seg.1 seg.2 3) m2
  let s2 : State :=
    { s1 with headY := headY, headX := headX, snake := snake, map := m3,
              dirIndex := RIGHT, prevDirIndex := RIGHT }
  (spawnGrowthItem s2 rndG).bind fun s3 =>
    (spawnPoisonItem s3 rndP).map fun s4 => spawnGates s4 shuffle

/-- Values of the globals when the program starts (static initialisers;
`map`, `headY`, `headX` are zero-initialised). -/
def bootState : State :=
  { gameOver := false, gameOverReason := 0, gameWon := false, currentStage := 0,
    snake := [], headY := 0, headX := 0, dirIndex := 3, prevDirIndex := 3,
    map := fun _ _ => 0, itemFrame := ITEM_LIFESPAN, gateSpawned := false,
    gateLifetimeCounter := 0, collected_growth_items := 0, collected_poison_items := 0,
    gates_used_count := 0, total_score_growth := 0, total_score_poison := 0,
    total_score_gate := 0, maxLengthAchieved := 3, stageTurnCounter := 0, paused := false,
    gateA := (-1, -1), gateB := (-1, -1), gateCooldown := 0,
    missionStatusLength := [false, false, false, false],
    missionStatusGrowth := [false, false, false, false],
    missionStatusPoison := [false, false, false, false],
    missionStatusGate := [false, false, false, false] }

/-- Prologue of `playGame` (lines 1351-1380): session reset, then `initStage(0)`. -/
def playGameStart (s : State) (wallDraw : Nat → Int → Int → Bool)
    (rndG rndP : List (Nat × Nat)) (shuffle : List Pos → List Pos) : Option State :=
  let s1 : State :=
    { s with gameOver := false, gameOverReason := 0, gameWon := false, currentStage := 0,
             total_score_growth := 0, total_score_poison := 0, total_score_gate := 0,
             maxLengthAchieved := 3, collected_growth_items := 0,
             collected_poison_items := 0, gates_used_count := 0,
             missionStatusLength := List.replicate STAGES false,
             missionStatusGrowth := List.replicate STAGES false,
             missionStatusPoison := List.replicate STAGES false,
             missionStatusGate := List.replicate STAGES false }
  initStage s1 s1.currentStage wallDraw rndG rndP shuffle

/-- Stage advancement of the game loop (lines 1431-1443), entered when
`!gameOver && checkMissionClear()`. -/
def advanceStage (s : State) (wallDraw : Nat → Int → Int → Bool)
    (rndG rndP : List (Nat × Nat)) (shuffle : List Pos → List Pos) : Option State :=
  let s1 : State := { s with currentStage := s.currentStage + 1 }
  if s1.currentStage ≥ STAGES then some { s1 with gameOver := true, gameWon := true }
  else
    let s2 : State :=
      { s1 with collected_growth_items := 0, collected_poison_items := 0,
                gates_used_count := 0 }
    initStage s2 s2.currentStage wallDraw rndG rndP shuffle

/-- States the program can be in at the head of the game loop or right after
`moveSnake`: a session start from the boot state or from an earlier session, any
tick (`updateDirection` then `moveSnake`, any key, any draws), any stage
advancement.  Ticks and advancements are not restricted to the iterations in
which `playGame` performs them, so every state of a real run is included. -/
inductive Reachable : State → Prop
  | start (wallDraw : Nat → Int → Int → Bool) (rndG rndP : List (Nat × Nat))
      (shuffle : List Pos → List Pos) (s : State) :
      (∀ l, (shuffle l).Perm l) →
      playGameStart bootState wallDraw rndG rndP shuffle = some s → Reachable s
  | restart (s0 : State) (wallDraw : Nat → Int → Int → Bool) (rndG rndP : List (Nat × Nat))
      (shuffle : List Pos → List Pos) (s : State) :
      Reachable s0 → (∀ l, (shuffle l).Perm l) →
      playGameStart s0 wallDraw rndG rndP shuffle = some s → Reachable s
  | moved (s0 : State) (ch : Int) (rnd : List (Nat × Nat)) (s : State) :
      Reachable s0 → moveSnake (updateDirection s0 ch) rnd = some s → Reachable s
  | advanced (s0 : State) (wallDraw : Nat → Int → Int → Bool) (rndG rndP : List (Nat × Nat))
      (shuffle : List Pos → List Pos) (s : State) :
      Reachable s0 → (∀ l, (shuffle l).Perm l) →
      advanceStage s0 wallDraw rndG rndP shuffle = some s → Reachable s

/-- Lock-step of grid and snake: the segments are pairwise distinct cells of the
grid, a cell is marked SnakeBody (3) exactly when it is a segment, and the number
of SnakeBody cells is the length of the snake. -/
def LockStep (s : State) : Prop :=
  s.snake.Nodup ∧ (∀ p ∈ s.snake, inBounds p.1 p.2) ∧
  (∀ y x, inBounds y x → (s.map y x = 3 ↔ (y, x) ∈ s.snake)) ∧
  countCells s.map 3 = s.snake.length

/-- Lock-step without the count: distinct segments inside the grid, marked
exactly by the SnakeBody cells. -/
def Synced (m : Grid) (sn : List Pos) : Prop :=
  sn.Nodup ∧ (∀ p ∈ sn, inBounds p.1 p.2) ∧
  ∀ y x, inBounds y x → (m y x = 3 ↔ (y, x) ∈ sn)

/-- Cells of the fresh snake laid out by `initStage`. -/
def centreCells : List Pos :=
  [(HEIGHT / 2, WIDTH / 2 - 2), (HEIGHT / 2, WIDTH / 2 - 1), (HEIGHT / 2, WIDTH / 2)]

/-- Invariant carried along the runs: grid and snake in lock-step, and the
recorded gate positions off the cells on which `initStage` lays the snake (so
that the reverting of the old gates in `spawnGates` cannot hit the new snake). -/
def Inv (s : State) : Prop :=
  Synced s.map s.snake ∧ s.gateA ∉ centreCells ∧ s.gateB ∉ centreCells

/-- The grid after the first four lines of `spawnGates`: the cells of the old
pair reverted to Wall. -/
def revertGates (s : State) : Grid :=
  let m1 : Grid := if s.gateA.1 ≠ -1 then setCell s.map s.gateA.1 s.gateA.2 1 else s.map
  if s.gateB.1 ≠ -1 then setCell m1 s.gateB.1 s.gateB.2 1 else m1

/-- State of `initStage` just before the three spawn calls (lines 568-619). -/
def freshStage (s : State) (stage : Nat) (wallDraw : Nat → Int → Int → Bool) : State :=
  { s with
    snake := centreCells, stageTurnCounter := 0, gateSpawned := false,
    gateLifetimeCounter := 0, itemFrame := ITEM_LIFESPAN,
    headY := HEIGHT / 2, headX := WIDTH / 2,
    map := centreCells.foldl (fun m seg => setCell m seg.1 seg.2 3)
      (setCell (setCell (setCell (placeInnerWalls (buildWalls s.map) (wallDraw stage))
        (HEIGHT / 2) (WIDTH / 2) 0) (HEIGHT / 2) (WIDTH / 2 - 1) 0) (HEIGHT / 2) (WIDTH / 2 - 2) 0),
    dirIndex := RIGHT, prevDirIndex := RIGHT }

/-- State in which `initStage` calls `spawnGates()` (line 624): the fresh stage
after the two item spawns. -/
def spawnGatesInput (s : State) (stage : Nat) (wallDraw : Nat → Int → Int → Bool)
    (rndG rndP : List (Nat × Nat)) : Option State :=
  (spawnGrowthItem (freshStage s stage wallDraw) rndG).bind fun s3 => spawnPoisonItem s3 rndP

/-- Row of the candidate head cell `ny = headY + dy[dirIndex]`. -/
abbrev nextY (s : State) : Int := s.headY + dy s.dirIndex
/-- Column of the candidate head cell `nx = headX + dx[dirIndex]`. -/
abbrev nextX (s : State) : Int := s.headX + dx s.dirIndex
/-- The value `tgt = map[ny][nx]` read after the item expiration block. -/
abbrev target (s : State) : Int := (expireItems s).map (nextY s) (nextX s)

/-- State of the Growth branch of `moveSnake` just before `spawnGrowthItem()`
(lines 324-327). -/
def growthEaten (s : State) : State :=
  { expireItems s with
    collected_growth_items := (expireItems s).collected_growth_items + 1,
    total_score_growth := (expireItems s).total_score_growth + 10,
    map := setCell (expireItems s).map (nextY s) (nextX s) 0 }

/-- State of the Poison branch of `moveSnake` after the counters and the immediate
tail removal (lines 330-335). -/
def poisonEaten (s : State) : State :=
  removeTail
    { expireItems s with
      collected_poison_items := (expireItems s).collected_poison_items + 1,
      total_score_poison := (expireItems s).total_score_poison - 5 }

/-- State of the Poison branch of `moveSnake` just before `spawnPoisonItem()`
(line 342). -/
def poisonCleared (s : State) : State :=
  let s2 := poisonEaten s
  { s2 with map := setCell s2.map (nextY s) (nextX s) 0 }

/-- State of the Gate branch of `moveSnake` after the counters (lines 349-350). -/
def gateEntered (s : State) : State :=
  { expireItems s with
    gates_used_count := (expireItems s).gates_used_count + 1,
    total_score_gate := (expireItems s).total_score_gate + 20 }

/-- Result of the call `teleportThroughGate(ny, nx, entry)` made by `moveSnake`. -/
def gateExit (s : State) : Int × Int × State :=
  teleportThroughGate (gateEntered s) (nextY s) (nextX s) (gateEntered s).dirIndex

/-- State of the Gate branch of `moveSnake` after a successful teleport, with the
cooldown armed (line 358). -/
def gateArmed (s : State) : State :=
  let s2 := (gateExit s).2.2
  { s2 with gateCooldown := GATE_COOLDOWN_TICKS }

/-- State in which `moveSnake` returns when the post-teleport test fails
(lines 355-356). -/
def gateCrashed (s : State) : State :=
  let s2 := (gateExit s).2.2
  { s2 with gameOverReason := if s2.map (gateExit s).1 (gateExit s).2.1 = 3 then 3 else 2 }

/-- The post-teleport collision test of `moveSnake` (lines 353-354). -/
def gateExitBlocked (s : State) : Prop :=
  (gateExit s).1 < 0 ∨ (gateExit s).1 ≥ HEIGHT ∨ (gateExit s).2.1 < 0 ∨
    (gateExit s).2.1 ≥ WIDTH ∨ (gateExit s).2.2.map (gateExit s).1 (gateExit s).2.1 = 1 ∨
    (gateExit s).2.2.map (gateExit s).1 (gateExit s).2.1 = IMMUNE_WALL ∨
    (gateExit s).2.2.map (gateExit s).1 (gateExit s).2.1 = 3

instance (s : State) : Decidable (gateExitBlocked s) := by
  unfold gateExitBlocked; infer_instance

/-- The local `otherGate` of `teleportThroughGate`: the gate of the pair that is
not the one entered at `(y, x)`. -/
def otherGate (s : State) (y x : Int) : Pos :=
  if y = s.gateA.1 ∧ x = s.gateA.2 then s.gateB else s.gateA

/-! ## Mission check, game loop and final score -/

/-- The function `checkMissionClear`: its return value and the state with the
display flags of the current stage updated. -/
def checkMissionClear (s : State) : Bool × State :=
  let stageIdx := s.currentStage
  let lengthClear : Bool :=
    decide ((s.snake.length : Int) ≥ mission_length_per_stage.getD stageIdx 0)
  let growthClear : Bool :=
    decide (s.collected_growth_items ≥ mission_growth_per_stage.getD stageIdx 0)
  let poisonClear : Bool :=
    decide (s.collected_poison_items ≥ mission_poison_per_stage.getD stageIdx 0)
  let gateClear : Bool :=
    decide (s.gates_used_count ≥ mission_gate_per_stage.getD stageIdx 0)
  (lengthClear && growthClear && poisonClear && gateClear,
    { s with
      missionStatusLength := s.missionStatusLength.set stageIdx lengthClear,
      missionStatusGrowth := s.missionStatusGrowth.set stageIdx growthClear,
      missionStatusPoison := s.missionStatusPoison.set stageIdx poisonClear,
      missionStatusGate := s.missionStatusGate.set stageIdx gateClear })

/-- The character literals `'q'`, `'Q'` and `'P'`. -/
def KEY_q : Int := 113
def KEY_Q : Int := 81
def KEY_P : Int := 80

/-- State of the game loop of `playGame`: the globals and the two locals `DELAY`
and `isPaused`. -/
structure LoopState where
  g : State
  DELAY : Int
  isPaused : Bool

/-- The part of the loop body after `moveSnake()` (lines 1424-1458): game-over
test, mission check and stage advancement, on the state `s1` left by `moveSnake`. -/
def stageCheck (DELAY : Int) (isPaused : Bool) (s1 : State)
    (wallDraw : Nat → Int → Int → Bool) (rndG rndP : List (Nat × Nat))
    (shuffle : List Pos → List Pos) : Option LoopState :=
  let s2 : State :=
    if s1.gameOverReason ≠ 0 ∨ s1.snake.length < 3 then { s1 with gameOver := true }
    else s1
  if s2.gameOver = false then
    let s3 : State := (checkMissionClear s2).2
    if (checkMissionClear s2).1 = true then
      let s4 : State := { s3 with currentStage := s3.currentStage + 1 }
      if s4.currentStage ≥ STAGES then
        some { g := { s4 with gameOver := true, gameWon := true },
               DELAY := DELAY, isPaused := isPaused }
      else
        let s5 : State :=
          { s4 with collected_growth_items := 0, collected_poison_items := 0,
                    gates_used_count := 0 }
        (initStage s5 s5.currentStage wallDraw rndG rndP shuffle).map fun s6 =>
          { g := s6, DELAY := delay_per_stage.getD s6.currentStage 0,
            isPaused := isPaused }
    else some { g := s3, DELAY := DELAY, isPaused := isPaused }
  else some { g := s2, DELAY := DELAY, isPaused := isPaused }

/-- One iteration of the loop `while (!gameOver)` of `playGame` (lines 1395-1476)
on the key `ch` returned by `getch()`; the drawing calls and `timeout`/`usleep`
are left out.  `rnd` are the draws of the tick, the other arguments those of
`initStage` when the stage advances. -/
def gameStep (ls : LoopState) (ch : Int) (rnd : List (Nat × Nat))
    (wallDraw : Nat → Int → Int → Bool) (rndG rndP : List (Nat × Nat))
    (shuffle : List Pos → List Pos) : Option LoopState :=
  if ch = KEY_q ∨ ch = KEY_Q then some { ls with g := { ls.g with gameOver := true } }
  else
    let isPaused : Bool := if ch = KEY_p ∨ ch = KEY_P then !ls.isPaused else ls.isPaused
    if isPaused = true then some { ls with isPaused := isPaused }
    else
      (moveSnake (updateDirection ls.g ch) rnd).bind fun s1 =>
        stageCheck ls.DELAY isPaused s1 wallDraw rndG rndP shuffle

/-- The state handed to `initStage` when the stage advances after the tick left
`s1`: flags written by `checkMissionClear`, stage index incremented, per-stage
counters reset (lines 1431-1441). -/
def nextStageInput (s1 : State) : State :=
  let s3 : State := (checkMissionClear s1).2
  { s3 with currentStage := s3.currentStage + 1, collected_growth_items := 0,
            collected_poison_items := 0, gates_used_count := 0 }

/-- The value `finalScore` computed when the loop of `playGame` has ended
(lines 1482-1483). -/
def finalScore (s : State) : Int :=
  (s.snake.length : Int) * 100 + s.total_score_growth - s.total_score_poison +
    s.total_score_gate

/-- The value `currentTotalScore` shown by `drawScoreboard` (line 1073). -/
def currentTotalScore (s : State) : Int :=
  s.total_score_growth + s.total_score_poison + s.total_score_gate

/-- No cell of the grid holds an item (Growth 4 or Poison 2). -/
def NoItems (m : Grid) : Prop :=
  ∀ y x, inBounds y x → m y x ≠ 4 ∧ m y x ≠ 2

/-- Some draw of the list lands on an Empty cell. -/
def hitsEmpty (m : Grid) (rnd : List (Nat × Nat)) : Prop :=
  ∃ r ∈ rnd, m ((r.1 : Int) % HEIGHT) ((r.2 : Int) % WIDTH) = 0

/-! ## Predicates used in the statements about ticks -/

/-- The tick of `moveSnake` from `s` completes its move: it reaches the head
advance (line 371) instead of returning on a boundary, wall or self collision, on
the short-length test of the Poison branch, on the gate cooldown or on the
post-teleport test. -/
def movesOn (s : State) : Prop :=
  inBounds (nextY s) (nextX s) ∧ target s ≠ 1 ∧ target s ≠ IMMUNE_WALL ∧ target s ≠ 3 ∧
  ¬ (target s = 2 ∧ s.snake ≠ [] ∧ (poisonEaten s).snake.length < 3) ∧
  ¬ (target s = 5 ∧ (s.gateCooldown > 0 ∨ gateExitBlocked s))

instance (s : State) : Decidable (movesOn s) := by
  unfold movesOn; infer_instance

/-- The test `++stageTurnCounter > stageTurnLimitPerStage[currentStage]` of
`moveSnake` (line 377) succeeds. -/
def turnLimitHit (s : State) : Prop :=
  s.stageTurnCounter + 1 > stageTurnLimitPerStage.getD s.currentStage 0

instance (s : State) : Decidable (turnLimitHit s) := by
  unfold turnLimitHit; infer_instance

/-- The arrow key that `updateDirection` maps to the direction `d`. -/
def arrowKey (d : Dir) : Int := ![KEY_UP, KEY_DOWN, KEY_LEFT, KEY_RIGHT] d

/-- The four corner cells of the grid. -/
def isCorner (y x : Int) : Prop :=
  (y = 0 ∨ y = HEIGHT - 1) ∧ (x = 0 ∨ x = WIDTH - 1)

instance (y x : Int) : Decidable (isCorner y x) := by
  unfold isCorner; infer_instance

/-- The cells of the grid holding ImmuneWall are exactly the four corners. -/
def Corners (m : Grid) : Prop :=
  ∀ y x, inBounds y x → (m y x = IMMUNE_WALL ↔ isCorner y x)

/-- Invariant for the corners: grid and snake in lock-step, the ImmuneWall cells
are the four corners, and no recorded gate is a corner or a cell of the snake laid
by `initStage`. -/
def CornerInv (s : State) : Prop :=
  Inv s ∧ Corners s.map ∧ ¬ isCorner s.gateA.1 s.gateA.2 ∧ ¬ isCorner s.gateB.1 s.gateB.2

/-- At most one cell of the grid holds the value `k`. -/
def AtMostOne (m : Grid) (k : Int) : Prop :=
  ∀ y x y' x', inBounds y x → inBounds y' x' → m y x = k → m y' x' = k → (y, x) = (y', x')

/-- No cell of the grid holds the value `k`. -/
def NoneOf (m : Grid) (k : Int) : Prop :=
  ∀ y x, inBounds y x → m y x ≠ k

/-- A tick (any key, any draws) that completes its move without entering a gate
and without exceeding the turn limit. -/
def QuietTick (s s' : State) : Prop :=
  ∃ (ch : Int) (rnd : List (Nat × Nat)),
    movesOn (updateDirection s ch) ∧ target (updateDirection s ch) ≠ 5 ∧
    ¬ turnLimitHit (updateDirection s ch) ∧
    moveSnake (updateDirection s ch) rnd = some s'

/-- The state `s'` is reached from `s` by `n` quiet ticks in sequence. -/
inductive QuietRun : Nat → State → State → Prop
  | zero (s : State) : QuietRun 0 s s
  | succ (n : Nat) (s s' s'' : State) : QuietRun n s s' → QuietTick s' s'' → QuietRun (n + 1) s s''

/-- A tick (any key, any draws) that completes its move. -/
def MoveTick (s s' : State) : Prop :=
  ∃ (ch : Int) (rnd : List (Nat × Nat)),
    movesOn (updateDirection s ch) ∧ moveSnake (updateDirection s ch) rnd = some s'

/-- The state `s'` is reached from `s` by `n` completed moves in sequence. -/
inductive MoveRun : Nat → State → State → Prop
  | zero (s : State) : MoveRun 0 s s
  | succ (n : Nat) (s s' s'' : State) : MoveRun n s s' → MoveTick s' s'' → MoveRun (n + 1) s s''

/-- A tick of active play: `updateDirection` on any key, then `moveSnake` on any
draws, returning `s'`. -/
def Tick (s s' : State) : Prop :=
  ∃ (ch : Int) (rnd : List (Nat × Nat)), moveSnake (updateDirection s ch) rnd = some s'

/-- The state `s'` is reached from `s` by `n` ticks in sequence. -/
inductive TickRun : Nat → State → State → Prop
  | zero (s : State) : TickRun 0 s s
  | succ (n : Nat) (s s' s'' : State) : TickRun n s s' → Tick s' s'' → TickRun (n + 1) s s''

/-! ## Concrete states used to evaluate the definitions -/

/-- Border walls with immune corners and an empty interior. -/
def borderGrid : Grid := fun y x =>
  if (y = 0 ∨ y = HEIGHT - 1) ∧ (x = 0 ∨ x = WIDTH - 1) then IMMUNE_WALL
  else if y = 0 ∨ y = HEIGHT - 1 ∨ x = 0 ∨ x = WIDTH - 1 then 1
  else 0

/-- Marks the cells of a list as SnakeBody. -/
def markSnake (m : Grid) (snake : List Pos) : Grid :=
  snake.foldl (fun g seg => setCell g seg.1 seg.2 3) m

/-- A snake heading Right along row 10 with its head at `(10, 10)` and `n`
segments, on `borderGrid`, with the cell ahead `(10, 11)` holding `cell`. -/
def stateFacing (n : Nat) (cell : Int) : State :=
  let snake : List Pos := (List.range n).map fun (i : Nat) => ((10 : Int), (10 : Int) - (i : Int))
  { bootState with
    snake := snake, headY := 10, headX := 10,
    map := setCell (markSnake borderGrid snake) 10 11 cell }

/-- The grid `borderGrid` with a gate on the top border at `(0, 5)` whose only
interior neighbour `(1, 5)` is occupied by the snake. -/
def borderGateGrid : Grid := setCell (setCell borderGrid 0 5 5) 1 5 3

/-- A 4-segment snake heading Right into the gate `gateA = (10, 11)`; the other
gate `gateB = (0, 5)` lies on the top border with the Empty cell `(1, 5)` below. -/
def gateDemoState : State :=
  { stateFacing 4 5 with
    gateA := (10, 11), gateB := (0, 5), map := setCell (stateFacing 4 5).map 0 5 5 }

/-- A 15-segment snake on the last stage heading Up into the gate `gateA = (0, 7)`;
the other gate `gateB = (5, 0)` lies on the left border and its only interior
neighbour `(5, 1)` is a cell of the snake.  Growth and poison missions are
complete and the gate mission needs one more gate. -/
def lastStageGateState : State :=
  let snake : List Pos :=
    [(1, 7), (1, 6), (1, 5), (1, 4), (1, 3), (1, 2), (1, 1), (2, 1), (3, 1), (4, 1), (5, 1),
      (6, 1), (7, 1), (8, 1), (9, 1)]
  { bootState with
    currentStage := 3, snake := snake, headY := 1, headX := 7, dirIndex := UP,
    prevDirIndex := UP, gateA := (0, 7), gateB := (5, 0),
    map := setCell (setCell (markSnake borderGrid snake) 0 7 5) 5 0 5,
    collected_growth_items := 11, collected_poison_items := 8, gates_used_count := 4,
    total_score_growth := 110, total_score_poison := -40, total_score_gate := 80,
    maxLengthAchieved := 15, stageTurnCounter := 100 }

/-- A 6-segment snake on stage 0 heading Right onto an Empty cell, with the
growth, poison and gate missions of the stage complete. -/
def missionDoneState : State :=
  { stateFacing 6 0 with
    collected_growth_items := 5, collected_poison_items := 2, gates_used_count := 2 }

/-- The state in which `initStage(1)` calls `spawnGates()` in a session started
from the boot state and advanced to stage 1, no inner wall being drawn and the
item draws being `(3, 3)` and `(5, 5)` in both stages, with the identity shuffle
in stage 0. -/
def secondStageCall : Option State :=
  (playGameStart bootState (fun _ _ _ => false) [(3, 3)] [(5, 5)] id).bind fun s =>
    spawnGatesInput
      { s with currentStage := s.currentStage + 1, collected_growth_items := 0,
               collected_poison_items := 0, gates_used_count := 0 }
      (s.currentStage + 1) (fun _ _ _ => false) [(3, 3)] [(5, 5)]

/-- A 4-segment snake heading Right onto an Empty cell, with the gate pair
`(0, 5)`, `(20, 7)` on the borders and the gate lifetime counter at `c`. -/
def gatesAgedState (c : Int) : State :=
  { stateFacing 4 0 with
    gateA := (0, 5), gateB := (20, 7),
    map := setCell (setCell (stateFacing 4 0).map 0 5 5) 20 7 5,
    gateLifetimeCounter := c }

/-- A 4-segment snake heading Right into the gate `gateA = (10, 11)`; the other
gate `gateB = (11, 12)` has Wall cells to its right and below, so the snake leaves
it upwards onto `(10, 12)`, next to `gateA`. -/
def cooldownDemoState : State :=
  { stateFacing 4 5 with
    gateA := (10, 11), gateB := (11, 12),
    map := setCell (setCell (setCell (stateFacing 4 5).map 11 12 5) 11 13 1) 12 12 1 }

/-! ## Properties of the item expiration block -/

theorem expireItems_map (s : State) (y x : Int) :
    (expireItems s).map y x =
      if s.itemFrame = 1 ∧ inBounds y x ∧ (s.map y x = 4 ∨ s.map y x = 2) then 0
      else s.map y x := by
  unfold expireItems
  by_cases h0 : s.itemFrame > 0
  · by_cases h1 : s.itemFrame - 1 = 0
    · have : s.itemFrame = 1 := by omega
      simp [h0, h1, this]
    · have : s.itemFrame ≠ 1 := by omega
      simp [h0, h1, this]
  · have : s.itemFrame ≠ 1 := by omega
    simp [h0, this]

theorem expireItems_map_of_not_item (s : State) (y x : Int) (h4 : s.map y x ≠ 4)
    (h2 : s.map y x ≠ 2) : (expireItems s).map y x = s.map y x := by
  rw [expireItems_map]; simp [h4, h2]

theorem expireItems_rest (s : State) :
    (expireItems s).snake = s.snake ∧ (expireItems s).headY = s.headY ∧
    (expireItems s).headX = s.headX ∧ (expireItems s).dirIndex = s.dirIndex ∧
    (expireItems s).prevDirIndex = s.prevDirIndex ∧
    (expireItems s).gameOverReason = s.gameOverReason ∧
    (expireItems s).currentStage = s.currentStage ∧
    (expireItems s).collected_growth_items = s.collected_growth_items ∧
    (expireItems s).collected_poison_items = s.collected_poison_items ∧
    (expireItems s).gates_used_count = s.gates_used_count ∧
    (expireItems s).total_score_growth = s.total_score_growth ∧
    (expireItems s).total_score_poison = s.total_score_poison ∧
    (expireItems s).total_score_gate = s.total_score_gate ∧
    (expireItems s).stageTurnCounter = s.stageTurnCounter ∧
    (expireItems s).gateCooldown = s.gateCooldown ∧
    (expireItems s).gateA = s.gateA ∧ (expireItems s).gateB = s.gateB := by
  unfold expireItems
  by_cases h0 : s.itemFrame > 0 <;> by_cases h1 : s.itemFrame - 1 = 0 <;> simp [h0, h1]

/-! ## Tail removal, head advance and spawning: effect on the fields -/

theorem removeTail_snake (s : State) : (removeTail s).snake = s.snake.dropLast := by
  unfold removeTail
  cases h : s.snake.getLast? with
  | none =>
    have : s.snake = [] := List.getLast?_eq_none_iff.mp h
    simp [this]
  | some t => simp

theorem removeTail_of_append (s : State) (l : List Pos) (t : Pos) (h : s.snake = l ++ [t]) :
    removeTail s = { s with map := setCell s.map t.1 t.2 0, snake := l } := by
  unfold removeTail
  simp [h]

theorem removeTail_of_nil (s : State) (h : s.snake = []) : removeTail s = s := by
  unfold removeTail
  simp [h]

theorem removeTail_rest (s : State) :
    (removeTail s).headY = s.headY ∧ (removeTail s).headX = s.headX ∧
    (removeTail s).dirIndex = s.dirIndex ∧
    (removeTail s).gameOverReason = s.gameOverReason ∧
    (removeTail s).currentStage = s.currentStage ∧
    (removeTail s).collected_growth_items = s.collected_growth_items ∧
    (removeTail s).collected_poison_items = s.collected_poison_items ∧
    (removeTail s).gates_used_count = s.gates_used_count ∧
    (removeTail s).total_score_growth = s.total_score_growth ∧
    (removeTail s).total_score_poison = s.total_score_poison ∧
    (removeTail s).total_score_gate = s.total_score_gate ∧
    (removeTail s).stageTurnCounter = s.stageTurnCounter ∧
    (removeTail s).gateCooldown = s.gateCooldown ∧
    (removeTail s).gateA = s.gateA ∧ (removeTail s).gateB = s.gateB ∧
    (removeTail s).itemFrame = s.itemFrame := by
  unfold removeTail
  split <;> simp

theorem finishMove_snake (s : State) (grew : Bool) (ny nx : Int) :
    (finishMove s grew ny nx).snake =
      (ny, nx) :: (if grew = false then s.snake.dropLast else s.snake) := by
  unfold finishMove
  cases grew <;> simp only [Bool.false_eq_true, if_true, if_false] <;>
    split_ifs <;> simp [removeTail_snake, removeTail_rest]

theorem finishMove_map (s : State) (grew : Bool) (ny nx : Int) :
    (finishMove s grew ny nx).map =
      setCell (if grew = false then (removeTail s).map else s.map) ny nx 3 := by
  unfold finishMove
  cases grew <;> simp only [Bool.false_eq_true, if_true, if_false] <;>
    split_ifs <;> simp [removeTail_snake, removeTail_rest]

theorem finishMove_rest (s : State) (grew : Bool) (ny nx : Int) :
    (finishMove s grew ny nx).headY = ny ∧ (finishMove s grew ny nx).headX = nx ∧
    (finishMove s grew ny nx).dirIndex = s.dirIndex ∧
    (finishMove s grew ny nx).gameOverReason =
      (if s.stageTurnCounter + 1 > stageTurnLimitPerStage.getD s.currentStage 0 then 4
       else s.gameOverReason) ∧
    (finishMove s grew ny nx).currentStage = s.currentStage ∧
    (finishMove s grew ny nx).collected_growth_items = s.collected_growth_items ∧
    (finishMove s grew ny nx).collected_poison_items = s.collected_poison_items ∧
    (finishMove s grew ny nx).gates_used_count = s.gates_used_count ∧
    (finishMove s grew ny nx).total_score_growth = s.total_score_growth ∧
    (finishMove s grew ny nx).total_score_poison = s.total_score_poison ∧
    (finishMove s grew ny nx).total_score_gate = s.total_score_gate ∧
    (finishMove s grew ny nx).stageTurnCounter = s.stageTurnCounter + 1 ∧
    (finishMove s grew ny nx).gateA = s.gateA ∧ (finishMove s grew ny nx).gateB = s.gateB ∧
    (finishMove s grew ny nx).itemFrame = s.itemFrame := by
  unfold finishMove
  have hr := removeTail_rest s
  cases grew <;> simp only [Bool.false_eq_true, if_true, if_false] <;>
    split_ifs <;> simp_all <;> omega

/-- What a spawn function leaves alone: every field except `map` and `itemFrame`. -/
theorem spawnGrowthItem_rest (s s2 : State) (rnd : List (Nat × Nat))
    (h : spawnGrowthItem s rnd = some s2) :
    s2.snake = s.snake ∧ s2.headY = s.headY ∧ s2.headX = s.headX ∧
    s2.dirIndex = s.dirIndex ∧ s2.gameOverReason = s.gameOverReason ∧
    s2.currentStage = s.currentStage ∧
    s2.collected_growth_items = s.collected_growth_items ∧
    s2.collected_poison_items = s.collected_poison_items ∧
    s2.gates_used_count = s.gates_used_count ∧
    s2.total_score_growth = s.total_score_growth ∧
    s2.total_score_poison = s.total_score_poison ∧
    s2.total_score_gate = s.total_score_gate ∧
    s2.stageTurnCounter = s.stageTurnCounter ∧ s2.gateCooldown = s.gateCooldown ∧
    s2.gateA = s.gateA ∧ s2.gateB = s.gateB := by
  unfold spawnGrowthItem at h
  split at h
  · cases h; simp
  · split at h
    · cases h
    · cases h; simp

theorem spawnPoisonItem_rest (s s2 : State) (rnd : List (Nat × Nat))
    (h : spawnPoisonItem s rnd = some s2) :
    s2.snake = s.snake ∧ s2.headY = s.headY ∧ s2.headX = s.headX ∧
    s2.dirIndex = s.dirIndex ∧ s2.gameOverReason = s.gameOverReason ∧
    s2.currentStage = s.currentStage ∧
    s2.collected_growth_items = s.collected_growth_items ∧
    s2.collected_poison_items = s.collected_poison_items ∧
    s2.gates_used_count = s.gates_used_count ∧
    s2.total_score_growth = s.total_score_growth ∧
    s2.total_score_poison = s.total_score_poison ∧
    s2.total_score_gate = s.total_score_gate ∧
    s2.stageTurnCounter = s.stageTurnCounter ∧ s2.gateCooldown = s.gateCooldown ∧
    s2.gateA = s.gateA ∧ s2.gateB = s.gateB := by
  unfold spawnPoisonItem at h
  split at h
  · cases h; simp
  · split at h
    · cases h
    · cases h; simp

/-- The rejection loop leaves only at a cell of the grid that is Empty. -/
theorem rejectionSample_spec (m : Grid) (rnd : List (Nat × Nat)) (p : Pos)
    (h : rejectionSample m rnd = some p) : inBounds p.1 p.2 ∧ m p.1 p.2 = 0 := by
  induction rnd with
  | nil => simp [rejectionSample] at h
  | cons r rest ih =>
    obtain ⟨r1, r2⟩ := r
    simp only [rejectionSample] at h
    split at h
    · exact ih h
    · rename_i h0
      cases h
      refine ⟨?_, by simpa using h0⟩
      unfold inBounds HEIGHT WIDTH
      simp only
      omega

/-- The rejection loop leaves as soon as a draw hits an Empty cell: appending such
a draw to any sequence of draws makes the loop return. -/
theorem rejectionSample_append_hit (m : Grid) (rnd : List (Nat × Nat)) (y x : Int)
    (hb : inBounds y x) (h0 : m y x = 0) :
    ∃ p, rejectionSample m (rnd ++ [(y.toNat, x.toNat)]) = some p := by
  have hy : ((y.toNat : Int)) % HEIGHT = y := by
    unfold inBounds HEIGHT at *; omega
  have hx : ((x.toNat : Int)) % WIDTH = x := by
    unfold inBounds WIDTH at *; omega
  induction rnd with
  | nil =>
    refine ⟨(y, x), ?_⟩
    simp only [List.nil_append, rejectionSample]
    rw [hy, hx]
    simp [h0]
  | cons r rest ih =>
    obtain ⟨r1, r2⟩ := r
    simp only [List.cons_append, rejectionSample]
    split
    · exact ih
    · exact ⟨_, rfl⟩

theorem spawnGrowthItem_map (s s2 : State) (rnd : List (Nat × Nat))
    (h : spawnGrowthItem s rnd = some s2) :
    s2.map = s.map ∨
      ∃ y x, inBounds y x ∧ s.map y x = 0 ∧ s2.map = setCell s.map y x 4 := by
  unfold spawnGrowthItem at h
  split at h
  · cases h; exact Or.inl rfl
  · split at h
    · cases h
    · rename_i y x hr
      cases h
      exact Or.inr ⟨y, x, (rejectionSample_spec _ _ _ hr).1, (rejectionSample_spec _ _ _ hr).2, rfl⟩

theorem spawnPoisonItem_map (s s2 : State) (rnd : List (Nat × Nat))
    (h : spawnPoisonItem s rnd = some s2) :
    s2.map = s.map ∨
      ∃ y x, inBounds y x ∧ s.map y x = 0 ∧ s2.map = setCell s.map y x 2 := by
  unfold spawnPoisonItem at h
  split at h
  · cases h; exact Or.inl rfl
  · split at h
    · cases h
    · rename_i y x hr
      cases h
      exact Or.inr ⟨y, x, (rejectionSample_spec _ _ _ hr).1, (rejectionSample_spec _ _ _ hr).2, rfl⟩

theorem spawnGrowthItem_of_hit (s : State) (rnd : List (Nat × Nat)) (y x : Int)
    (hb : inBounds y x) (h0 : s.map y x = 0) :
    ∃ s2, spawnGrowthItem s (rnd ++ [(y.toNat, x.toNat)]) = some s2 := by
  unfold spawnGrowthItem
  split
  · exact ⟨_, rfl⟩
  · obtain ⟨p, hp⟩ := rejectionSample_append_hit s.map rnd y x hb h0
    rw [hp]
    exact ⟨_, rfl⟩

theorem spawnPoisonItem_of_hit (s : State) (rnd : List (Nat × Nat)) (y x : Int)
    (hb : inBounds y x) (h0 : s.map y x = 0) :
    ∃ s2, spawnPoisonItem s (rnd ++ [(y.toNat, x.toNat)]) = some s2 := by
  unfold spawnPoisonItem
  split
  · exact ⟨_, rfl⟩
  · obtain ⟨p, hp⟩ := rejectionSample_append_hit s.map rnd y x hb h0
    rw [hp]
    exact ⟨_, rfl⟩

/-! ## The branches of `moveSnake` -/

theorem not_oob_of_inBounds {y x : Int} (h : inBounds y x) :
    ¬ (y < 0 ∨ y ≥ HEIGHT ∨ x < 0 ∨ x ≥ WIDTH) := by
  unfold inBounds at h; omega

theorem oob_of_not_inBounds {y x : Int} (h : ¬ inBounds y x) :
    y < 0 ∨ y ≥ HEIGHT ∨ x < 0 ∨ x ≥ WIDTH := by
  unfold inBounds at h; omega

theorem moveSnake_of_oob (s : State) (rnd : List (Nat × Nat))
    (hb : ¬ inBounds (nextY s) (nextX s)) :
    moveSnake s rnd = some { expireItems s with gameOverReason := 2 } := by
  simp only [moveSnake, if_pos (oob_of_not_inBounds hb)]

theorem moveSnake_of_blocked (s : State) (rnd : List (Nat × Nat))
    (hb : inBounds (nextY s) (nextX s))
    (ht : target s = 1 ∨ target s = IMMUNE_WALL ∨ target s = 3) :
    moveSnake s rnd =
      some { expireItems s with gameOverReason := if target s = 3 then 3 else 2 } := by
  have hc : target s ≠ 5 ∧ (target s = 1 ∨ target s = IMMUNE_WALL ∨ target s = 3) := by
    refine ⟨?_, ht⟩
    rcases ht with h | h | h <;> rw [h] <;> decide
  simp only [moveSnake, if_neg (not_oob_of_inBounds hb), if_pos hc]

theorem moveSnake_of_growth (s : State) (rnd : List (Nat × Nat))
    (hb : inBounds (nextY s) (nextX s)) (ht : target s = 4) :
    moveSnake s rnd =
      (spawnGrowthItem (growthEaten s) rnd).map
        fun s2 => finishMove s2 true (nextY s) (nextX s) := by
  have hc : ¬ (target s ≠ 5 ∧ (target s = 1 ∨ target s = IMMUNE_WALL ∨ target s = 3)) := by
    rw [ht]; decide
  simp only [moveSnake, growthEaten, if_neg (not_oob_of_inBounds hb), if_neg hc, if_pos ht]

theorem moveSnake_of_poison_short (s : State) (rnd : List (Nat × Nat))
    (hb : inBounds (nextY s) (nextX s)) (ht : target s = 2)
    (hs : s.snake ≠ [] ∧ (poisonEaten s).snake.length < 3) :
    moveSnake s rnd = some { poisonEaten s with gameOverReason := 5 } := by
  have hc : ¬ (target s ≠ 5 ∧ (target s = 1 ∨ target s = IMMUNE_WALL ∨ target s = 3)) := by
    rw [ht]; decide
  have h4 : ¬ target s = 4 := by rw [ht]; decide
  have hs' : (expireItems s).snake ≠ [] ∧ (poisonEaten s).snake.length < 3 := by
    rw [(expireItems_rest s).1]; exact hs
  simp only [poisonEaten] at hs'
  simp only [moveSnake, poisonEaten, if_neg (not_oob_of_inBounds hb), if_neg hc, if_neg h4,
    if_pos ht, if_pos hs']

theorem moveSnake_of_poison (s : State) (rnd : List (Nat × Nat))
    (hb : inBounds (nextY s) (nextX s)) (ht : target s = 2)
    (hs : ¬ (s.snake ≠ [] ∧ (poisonEaten s).snake.length < 3)) :
    moveSnake s rnd =
      (spawnPoisonItem (poisonCleared s) rnd).map
        fun s4 => finishMove s4 false (nextY s) (nextX s) := by
  have hc : ¬ (target s ≠ 5 ∧ (target s = 1 ∨ target s = IMMUNE_WALL ∨ target s = 3)) := by
    rw [ht]; decide
  have h4 : ¬ target s = 4 := by rw [ht]; decide
  have hs' : ¬ ((expireItems s).snake ≠ [] ∧ (poisonEaten s).snake.length < 3) := by
    rw [(expireItems_rest s).1]; exact hs
  simp only [poisonEaten] at hs'
  simp only [moveSnake, poisonCleared, poisonEaten, if_neg (not_oob_of_inBounds hb), if_neg hc,
    if_neg h4, if_pos ht, if_neg hs']

theorem moveSnake_of_gate_cooldown (s : State) (rnd : List (Nat × Nat))
    (hb : inBounds (nextY s) (nextX s)) (ht : target s = 5) (hc : s.gateCooldown > 0) :
    moveSnake s rnd = some { expireItems s with gameOverReason := 6 } := by
  have hc1 : ¬ (target s ≠ 5 ∧ (target s = 1 ∨ target s = IMMUNE_WALL ∨ target s = 3)) := by
    rw [ht]; decide
  have h4 : ¬ target s = 4 := by rw [ht]; decide
  have h2 : ¬ target s = 2 := by rw [ht]; decide
  have hcd : (expireItems s).gateCooldown > 0 := by
    rw [(expireItems_rest s).2.2.2.2.2.2.2.2.2.2.2.2.2.2.1]; exact hc
  simp only [moveSnake, if_neg (not_oob_of_inBounds hb), if_neg hc1, if_neg h4, if_neg h2,
    if_pos ht, if_pos hcd]

theorem moveSnake_of_gate_blocked (s : State) (rnd : List (Nat × Nat))
    (hb : inBounds (nextY s) (nextX s)) (ht : target s = 5) (hc : ¬ s.gateCooldown > 0)
    (hx : gateExitBlocked s) :
    moveSnake s rnd = some (gateCrashed s) := by
  have hc1 : ¬ (target s ≠ 5 ∧ (target s = 1 ∨ target s = IMMUNE_WALL ∨ target s = 3)) := by
    rw [ht]; decide
  have h4 : ¬ target s = 4 := by rw [ht]; decide
  have h2 : ¬ target s = 2 := by rw [ht]; decide
  have hcd : ¬ (expireItems s).gateCooldown > 0 := by
    rw [(expireItems_rest s).2.2.2.2.2.2.2.2.2.2.2.2.2.2.1]; exact hc
  simp only [gateExitBlocked, gateExit, gateEntered] at hx
  simp only [moveSnake, gateCrashed, gateExit, gateEntered, if_neg (not_oob_of_inBounds hb),
    if_neg hc1, if_neg h4, if_neg h2, if_pos ht, if_neg hcd, if_pos hx]

theorem moveSnake_of_gate (s : State) (rnd : List (Nat × Nat))
    (hb : inBounds (nextY s) (nextX s)) (ht : target s = 5) (hc : ¬ s.gateCooldown > 0)
    (hx : ¬ gateExitBlocked s) :
    moveSnake s rnd =
      some (finishMove (gateArmed s) false (gateExit s).1 (gateExit s).2.1) := by
  have hc1 : ¬ (target s ≠ 5 ∧ (target s = 1 ∨ target s = IMMUNE_WALL ∨ target s = 3)) := by
    rw [ht]; decide
  have h4 : ¬ target s = 4 := by rw [ht]; decide
  have h2 : ¬ target s = 2 := by rw [ht]; decide
  have hcd : ¬ (expireItems s).gateCooldown > 0 := by
    rw [(expireItems_rest s).2.2.2.2.2.2.2.2.2.2.2.2.2.2.1]; exact hc
  simp only [gateExitBlocked, gateExit, gateEntered] at hx
  simp only [moveSnake, gateArmed, gateExit, gateEntered, if_neg (not_oob_of_inBounds hb),
    if_neg hc1, if_neg h4, if_neg h2, if_pos ht, if_neg hcd, if_neg hx]

theorem moveSnake_of_plain (s : State) (rnd : List (Nat × Nat))
    (hb : inBounds (nextY s) (nextX s))
    (h1 : target s ≠ 1) (h9 : target s ≠ IMMUNE_WALL) (h3 : target s ≠ 3)
    (h4 : target s ≠ 4) (h2 : target s ≠ 2) (h5 : target s ≠ 5) :
    moveSnake s rnd = some (finishMove (expireItems s) false (nextY s) (nextX s)) := by
  have hc1 : ¬ (target s ≠ 5 ∧ (target s = 1 ∨ target s = IMMUNE_WALL ∨ target s = 3)) := by
    rintro ⟨-, h | h | h⟩
    exacts [h1 h, h9 h, h3 h]
  simp only [moveSnake, if_neg (not_oob_of_inBounds hb), if_neg hc1, if_neg h4, if_neg h2,
    if_neg h5]

theorem target_of_not_item (s : State) (h4 : s.map (nextY s) (nextX s) ≠ 4)
    (h2 : s.map (nextY s) (nextX s) ≠ 2) : target s = s.map (nextY s) (nextX s) :=
  expireItems_map_of_not_item s _ _ h4 h2

theorem target_of_timer (s : State) (h : s.itemFrame ≠ 1) :
    target s = s.map (nextY s) (nextX s) := by
  show (expireItems s).map (nextY s) (nextX s) = _
  rw [expireItems_map]; simp [h]

/-! ## Collisions (C3) -/

/-- C3: when the candidate head cell is out of bounds, or holds Wall (1) or
ImmuneWall (9), `moveSnake` returns with `gameOverReason = 2`; when it is a cell
of the grid holding SnakeBody (3), with `gameOverReason = 3`.  In all these cases
the snake, the head position, the direction, the mission counters, the scores and
the turn counter are unchanged. -/
theorem moveSnake_collision_aborts (s : State) (rnd : List (Nat × Nat))
    (h : ¬ inBounds (nextY s) (nextX s) ∨ s.map (nextY s) (nextX s) = 1 ∨
      s.map (nextY s) (nextX s) = IMMUNE_WALL ∨ s.map (nextY s) (nextX s) = 3) :
    ∃ s', moveSnake s rnd = some s' ∧
      s'.gameOverReason =
        (if inBounds (nextY s) (nextX s) ∧ s.map (nextY s) (nextX s) = 3 then 3 else 2) ∧
      s'.snake = s.snake ∧ s'.headY = s.headY ∧ s'.headX = s.headX ∧
      s'.dirIndex = s.dirIndex ∧
      s'.collected_growth_items = s.collected_growth_items ∧
      s'.collected_poison_items = s.collected_poison_items ∧
      s'.gates_used_count = s.gates_used_count ∧
      s'.total_score_growth = s.total_score_growth ∧
      s'.total_score_poison = s.total_score_poison ∧
      s'.total_score_gate = s.total_score_gate ∧
      s'.stageTurnCounter = s.stageTurnCounter := by
  obtain ⟨e1, e2, e3, e4, -, -, -, e8, e9, e10, e11, e12, e13, e14, -, -, -⟩ := expireItems_rest s
  by_cases hb : inBounds (nextY s) (nextX s)
  · have hm : s.map (nextY s) (nextX s) = 1 ∨ s.map (nextY s) (nextX s) = IMMUNE_WALL ∨
        s.map (nextY s) (nextX s) = 3 := by
      rcases h with h | h
      · exact absurd hb h
      · exact h
    have ht : target s = s.map (nextY s) (nextX s) := by
      apply target_of_not_item <;> rcases hm with h | h | h <;> rw [h] <;> decide
    refine ⟨_, moveSnake_of_blocked s rnd hb (by rw [ht]; exact hm), ?_⟩
    simp [ht, hb, e1, e2, e3, e4, e8, e9, e10, e11, e12, e13, e14]
  · refine ⟨_, moveSnake_of_oob s rnd hb, ?_⟩
    simp [hb, e1, e2, e3, e4, e8, e9, e10, e11, e12, e13, e14]

/-- Witness of C3: a 4-segment snake facing an inner wall. -/
theorem moveSnake_collision_aborts_witness :
    (stateFacing 4 1).map (nextY (stateFacing 4 1)) (nextX (stateFacing 4 1)) = 1 ∧
    ∃ s', moveSnake (stateFacing 4 1) [] = some s' ∧ s'.gameOverReason = 2 ∧
      s'.snake = (stateFacing 4 1).snake := by
  refine ⟨by decide, ?_⟩
  obtain ⟨s', h1, h2, h3, -⟩ := moveSnake_collision_aborts (stateFacing 4 1) []
    (Or.inr (Or.inl (by decide)))
  exact ⟨s', h1, by rw [h2]; decide, h3⟩

/-! ## Gate during cooldown (C8) -/

/-- C8: when the candidate head cell is a Gate (5) and the cooldown counter is
positive, `moveSnake` returns with `gameOverReason = 6` and the snake, the head
position, the direction, the gate-use counter, the gate score and the cooldown
counter are unchanged. -/
theorem moveSnake_gate_during_cooldown (s : State) (rnd : List (Nat × Nat))
    (hb : inBounds (nextY s) (nextX s)) (hg : s.map (nextY s) (nextX s) = 5)
    (hc : s.gateCooldown > 0) :
    ∃ s', moveSnake s rnd = some s' ∧ s'.gameOverReason = 6 ∧
      s'.snake = s.snake ∧ s'.headY = s.headY ∧ s'.headX = s.headX ∧
      s'.dirIndex = s.dirIndex ∧ s'.gates_used_count = s.gates_used_count ∧
      s'.total_score_gate = s.total_score_gate ∧ s'.gateCooldown = s.gateCooldown := by
  obtain ⟨e1, e2, e3, e4, -, -, -, -, -, e10, -, -, e13, -, e15, -, -⟩ := expireItems_rest s
  have ht : target s = 5 := by
    rw [target_of_not_item s (by rw [hg]; decide) (by rw [hg]; decide)]; exact hg
  refine ⟨_, moveSnake_of_gate_cooldown s rnd hb ht hc, ?_⟩
  simp [e1, e2, e3, e4, e10, e13, e15]

/-- Witness of C8: a snake facing a gate cell with two ticks of cooldown left. -/
theorem moveSnake_gate_during_cooldown_witness :
    ∃ s', moveSnake { stateFacing 4 5 with gateCooldown := 2 } [] = some s' ∧
      s'.gameOverReason = 6 ∧ s'.snake = [(10, 10), (10, 9), (10, 8), (10, 7)] := by
  obtain ⟨s', h1, h2, h3, -⟩ :=
    moveSnake_gate_during_cooldown { stateFacing 4 5 with gateCooldown := 2 } []
      (by decide) (by decide) (by decide)
  exact ⟨s', h1, h2, by rw [h3]; decide⟩

/-! ## Poison on a snake of three segments (C6) -/

/-- C6: when the candidate head cell holds Poison (2) at the time it is read and
the snake has exactly 3 segments, `moveSnake` returns with `gameOverReason = 5`,
the head position `headY`/`headX` and the front segment are unchanged, and the
snake is left with its first 2 segments. -/
theorem moveSnake_poison_short (s : State) (rnd : List (Nat × Nat))
    (hb : inBounds (nextY s) (nextX s)) (hp : s.map (nextY s) (nextX s) = 2)
    (ht : s.itemFrame ≠ 1) (hlen : s.snake.length = 3) :
    ∃ s', moveSnake s rnd = some s' ∧ s'.gameOverReason = 5 ∧
      s'.headY = s.headY ∧ s'.headX = s.headX ∧ s'.snake.head? = s.snake.head? ∧
      s'.snake.length = 2 ∧ s'.snake = s.snake.dropLast := by
  obtain ⟨e1, e2, e3, -⟩ := expireItems_rest s
  have htg : target s = 2 := by rw [target_of_timer s ht]; exact hp
  obtain ⟨a, b, c, habc⟩ : ∃ a b c, s.snake = [a, b, c] := by
    match hs : s.snake, hlen with
    | [a, b, c], _ => exact ⟨a, b, c, rfl⟩
  have hrt := removeTail_rest
    { expireItems s with
      collected_poison_items := (expireItems s).collected_poison_items + 1,
      total_score_poison := (expireItems s).total_score_poison - 5 }
  have hsn : (poisonEaten s).snake = s.snake.dropLast := by
    unfold poisonEaten; rw [removeTail_snake]; simp [e1]
  have hcond : s.snake ≠ [] ∧ (poisonEaten s).snake.length < 3 := by
    rw [hsn]; simp [habc]
  refine ⟨_, moveSnake_of_poison_short s rnd hb htg hcond, ?_⟩
  refine ⟨rfl, ?_, ?_, ?_, ?_, hsn⟩
  · show (poisonEaten s).headY = s.headY
    unfold poisonEaten; rw [hrt.1]; exact e2
  · show (poisonEaten s).headX = s.headX
    unfold poisonEaten; rw [hrt.2.1]; exact e3
  · show (poisonEaten s).snake.head? = s.snake.head?
    rw [hsn, habc]; rfl
  · show (poisonEaten s).snake.length = 2
    rw [hsn, habc]; rfl

/-- Witness of C6: a 3-segment snake facing a poison item. -/
theorem moveSnake_poison_short_witness :
    ∃ s', moveSnake (stateFacing 3 2) [] = some s' ∧ s'.gameOverReason = 5 ∧
      s'.snake = [(10, 10), (10, 9)] := by
  obtain ⟨s', h1, h2, -, -, -, -, h3⟩ :=
    moveSnake_poison_short (stateFacing 3 2) [] (by decide) (by decide) (by decide) (by decide)
  exact ⟨s', h1, h2, by rw [h3]; decide⟩

/-! ## Teleport (C9) -/

theorem unit_step_ne_zero (d : Dir) : ¬ (dy d = 0 ∧ dx d = 0) := by
  revert d; decide

/-- C9: with an active pair `gateA ≠ gateB`, entering at `gateA` yields the
position `gateB + unit(d)` and entering at `gateB` yields `gateA + unit(d)`, where
`d` is `calculateExitDirection` of the exit gate and the entry direction;
`dirIndex` becomes `d`, and the resulting position is never the exit gate cell. -/
theorem teleportThroughGate_exits_other_gate (s : State) (y x : Int) (entry : Dir)
    (hne : s.gateA ≠ s.gateB) :
    ((y, x) = s.gateA →
      (teleportThroughGate s y x entry).1 =
          s.gateB.1 + dy (calculateExitDirection s.map s.gateB.1 s.gateB.2 entry) ∧
      (teleportThroughGate s y x entry).2.1 =
          s.gateB.2 + dx (calculateExitDirection s.map s.gateB.1 s.gateB.2 entry) ∧
      (teleportThroughGate s y x entry).2.2.dirIndex =
          calculateExitDirection s.map s.gateB.1 s.gateB.2 entry ∧
      ((teleportThroughGate s y x entry).1, (teleportThroughGate s y x entry).2.1) ≠ s.gateB) ∧
    ((y, x) = s.gateB →
      (teleportThroughGate s y x entry).1 =
          s.gateA.1 + dy (calculateExitDirection s.map s.gateA.1 s.gateA.2 entry) ∧
      (teleportThroughGate s y x entry).2.1 =
          s.gateA.2 + dx (calculateExitDirection s.map s.gateA.1 s.gateA.2 entry) ∧
      (teleportThroughGate s y x entry).2.2.dirIndex =
          calculateExitDirection s.map s.gateA.1 s.gateA.2 entry ∧
      ((teleportThroughGate s y x entry).1, (teleportThroughGate s y x entry).2.1) ≠ s.gateA) := by
  constructor
  · intro h
    have hA : y = s.gateA.1 ∧ x = s.gateA.2 := by rw [← h]; exact ⟨rfl, rfl⟩
    simp only [teleportThroughGate, if_pos hA, true_and]
    intro hx
    have h1 := congrArg Prod.fst hx
    have h2 := congrArg Prod.snd hx
    simp only at h1 h2
    exact unit_step_ne_zero (calculateExitDirection s.map s.gateB.1 s.gateB.2 entry)
      ⟨by omega, by omega⟩
  · intro h
    have hA : ¬ (y = s.gateA.1 ∧ x = s.gateA.2) := by
      rintro ⟨h1, h2⟩
      apply hne
      rw [← h]
      exact Prod.ext h1.symm h2.symm
    simp only [teleportThroughGate, if_neg hA, true_and]
    intro hx
    have h1 := congrArg Prod.fst hx
    have h2 := congrArg Prod.snd hx
    simp only at h1 h2
    exact unit_step_ne_zero (calculateExitDirection s.map s.gateA.1 s.gateA.2 entry)
      ⟨by omega, by omega⟩

/-- Witness of C9: gates at `(0, 5)` and `(20, 7)`, entering the first one
heading Up leaves the second one heading Up, one cell above it. -/
theorem teleportThroughGate_exits_other_gate_witness :
    (teleportThroughGate
      { stateFacing 4 0 with
        gateA := (0, 5), gateB := (20, 7),
        map := setCell (setCell (stateFacing 4 0).map 0 5 5) 20 7 5 } 0 5 UP).1 = 19 := by
  have h := (teleportThroughGate_exits_other_gate
      { stateFacing 4 0 with
        gateA := (0, 5), gateB := (20, 7),
        map := setCell (setCell (stateFacing 4 0).map 0 5 5) 20 7 5 } 0 5 UP (by decide)).1 rfl
  rw [h.1]; decide

theorem target_cases (s : State) :
    target s = 1 ∨ target s = IMMUNE_WALL ∨ target s = 3 ∨ target s = 4 ∨ target s = 2 ∨
      target s = 5 ∨
      (target s ≠ 1 ∧ target s ≠ IMMUNE_WALL ∧ target s ≠ 3 ∧ target s ≠ 4 ∧ target s ≠ 2 ∧
        target s ≠ 5) := by
  unfold IMMUNE_WALL; omega

theorem poisonEaten_snake (s : State) : (poisonEaten s).snake = s.snake.dropLast := by
  unfold poisonEaten
  rw [removeTail_snake]
  exact congrArg List.dropLast (expireItems_rest s).1

theorem growthEaten_snake (s : State) : (growthEaten s).snake = s.snake :=
  (expireItems_rest s).1

theorem gateExit_rest (s : State) :
    (gateExit s).2.2.snake = s.snake ∧ (gateExit s).2.2.map = (expireItems s).map ∧
    (gateExit s).2.2.gateA = s.gateA ∧ (gateExit s).2.2.gateB = s.gateB ∧
    (gateExit s).2.2.gates_used_count = s.gates_used_count + 1 ∧
    (gateExit s).2.2.total_score_gate = s.total_score_gate + 20 := by
  obtain ⟨e1, -, -, -, -, -, -, -, -, e10, -, -, e13, -, -, e16, e17⟩ := expireItems_rest s
  simp [gateExit, gateEntered, teleportThroughGate, e1, e10, e13, e16, e17]

/-! ## Length at least three (C7) -/

/-- C7: from a state whose snake has at least 3 segments, a tick that leaves
`gameOverReason` at 0 leaves a snake of at least 3 segments; a snake shorter than
3 after the tick comes with the terminal reason 5. -/
theorem moveSnake_keeps_length_three (s s' : State) (rnd : List (Nat × Nat))
    (hlen : 3 ≤ s.snake.length) (h : moveSnake s rnd = some s') :
    (s'.gameOverReason = 0 → 3 ≤ s'.snake.length) ∧
    (s'.snake.length < 3 → s'.gameOverReason = 5) := by
  have e1 : (expireItems s).snake = s.snake := (expireItems_rest s).1
  suffices hs : s'.snake.length < 3 → s'.gameOverReason = 5 by
    refine ⟨fun h0 => ?_, hs⟩
    by_contra hlt
    have := hs (by omega)
    omega
  by_cases hb : inBounds (nextY s) (nextX s)
  swap
  · rw [moveSnake_of_oob s rnd hb] at h
    cases h
    simp only [e1]; omega
  rcases target_cases s with ht | ht | ht | ht | ht | ht | ⟨h1, h9, h3, h4, h2, h5⟩
  · rw [moveSnake_of_blocked s rnd hb (Or.inl ht)] at h
    cases h
    simp only [e1]; omega
  · rw [moveSnake_of_blocked s rnd hb (Or.inr (Or.inl ht))] at h
    cases h
    simp only [e1]; omega
  · rw [moveSnake_of_blocked s rnd hb (Or.inr (Or.inr ht))] at h
    cases h
    simp only [e1]; omega
  · rw [moveSnake_of_growth s rnd hb ht] at h
    obtain ⟨s2, hsp, rfl⟩ := Option.map_eq_some'.mp h
    have := (spawnGrowthItem_rest _ _ _ hsp).1
    simp only [finishMove_snake, this, growthEaten_snake, List.length_cons,
      if_neg (by decide : ¬ true = false)]
    omega
  · by_cases hc : s.snake ≠ [] ∧ (poisonEaten s).snake.length < 3
    · rw [moveSnake_of_poison_short s rnd hb ht hc] at h
      cases h
      intro _; rfl
    · rw [moveSnake_of_poison s rnd hb ht hc] at h
      obtain ⟨s4, hsp, rfl⟩ := Option.map_eq_some'.mp h
      have hs4 := (spawnPoisonItem_rest _ _ _ hsp).1
      simp only [poisonCleared, poisonEaten_snake] at hs4 hc
      have hne : s.snake ≠ [] := by
        intro hnil; rw [hnil] at hlen; simp at hlen
      have hl : ¬ s.snake.dropLast.length < 3 := fun hl => hc ⟨hne, hl⟩
      simp only [finishMove_snake, hs4, List.length_cons, List.length_dropLast, if_true]
      simp only [List.length_dropLast] at hl
      omega
  · by_cases hc : s.gateCooldown > 0
    · rw [moveSnake_of_gate_cooldown s rnd hb ht hc] at h
      cases h
      simp only [e1]; omega
    · by_cases hx : gateExitBlocked s
      · rw [moveSnake_of_gate_blocked s rnd hb ht hc hx] at h
        cases h
        simp only [gateCrashed, (gateExit_rest s).1]; omega
      · rw [moveSnake_of_gate s rnd hb ht hc hx] at h
        cases h
        simp only [finishMove_snake, gateArmed, (gateExit_rest s).1, List.length_cons,
          List.length_dropLast, if_true]
        omega
  · rw [moveSnake_of_plain s rnd hb h1 h9 h3 h4 h2 h5] at h
    cases h
    simp only [finishMove_snake, e1, List.length_cons, List.length_dropLast, if_true]
    omega

/-- Witness of C7: a plain move of a 3-segment snake onto an Empty cell. -/
theorem moveSnake_keeps_length_three_witness :
    ∃ s', moveSnake (stateFacing 3 0) [] = some s' ∧ s'.gameOverReason = 0 ∧
      3 ≤ s'.snake.length := by
  have h : moveSnake (stateFacing 3 0) [] =
      some (finishMove (expireItems (stateFacing 3 0)) false
        (nextY (stateFacing 3 0)) (nextX (stateFacing 3 0))) :=
    moveSnake_of_plain _ _ (by decide) (by decide) (by decide) (by decide) (by decide)
      (by decide) (by decide)
  refine ⟨_, h, by decide, ?_⟩
  exact (moveSnake_keeps_length_three (stateFacing 3 0) _ [] (by decide) h).1 (by decide)

/-! ## Growth (C4) -/

/-- C4: when the candidate head cell holds Growth (4) and the item timer does not
expire in this tick, every result of `moveSnake` has as snake the new head
followed by the whole previous snake (length + 1), the growth counter increased
by 1 and the growth score by 10; and the tick does return once a draw of the
respawn hits an Empty cell (the cell just eaten is one). -/
theorem moveSnake_growth_keeps_tail (s : State)
    (hb : inBounds (nextY s) (nextX s)) (hg : s.map (nextY s) (nextX s) = 4)
    (ht : s.itemFrame ≠ 1) :
    (∀ rnd s', moveSnake s rnd = some s' →
      s'.snake = (nextY s, nextX s) :: s.snake ∧
      s'.snake.length = s.snake.length + 1 ∧
      s'.collected_growth_items = s.collected_growth_items + 1 ∧
      s'.total_score_growth = s.total_score_growth + 10) ∧
    (∀ rnd, ∃ s', moveSnake s (rnd ++ [((nextY s).toNat, (nextX s).toNat)]) = some s') := by
  have htg : target s = 4 := by rw [target_of_timer s ht]; exact hg
  obtain ⟨e1, -, -, -, -, -, -, e8, -, -, e11, -⟩ := expireItems_rest s
  constructor
  · intro rnd s' h
    rw [moveSnake_of_growth s rnd hb htg] at h
    obtain ⟨s2, hsp, rfl⟩ := Option.map_eq_some'.mp h
    obtain ⟨f1, -, -, -, -, -, f7, -, -, f10, -⟩ := spawnGrowthItem_rest _ _ _ hsp
    obtain ⟨-, -, -, -, -, g6, -, -, g9, -⟩ := finishMove_rest s2 true (nextY s) (nextX s)
    have hsn : (finishMove s2 true (nextY s) (nextX s)).snake = (nextY s, nextX s) :: s.snake := by
      rw [finishMove_snake, f1, growthEaten_snake]; rfl
    refine ⟨hsn, by rw [hsn]; rfl, ?_, ?_⟩
    · rw [g6, f7]; show (expireItems s).collected_growth_items + 1 = _; rw [e8]
    · rw [g9, f10]; show (expireItems s).total_score_growth + 10 = _; rw [e11]
  · intro rnd
    rw [moveSnake_of_growth s _ hb htg]
    obtain ⟨s2, hs2⟩ := spawnGrowthItem_of_hit (growthEaten s) rnd (nextY s) (nextX s) hb
      (by simp [growthEaten, setCell])
    rw [hs2]
    exact ⟨_, rfl⟩

/-- Witness of C4: a 4-segment snake eats the growth item ahead of it; the
respawn draw hits the cell just eaten. -/
theorem moveSnake_growth_keeps_tail_witness :
    ∃ s', moveSnake (stateFacing 4 4) [(10, 11)] = some s' ∧
      s'.snake = [(10, 11), (10, 10), (10, 9), (10, 8), (10, 7)] := by
  have h := moveSnake_growth_keeps_tail (stateFacing 4 4) (by decide) (by decide) (by decide)
  obtain ⟨s', hs'⟩ : ∃ s', moveSnake (stateFacing 4 4) [(10, 11)] = some s' := h.2 []
  exact ⟨s', hs', by rw [(h.1 _ _ hs').1]; decide⟩

/-! ## U-turn (C2) -/

/-- C2, evaluated on a failing input: a 3-segment snake heading Right with a wall
in the cell ahead, key Left.  `updateDirection` records the U-turn (reason 1) and
keeps the direction, but `moveSnake` still runs, hits the wall and overwrites the
reason with 2. -/
theorem uturn_reason_overwritten_by_wall :
    (stateFacing 3 1).dirIndex = RIGHT ∧ (stateFacing 3 1).paused = false ∧
    (stateFacing 3 1).snake.length = 3 ∧
    (updateDirection (stateFacing 3 1) KEY_LEFT).gameOverReason = 1 ∧
    (updateDirection (stateFacing 3 1) KEY_LEFT).dirIndex = RIGHT ∧
    ((moveSnake (updateDirection (stateFacing 3 1) KEY_LEFT) []).map
      fun s => s.gameOverReason) = some 2 := by
  decide

/-! ## Border gates (C10) -/

/-- C10, evaluated on a failing input: for an exit gate on the top border (a cell
marked 5) whose interior neighbour holds the snake, `calculateExitDirection`
returns the entry direction Left, not Down: Rule 1 tests `map == 1`, which a
gate cell never satisfies, and the scans find no passable neighbour. -/
theorem calculateExitDirection_top_border_gate_not_down :
    borderGateGrid 0 5 = 5 ∧ borderGateGrid 1 5 = 3 ∧
    calculateExitDirection borderGateGrid 0 5 LEFT = LEFT ∧
    calculateExitDirection borderGateGrid 0 5 LEFT ≠ DOWN ∧
    calculateExitDirection borderGateGrid 0 5 UP = UP := by
  decide

/-! ## Poison (C5) -/

theorem expireItems_map_of_timer (s : State) (h : s.itemFrame ≠ 1) :
    (expireItems s).map = s.map := by
  funext y x
  rw [expireItems_map]; simp [h]

theorem exists_two_last (l : List Pos) (h : 2 ≤ l.length) :
    ∃ l2 t2 t1, l = l2 ++ [t2] ++ [t1] := by
  have hne : l ≠ [] := by rintro rfl; simp at h
  have hne2 : l.dropLast ≠ [] := by
    intro h0
    have := congrArg List.length h0
    simp at this; omega
  refine ⟨l.dropLast.dropLast, l.dropLast.getLast hne2, l.getLast hne, ?_⟩
  rw [List.dropLast_append_getLast hne2, List.dropLast_append_getLast hne]

set_option maxRecDepth 100000 in
/-- Counterexample to C5 as stated: a 4-segment snake on row 10 eats the poison
ahead of it and the respawn draw `(10, 7)` hits the cell of the tail removed a
moment before, so that removed cell holds Poison (2) after the tick, not Empty. -/
theorem moveSnake_poison_refills_removed_cell :
    (stateFacing 4 2).map (nextY (stateFacing 4 2)) (nextX (stateFacing 4 2)) = 2 ∧
    (stateFacing 4 2).itemFrame ≠ 1 ∧ (stateFacing 4 2).snake.length = 4 ∧
    (stateFacing 4 2).snake.getLast? = some (10, 7) ∧
    ((moveSnake (stateFacing 4 2) [(10, 7)]).map fun s => s.snake) =
      some [(10, 11), (10, 10), (10, 9)] ∧
    ((moveSnake (stateFacing 4 2) [(10, 7)]).map fun s => s.map 10 7) = some 2 := by
  decide

/-- C5 as amended: when the candidate head cell holds Poison (2) at the time it is
read, the snake has `n ≥ 4` segments and its cells are marked SnakeBody, every
result of `moveSnake` has a snake of `n - 1` segments, namely the new head followed
by the previous snake without its last two segments, the poison counter increased
by 1 and the poison score decreased by 5; the cell of the segment removed by the
end-of-tick tail removal is Empty, and the cell of the segment removed by the
poison is Empty or holds the respawned Poison item.  The tick returns once a
draw of the respawn hits an Empty cell. -/
theorem moveSnake_poison_removes_two (s : State)
    (hb : inBounds (nextY s) (nextX s)) (hp : s.map (nextY s) (nextX s) = 2)
    (ht : s.itemFrame ≠ 1) (hlen : 4 ≤ s.snake.length)
    (hmark : ∀ p ∈ s.snake, s.map p.1 p.2 = 3) :
    (∀ rnd s', moveSnake s rnd = some s' →
      s'.snake.length = s.snake.length - 1 ∧
      s'.collected_poison_items = s.collected_poison_items + 1 ∧
      s'.total_score_poison = s.total_score_poison - 5 ∧
      s'.snake = (nextY s, nextX s) :: s.snake.dropLast.dropLast ∧
      (∀ t2, s.snake.dropLast.getLast? = some t2 → s'.map t2.1 t2.2 = 0) ∧
      (∀ t1, s.snake.getLast? = some t1 → s'.map t1.1 t1.2 = 0 ∨ s'.map t1.1 t1.2 = 2)) ∧
    (∀ rnd, ∃ s', moveSnake s (rnd ++ [((nextY s).toNat, (nextX s).toNat)]) = some s') := by
  have htg : target s = 2 := by rw [target_of_timer s ht]; exact hp
  obtain ⟨e1, -, -, -, -, -, -, -, e9, -, -, e12, -⟩ := expireItems_rest s
  have hmap := expireItems_map_of_timer s ht
  obtain ⟨l2, t2, t1, hl⟩ := exists_two_last s.snake (by omega)
  have hshort : ¬ (s.snake ≠ [] ∧ (poisonEaten s).snake.length < 3) := by
    rw [poisonEaten_snake]; simp only [List.length_dropLast]; omega
  -- the state after the immediate tail removal
  have hpe : poisonEaten s =
      { expireItems s with
        collected_poison_items := (expireItems s).collected_poison_items + 1,
        total_score_poison := (expireItems s).total_score_poison - 5,
        map := setCell (expireItems s).map t1.1 t1.2 0, snake := l2 ++ [t2] } := by
    unfold poisonEaten
    rw [removeTail_of_append _ (l2 ++ [t2]) t1 (by rw [← hl]; exact e1)]
  have ht1 : t1 ≠ (nextY s, nextX s) := by
    intro h
    have := hmark t1 (by rw [hl]; simp)
    rw [h] at this
    simp only at this
    omega
  have ht2 : t2 ≠ (nextY s, nextX s) := by
    intro h
    have := hmark t2 (by rw [hl]; simp)
    rw [h] at this
    simp only at this
    omega
  constructor
  · intro rnd s' h
    rw [moveSnake_of_poison s rnd hb htg hshort] at h
    obtain ⟨s4, hsp, rfl⟩ := Option.map_eq_some'.mp h
    obtain ⟨f1, -, -, -, -, -, -, f8, -, -, f11, -⟩ := spawnPoisonItem_rest _ _ _ hsp
    simp only [poisonCleared] at f1 f8 f11
    obtain ⟨-, -, -, -, -, -, g7, -, -, g10, -⟩ := finishMove_rest s4 false (nextY s) (nextX s)
    have hs4 : s4.snake = l2 ++ [t2] := by rw [f1, hpe]
    have hsn : (finishMove s4 false (nextY s) (nextX s)).snake =
        (nextY s, nextX s) :: s.snake.dropLast.dropLast := by
      rw [finishMove_snake, hs4, hl]; simp
    have hmp : (finishMove s4 false (nextY s) (nextX s)).map =
        setCell (setCell s4.map t2.1 t2.2 0) (nextY s) (nextX s) 3 := by
      rw [finishMove_map, removeTail_of_append s4 l2 t2 hs4]; rfl
    refine ⟨?_, ?_, ?_, hsn, ?_, ?_⟩
    · rw [hsn, hl]; simp
    · rw [g7, f8, hpe]; show (expireItems s).collected_poison_items + 1 = _; rw [e9]
    · rw [g10, f11, hpe]; show (expireItems s).total_score_poison - 5 = _; rw [e12]
    · intro t h2
      have : t = t2 := by
        rw [hl] at h2; simp at h2; exact h2.symm
      subst this
      rw [hmp]
      have hne : ¬ (t.1 = nextY s ∧ t.2 = nextX s) := fun hh => ht2 (Prod.ext hh.1 hh.2)
      simp [setCell, hne]
    · intro t h1
      have : t = t1 := by
        rw [hl] at h1; simp at h1; exact h1.symm
      subst this
      rw [hmp]
      have hne : ¬ (t.1 = nextY s ∧ t.2 = nextX s) := fun hh => ht1 (Prod.ext hh.1 hh.2)
      have hbase : (poisonCleared s).map t.1 t.2 = 0 := by
        simp only [poisonCleared]; rw [hpe]; simp [setCell, hne]
      rcases spawnPoisonItem_map _ _ _ hsp with hm | ⟨y, x, -, -, hm⟩
      · rw [hm]
        by_cases h2 : t.1 = t2.1 ∧ t.2 = t2.2
        · left; simp only [setCell, if_neg hne, if_pos h2]
        · left; simp only [setCell, if_neg hne, if_neg h2]; exact hbase
      · rw [hm]
        by_cases h2 : t.1 = t2.1 ∧ t.2 = t2.2
        · left; simp only [setCell, if_neg hne, if_pos h2]
        · by_cases h3 : t.1 = y ∧ t.2 = x
          · right; simp only [setCell, if_neg hne, if_neg h2, if_pos h3]
          · left
            have := hbase
            simp only [setCell, if_neg hne] at this
            simp only [setCell, if_neg hne, if_neg h2, if_neg h3]
            exact this
  · intro rnd
    rw [moveSnake_of_poison s _ hb htg hshort]
    obtain ⟨s4, hs4⟩ := spawnPoisonItem_of_hit (poisonCleared s)
      rnd (nextY s) (nextX s) hb (by simp [poisonCleared, setCell])
    rw [hs4]
    exact ⟨_, rfl⟩

/-- Witness of C5 as amended: a 4-segment snake eats the poison ahead of it. -/
theorem moveSnake_poison_removes_two_witness :
    ∃ s', moveSnake (stateFacing 4 2) [(10, 11)] = some s' ∧
      s'.snake = [(10, 11), (10, 10), (10, 9)] ∧ s'.snake.length = 3 := by
  have h := moveSnake_poison_removes_two (stateFacing 4 2) (by decide) (by decide) (by decide)
    (by decide) (by decide)
  obtain ⟨s', hs'⟩ : ∃ s', moveSnake (stateFacing 4 2) [(10, 11)] = some s' := h.2 []
  obtain ⟨h1, -, -, h4, -⟩ := h.1 _ _ hs'
  exact ⟨s', hs', by rw [h4]; decide, by rw [h1]; decide⟩

/-! ## Lock-step of grid and snake (C1) -/

theorem mem_allCells (p : Pos) : p ∈ allCells ↔ inBounds p.1 p.2 := by
  obtain ⟨y, x⟩ := p
  simp only [allCells, List.mem_flatMap, List.mem_map, List.mem_range, Prod.mk.injEq, inBounds,
    HEIGHT, WIDTH]
  constructor
  · rintro ⟨a, ha, b, hb, rfl, rfl⟩
    exact ⟨by omega, by omega, by omega, by omega⟩
  · rintro ⟨h1, h2, h3, h4⟩
    refine ⟨y.toNat, by omega, x.toNat, by omega, ?_, ?_⟩
    · exact Int.toNat_of_nonneg h1
    · exact Int.toNat_of_nonneg h3

theorem allCells_nodup : allCells.Nodup := by
  unfold allCells
  rw [List.nodup_flatMap]
  constructor
  · intro y _
    refine List.Nodup.map ?_ (List.nodup_range 21)
    intro a b h
    simpa using h
  · refine List.Pairwise.imp_of_mem ?_ (List.nodup_range 21)
    intro a b _ _ hab
    simp only [Function.onFun, List.disjoint_left, List.mem_map, List.mem_range]
    rintro p ⟨x1, -, rfl⟩ ⟨x2, -, h⟩
    simp only [Prod.mk.injEq, Nat.cast_inj] at h
    exact hab h.1.symm

theorem Synced.count {m : Grid} {sn : List Pos} (h : Synced m sn) :
    countCells m 3 = sn.length := by
  unfold countCells
  apply List.Perm.length_eq
  rw [List.perm_ext_iff_of_nodup (allCells_nodup.filter _) h.1]
  intro p
  simp only [List.mem_filter, mem_allCells, decide_eq_true_eq]
  constructor
  · rintro ⟨hb, h3⟩
    exact (h.2.2 p.1 p.2 hb).mp h3
  · intro hp
    exact ⟨h.2.1 p hp, (h.2.2 p.1 p.2 (h.2.1 p hp)).mpr hp⟩

theorem Synced.lockStep {s : State} (h : Synced s.map s.snake) : LockStep s :=
  ⟨h.1, h.2.1, h.2.2, h.count⟩

theorem Synced.of_agree {m m' : Grid} {sn : List Pos} (h : Synced m sn)
    (hm : ∀ y x, inBounds y x → (m' y x = 3 ↔ m y x = 3)) : Synced m' sn :=
  ⟨h.1, h.2.1, fun y x hb => (hm y x hb).trans (h.2.2 y x hb)⟩

/-- Writing a value other than 3 into a cell that is not SnakeBody. -/
theorem Synced.setCell_other {m : Grid} {sn : List Pos} (h : Synced m sn) (y x v : Int)
    (hv : v ≠ 3) (hc : inBounds y x → m y x ≠ 3) : Synced (setCell m y x v) sn := by
  refine h.of_agree fun i j hb => ?_
  unfold setCell
  by_cases hij : i = y ∧ j = x
  · obtain ⟨rfl, rfl⟩ := hij
    simp [hv, hc hb]
  · simp [hij]

/-- Clearing the cell of the last segment and dropping that segment. -/
theorem Synced.dropTail {m : Grid} {l : List Pos} {t : Pos} (h : Synced m (l ++ [t])) :
    Synced (setCell m t.1 t.2 0) l := by
  obtain ⟨hnd, hin, hmk⟩ := h
  have hnd' := List.nodup_append.mp hnd
  have htl : t ∉ l := fun ht => hnd'.2.2 ht (List.mem_singleton_self t)
  refine ⟨hnd'.1, fun p hp => hin p (List.mem_append_left _ hp), fun y x hb => ?_⟩
  unfold setCell
  by_cases hyx : y = t.1 ∧ x = t.2
  · obtain ⟨rfl, rfl⟩ := hyx
    simp [htl]
  · simp only [if_neg hyx]
    rw [hmk y x hb, List.mem_append, List.mem_singleton]
    constructor
    · rintro (h1 | h1)
      · exact h1
      · exact absurd ⟨congrArg Prod.fst h1, congrArg Prod.snd h1⟩ hyx
    · exact Or.inl

/-- Marking a cell of the grid that is not SnakeBody and pushing it to the front. -/
theorem Synced.push {m : Grid} {sn : List Pos} (h : Synced m sn) (y x : Int)
    (hb : inBounds y x) (hc : m y x ≠ 3) : Synced (setCell m y x 3) ((y, x) :: sn) := by
  obtain ⟨hnd, hin, hmk⟩ := h
  have hnot : (y, x) ∉ sn := fun hm => hc ((hmk y x hb).mpr hm)
  refine ⟨List.nodup_cons.mpr ⟨hnot, hnd⟩, ?_, fun i j hij => ?_⟩
  · intro p hp
    rcases List.mem_cons.mp hp with rfl | hp
    · exact hb
    · exact hin p hp
  · unfold setCell
    by_cases hyx : i = y ∧ j = x
    · obtain ⟨rfl, rfl⟩ := hyx
      simp
    · simp only [if_neg hyx, List.mem_cons, Prod.mk.injEq]
      rw [hmk i j hij]
      constructor
      · exact Or.inr
      · rintro (h1 | h1)
        · exact absurd h1 hyx
        · exact h1

theorem Synced.expire {s : State} (h : Synced s.map s.snake) :
    Synced (expireItems s).map (expireItems s).snake := by
  rw [(expireItems_rest s).1]
  refine h.of_agree fun y x _ => ?_
  rw [expireItems_map]
  split_ifs with hc
  · rcases hc.2.2 with h4 | h2
    · rw [h4]; decide
    · rw [h2]; decide
  · rfl

theorem Synced.removeTail {s : State} (h : Synced s.map s.snake) :
    Synced (removeTail s).map (removeTail s).snake := by
  rcases List.eq_nil_or_concat s.snake with hnil | ⟨l, t, hl⟩
  · rw [removeTail_of_nil s hnil]; exact h
  · rw [List.concat_eq_append] at hl
    rw [removeTail_of_append s l t hl]
    rw [hl] at h
    exact h.dropTail

/-- The head advance of `moveSnake` onto a cell of the grid that is not SnakeBody. -/
theorem Synced.finishMove {s : State} (h : Synced s.map s.snake) (grew : Bool) (ny nx : Int)
    (hb : inBounds ny nx) (hc : s.map ny nx ≠ 3) :
    Synced (finishMove s grew ny nx).map (finishMove s grew ny nx).snake := by
  rw [finishMove_map, finishMove_snake]
  cases grew
  · simp only [if_true]
    have h1 := Synced.removeTail h
    rw [removeTail_snake] at h1
    refine h1.push ny nx hb ?_
    rcases List.eq_nil_or_concat s.snake with hnil | ⟨l, t, hl⟩
    · rw [removeTail_of_nil s hnil]; exact hc
    · rw [List.concat_eq_append] at hl
      rw [removeTail_of_append s l t hl]
      show setCell s.map t.1 t.2 0 ny nx ≠ 3
      unfold setCell
      split_ifs
      · decide
      · exact hc
  · simp only [Bool.true_eq_false, if_false]
    exact h.push ny nx hb hc

theorem Synced.spawnGrowth {s s2 : State} {rnd : List (Nat × Nat)}
    (h : Synced s.map s.snake) (hsp : spawnGrowthItem s rnd = some s2) :
    Synced s2.map s2.snake := by
  rw [(spawnGrowthItem_rest s s2 rnd hsp).1]
  rcases spawnGrowthItem_map s s2 rnd hsp with hm | ⟨y, x, -, h0, hm⟩
  · rw [hm]; exact h
  · rw [hm]
    exact h.setCell_other y x 4 (by decide) (fun _ => by rw [h0]; decide)

theorem Synced.spawnPoison {s s2 : State} {rnd : List (Nat × Nat)}
    (h : Synced s.map s.snake) (hsp : spawnPoisonItem s rnd = some s2) :
    Synced s2.map s2.snake := by
  rw [(spawnPoisonItem_rest s s2 rnd hsp).1]
  rcases spawnPoisonItem_map s s2 rnd hsp with hm | ⟨y, x, -, h0, hm⟩
  · rw [hm]; exact h
  · rw [hm]
    exact h.setCell_other y x 2 (by decide) (fun _ => by rw [h0]; decide)

/-- The value a spawn leaves in a cell that was Empty before it. -/
theorem spawnGrowthItem_cell {s s2 : State} {rnd : List (Nat × Nat)}
    (hsp : spawnGrowthItem s rnd = some s2) (y x : Int) (h0 : s.map y x = 0) :
    s2.map y x ≠ 3 := by
  rcases spawnGrowthItem_map s s2 rnd hsp with hm | ⟨y', x', -, -, hm⟩
  · rw [hm, h0]; decide
  · rw [hm]; unfold setCell; split_ifs
    · decide
    · rw [h0]; decide

theorem spawnPoisonItem_cell {s s2 : State} {rnd : List (Nat × Nat)}
    (hsp : spawnPoisonItem s rnd = some s2) (y x : Int) (h0 : s.map y x = 0) :
    s2.map y x ≠ 3 := by
  rcases spawnPoisonItem_map s s2 rnd hsp with hm | ⟨y', x', -, -, hm⟩
  · rw [hm, h0]; decide
  · rw [hm]; unfold setCell; split_ifs
    · decide
    · rw [h0]; decide

/-- The recorded gate pair is never changed by `moveSnake`. -/
theorem moveSnake_gates (s s' : State) (rnd : List (Nat × Nat))
    (h : moveSnake s rnd = some s') : s'.gateA = s.gateA ∧ s'.gateB = s.gateB := by
  obtain ⟨-, -, -, -, -, -, -, -, -, -, -, -, -, -, -, e16, e17⟩ := expireItems_rest s
  have hfin : ∀ (t : State) (g : Bool) (y x : Int),
      (finishMove t g y x).gateA = t.gateA ∧ (finishMove t g y x).gateB = t.gateB :=
    fun t g y x => ⟨(finishMove_rest t g y x).2.2.2.2.2.2.2.2.2.2.2.2.1,
      (finishMove_rest t g y x).2.2.2.2.2.2.2.2.2.2.2.2.2.1⟩
  by_cases hb : inBounds (nextY s) (nextX s)
  swap
  · rw [moveSnake_of_oob s rnd hb] at h
    cases h; exact ⟨e16, e17⟩
  rcases target_cases s with ht | ht | ht | ht | ht | ht | ⟨h1, h9, h3, h4, h2, h5⟩
  · rw [moveSnake_of_blocked s rnd hb (Or.inl ht)] at h
    cases h; exact ⟨e16, e17⟩
  · rw [moveSnake_of_blocked s rnd hb (Or.inr (Or.inl ht))] at h
    cases h; exact ⟨e16, e17⟩
  · rw [moveSnake_of_blocked s rnd hb (Or.inr (Or.inr ht))] at h
    cases h; exact ⟨e16, e17⟩
  · rw [moveSnake_of_growth s rnd hb ht] at h
    obtain ⟨s2, hsp, rfl⟩ := Option.map_eq_some'.mp h
    obtain ⟨-, -, -, -, -, -, -, -, -, -, -, -, -, -, f15, f16⟩ := spawnGrowthItem_rest _ _ _ hsp
    rw [(hfin _ _ _ _).1, (hfin _ _ _ _).2, f15, f16]
    exact ⟨e16, e17⟩
  · have hpe : (poisonEaten s).gateA = s.gateA ∧ (poisonEaten s).gateB = s.gateB := by
      unfold poisonEaten
      obtain ⟨-, -, -, -, -, -, -, -, -, -, -, -, -, r14, r15, -⟩ := removeTail_rest
        { expireItems s with
          collected_poison_items := (expireItems s).collected_poison_items + 1,
          total_score_poison := (expireItems s).total_score_poison - 5 }
      rw [r14, r15]; exact ⟨e16, e17⟩
    by_cases hc : s.snake ≠ [] ∧ (poisonEaten s).snake.length < 3
    · rw [moveSnake_of_poison_short s rnd hb ht hc] at h
      cases h; exact hpe
    · rw [moveSnake_of_poison s rnd hb ht hc] at h
      obtain ⟨s4, hsp, rfl⟩ := Option.map_eq_some'.mp h
      obtain ⟨-, -, -, -, -, -, -, -, -, -, -, -, -, -, f15, f16⟩ := spawnPoisonItem_rest _ _ _ hsp
      rw [(hfin _ _ _ _).1, (hfin _ _ _ _).2, f15, f16]
      exact hpe
  · by_cases hc : s.gateCooldown > 0
    · rw [moveSnake_of_gate_cooldown s rnd hb ht hc] at h
      cases h; exact ⟨e16, e17⟩
    · by_cases hx : gateExitBlocked s
      · rw [moveSnake_of_gate_blocked s rnd hb ht hc hx] at h
        cases h
        exact ⟨(gateExit_rest s).2.2.1, (gateExit_rest s).2.2.2.1⟩
      · rw [moveSnake_of_gate s rnd hb ht hc hx] at h
        cases h
        rw [(hfin _ _ _ _).1, (hfin _ _ _ _).2]
        exact ⟨(gateExit_rest s).2.2.1, (gateExit_rest s).2.2.2.1⟩
  · rw [moveSnake_of_plain s rnd hb h1 h9 h3 h4 h2 h5] at h
    cases h
    rw [(hfin _ _ _ _).1, (hfin _ _ _ _).2]
    exact ⟨e16, e17⟩

/-- Every branch of `moveSnake` keeps grid and snake in lock-step. -/
theorem Synced.moveSnake {s s' : State} {rnd : List (Nat × Nat)}
    (hs : Synced s.map s.snake) (h : moveSnake s rnd = some s') :
    Synced s'.map s'.snake := by
  have he := hs.expire
  by_cases hb : inBounds (nextY s) (nextX s)
  swap
  · rw [moveSnake_of_oob s rnd hb] at h
    cases h; exact he
  rcases target_cases s with ht | ht | ht | ht | ht | ht | ⟨h1, h9, h3, h4, h2, h5⟩
  · rw [moveSnake_of_blocked s rnd hb (Or.inl ht)] at h
    cases h; exact he
  · rw [moveSnake_of_blocked s rnd hb (Or.inr (Or.inl ht))] at h
    cases h; exact he
  · rw [moveSnake_of_blocked s rnd hb (Or.inr (Or.inr ht))] at h
    cases h; exact he
  · rw [moveSnake_of_growth s rnd hb ht] at h
    obtain ⟨s2, hsp, rfl⟩ := Option.map_eq_some'.mp h
    have hg : Synced (growthEaten s).map (growthEaten s).snake :=
      he.setCell_other (nextY s) (nextX s) 0 (by decide)
        (fun _ => by show target s ≠ 3; rw [ht]; decide)
    refine (hg.spawnGrowth hsp).finishMove true _ _ hb ?_
    exact spawnGrowthItem_cell hsp _ _ (by simp [growthEaten, setCell])
  · have hp : Synced (poisonEaten s).map (poisonEaten s).snake := by
      unfold poisonEaten
      exact Synced.removeTail he
    by_cases hc : s.snake ≠ [] ∧ (poisonEaten s).snake.length < 3
    · rw [moveSnake_of_poison_short s rnd hb ht hc] at h
      cases h; exact hp
    · rw [moveSnake_of_poison s rnd hb ht hc] at h
      obtain ⟨s4, hsp, rfl⟩ := Option.map_eq_some'.mp h
      have hcell : inBounds (nextY s) (nextX s) → (poisonEaten s).map (nextY s) (nextX s) ≠ 3 := by
        intro _ h3
        have hmem := (hp.2.2 _ _ hb).mp h3
        rw [poisonEaten_snake] at hmem
        have hmem' : (nextY s, nextX s) ∈ (expireItems s).snake := by
          rw [(expireItems_rest s).1]; exact List.mem_of_mem_dropLast hmem
        have := (he.2.2 _ _ hb).mpr hmem'
        have ht' : target s = 3 := this
        rw [ht] at ht'
        exact absurd ht' (by decide)
      have hcl : Synced (poisonCleared s).map (poisonCleared s).snake :=
        hp.setCell_other (nextY s) (nextX s) 0 (by decide) hcell
      refine (hcl.spawnPoison hsp).finishMove false _ _ hb ?_
      exact spawnPoisonItem_cell hsp _ _ (by simp [poisonCleared, setCell])
  · by_cases hc : s.gateCooldown > 0
    · rw [moveSnake_of_gate_cooldown s rnd hb ht hc] at h
      cases h; exact he
    · have hgx : Synced (gateExit s).2.2.map (gateExit s).2.2.snake := by
        rw [(gateExit_rest s).1, (gateExit_rest s).2.1, ← (expireItems_rest s).1]
        exact he
      by_cases hx : gateExitBlocked s
      · rw [moveSnake_of_gate_blocked s rnd hb ht hc hx] at h
        cases h; exact hgx
      · rw [moveSnake_of_gate s rnd hb ht hc hx] at h
        cases h
        have hga : Synced (gateArmed s).map (gateArmed s).snake := hgx
        refine hga.finishMove false _ _ ?_ ?_
        · unfold gateExitBlocked at hx
          unfold inBounds
          omega
        · intro h3
          exact hx (Or.inr (Or.inr (Or.inr (Or.inr (Or.inr (Or.inr h3))))))
  · rw [moveSnake_of_plain s rnd hb h1 h9 h3 h4 h2 h5] at h
    cases h
    exact he.finishMove false _ _ hb h3

theorem updateDirection_turn_rest (s : State) (newDir : Dir) (u : Bool) :
    let s1 : State := if u = true then { s with gameOverReason := 1 } else s
    let r : State :=
      if newDir ≠ s1.dirIndex ∧ u = false then
        { s1 with prevDirIndex := s1.dirIndex, dirIndex := newDir }
      else s1
    r.map = s.map ∧ r.snake = s.snake ∧ r.gateA = s.gateA ∧ r.gateB = s.gateB := by
  cases u
  · by_cases h : newDir = s.dirIndex <;> simp [h]
  · simp

theorem updateDirection_rest (s : State) (ch : Int) :
    (updateDirection s ch).map = s.map ∧ (updateDirection s ch).snake = s.snake ∧
    (updateDirection s ch).gateA = s.gateA ∧ (updateDirection s ch).gateB = s.gateB := by
  unfold updateDirection
  by_cases h1 : s.paused = true ∧ ch = KEY_p
  · simp only [if_pos h1, and_self]
  · by_cases h2 : ch = KEY_p
    · simp only [if_neg h1, if_pos h2, and_self]
    · simp only [if_neg h1, if_neg h2]
      exact updateDirection_turn_rest s _ _

/-- The grid `initStage` builds, before the snake is laid on it, has no SnakeBody
cell inside the array. -/
theorem placeInnerWalls_buildWalls_ne (m : Grid) (draw : Int → Int → Bool) (y x : Int)
    (hb : inBounds y x) : placeInnerWalls (buildWalls m) draw y x ≠ 3 := by
  unfold placeInnerWalls buildWalls
  simp only [if_pos hb]
  unfold IMMUNE_WALL
  split_ifs <;> decide

/-- Grid and snake right after the snake is laid out by `initStage`. -/
theorem Synced.fresh (m : Grid) (hm : ∀ y x, inBounds y x → m y x ≠ 3) :
    Synced
      (centreCells.foldl (fun g seg => setCell g seg.1 seg.2 3)
        (setCell (setCell (setCell m (HEIGHT / 2) (WIDTH / 2) 0) (HEIGHT / 2) (WIDTH / 2 - 1) 0)
          (HEIGHT / 2) (WIDTH / 2 - 2) 0))
      centreCells := by
  refine ⟨by decide, by decide, fun y x hb => ?_⟩
  have := hm y x hb
  simp only [centreCells, List.foldl, setCell, HEIGHT, WIDTH, List.mem_cons, Prod.mk.injEq,
    List.mem_singleton, List.not_mem_nil, or_false]
  norm_num
  split_ifs <;> simp_all

theorem spawnGates_eq (s : State) (shuffle : List Pos → List Pos) :
    spawnGates s shuffle =
      if (wallCandidates (revertGates s)).length < 2 then
        { s with map := revertGates s, gateA := (-1, -1), gateB := (-1, -1) }
      else
        { s with
          gateA := (shuffle (wallCandidates (revertGates s))).getD 0 (-1, -1),
          gateB := (shuffle (wallCandidates (revertGates s))).getD 1 (-1, -1),
          map :=
            setCell
              (setCell (revertGates s)
                ((shuffle (wallCandidates (revertGates s))).getD 0 (-1, -1)).1
                ((shuffle (wallCandidates (revertGates s))).getD 0 (-1, -1)).2 5)
              ((shuffle (wallCandidates (revertGates s))).getD 1 (-1, -1)).1
              ((shuffle (wallCandidates (revertGates s))).getD 1 (-1, -1)).2 5,
          gateLifetimeCounter := 0 } := by
  rfl

theorem mem_wallCandidates {m : Grid} {p : Pos} (h : p ∈ wallCandidates m) :
    inBounds p.1 p.2 ∧ m p.1 p.2 = 1 := by
  unfold wallCandidates at h
  rw [List.mem_filter, mem_allCells] at h
  refine ⟨h.1, ?_⟩
  have := h.2
  simp only [Bool.and_eq_true, decide_eq_true_eq] at this
  exact this.1

theorem Synced.revertGates {s : State} (hs : Synced s.map s.snake)
    (hA : s.gateA ∉ s.snake) (hB : s.gateB ∉ s.snake) : Synced (revertGates s) s.snake := by
  have h1 : Synced (if s.gateA.1 ≠ -1 then setCell s.map s.gateA.1 s.gateA.2 1 else s.map)
      s.snake := by
    split_ifs
    · exact hs.setCell_other _ _ 1 (by decide) (fun hb h3 => hA ((hs.2.2 _ _ hb).mp h3))
    · exact hs
  unfold SnakeGame.revertGates
  by_cases hb1 : s.gateB.1 ≠ -1
  · simp only [if_pos hb1]
    exact h1.setCell_other _ _ 1 (by decide) (fun hb h3 => hB ((h1.2.2 _ _ hb).mp h3))
  · simp only [if_neg hb1]
    exact h1

/-- The function `spawnGates` keeps grid and snake in lock-step and never records a gate on a
cell of the snake, whatever rearrangement the shuffle performs. -/
theorem Synced.spawnGates {s : State} (shuffle : List Pos → List Pos)
    (hperm : ∀ l, (shuffle l).Perm l) (hs : Synced s.map s.snake)
    (hA : s.gateA ∉ s.snake) (hB : s.gateB ∉ s.snake) :
    Synced (spawnGates s shuffle).map (spawnGates s shuffle).snake ∧
    (spawnGates s shuffle).snake = s.snake ∧
    (spawnGates s shuffle).gateA ∉ s.snake ∧ (spawnGates s shuffle).gateB ∉ s.snake := by
  have hr := hs.revertGates hA hB
  have hout : ((-1 : Int), (-1 : Int)) ∉ s.snake := by
    intro h
    have := hs.2.1 _ h
    unfold inBounds at this
    omega
  rw [spawnGates_eq]
  split_ifs with hlen
  · exact ⟨hr, rfl, hout, hout⟩
  · have hl : (shuffle (wallCandidates (SnakeGame.revertGates s))).length =
        (wallCandidates (SnakeGame.revertGates s)).length := (hperm _).length_eq
    have ha : (shuffle (wallCandidates (SnakeGame.revertGates s))).getD 0 (-1, -1) ∈
        wallCandidates (SnakeGame.revertGates s) := by
      rw [List.getD_eq_getElem _ _ (by omega)]
      exact (hperm _).subset (List.getElem_mem _)
    have hb : (shuffle (wallCandidates (SnakeGame.revertGates s))).getD 1 (-1, -1) ∈
        wallCandidates (SnakeGame.revertGates s) := by
      rw [List.getD_eq_getElem _ _ (by omega)]
      exact (hperm _).subset (List.getElem_mem _)
    obtain ⟨hab, ha1⟩ := mem_wallCandidates ha
    obtain ⟨hbb, hb1⟩ := mem_wallCandidates hb
    have hna : ∀ p : Pos, inBounds p.1 p.2 → SnakeGame.revertGates s p.1 p.2 = 1 → p ∉ s.snake := by
      intro p hpb hp1 hmem
      have := (hr.2.2 _ _ hpb).mpr hmem
      rw [hp1] at this
      exact absurd this (by decide)
    refine ⟨?_, rfl, hna _ hab ha1, hna _ hbb hb1⟩
    have h5 := hr.setCell_other _ _ 5 (by decide) (fun _ => by rw [ha1]; decide)
    refine h5.setCell_other _ _ 5 (by decide) (fun _ => ?_)
    unfold setCell
    split_ifs
    · decide
    · rw [hb1]; decide

theorem initStage_eq (s : State) (stage : Nat) (wallDraw : Nat → Int → Int → Bool)
    (rndG rndP : List (Nat × Nat)) (shuffle : List Pos → List Pos) :
    initStage s stage wallDraw rndG rndP shuffle =
      (spawnGrowthItem (freshStage s stage wallDraw) rndG).bind fun s3 =>
        (spawnPoisonItem s3 rndP).map fun s4 => spawnGates s4 shuffle := by
  rfl

/-- The function `initStage` establishes the invariant, provided the gate pair recorded before
the call does not lie on the cells where the new snake is laid. -/
theorem initStage_inv (s s' : State) (stage : Nat) (wallDraw : Nat → Int → Int → Bool)
    (rndG rndP : List (Nat × Nat)) (shuffle : List Pos → List Pos)
    (hperm : ∀ l, (shuffle l).Perm l)
    (hA : s.gateA ∉ centreCells) (hB : s.gateB ∉ centreCells)
    (h : initStage s stage wallDraw rndG rndP shuffle = some s') :
    Inv s' ∧ s'.snake = centreCells := by
  rw [initStage_eq] at h
  obtain ⟨s3, h3, h⟩ := Option.bind_eq_some.mp h
  obtain ⟨s4, h4, rfl⟩ := Option.map_eq_some'.mp h
  have hf : Synced (freshStage s stage wallDraw).map (freshStage s stage wallDraw).snake :=
    Synced.fresh _ (placeInnerWalls_buildWalls_ne s.map (wallDraw stage))
  have hs3 := hf.spawnGrowth h3
  have hs4 := hs3.spawnPoison h4
  obtain ⟨f1, -, -, -, -, -, -, -, -, -, -, -, -, -, f15, f16⟩ := spawnGrowthItem_rest _ _ _ h3
  obtain ⟨g1, -, -, -, -, -, -, -, -, -, -, -, -, -, g15, g16⟩ := spawnPoisonItem_rest _ _ _ h4
  have hsn : s4.snake = centreCells := by rw [g1, f1]; rfl
  have hgA : s4.gateA ∉ s4.snake := by rw [hsn, g15, f15]; exact hA
  have hgB : s4.gateB ∉ s4.snake := by rw [hsn, g16, f16]; exact hB
  obtain ⟨k1, k2, k3, k4⟩ := hs4.spawnGates shuffle hperm hgA hgB
  rw [hsn] at k2 k3 k4
  exact ⟨⟨k1, k3, k4⟩, k2⟩

theorem playGameStart_inv (s s' : State) (wallDraw : Nat → Int → Int → Bool)
    (rndG rndP : List (Nat × Nat)) (shuffle : List Pos → List Pos)
    (hperm : ∀ l, (shuffle l).Perm l)
    (hA : s.gateA ∉ centreCells) (hB : s.gateB ∉ centreCells)
    (h : playGameStart s wallDraw rndG rndP shuffle = some s') : Inv s' := by
  unfold playGameStart at h
  refine (initStage_inv _ s' _ wallDraw rndG rndP shuffle hperm ?_ ?_ h).1
  · exact hA
  · exact hB

theorem advanceStage_inv (s s' : State) (wallDraw : Nat → Int → Int → Bool)
    (rndG rndP : List (Nat × Nat)) (shuffle : List Pos → List Pos)
    (hperm : ∀ l, (shuffle l).Perm l) (hs : Inv s)
    (h : advanceStage s wallDraw rndG rndP shuffle = some s') : Inv s' := by
  unfold advanceStage at h
  simp only at h
  split_ifs at h
  · cases h; exact hs
  · refine (initStage_inv _ s' _ wallDraw rndG rndP shuffle hperm ?_ ?_ h).1
    · exact hs.2.1
    · exact hs.2.2

/-- Every reachable state satisfies the invariant. -/
theorem Reachable.inv {s : State} (h : Reachable s) : Inv s := by
  induction h with
  | start wallDraw rndG rndP shuffle s hperm hs =>
    exact playGameStart_inv bootState s wallDraw rndG rndP shuffle hperm (by decide) (by decide) hs
  | restart s0 wallDraw rndG rndP shuffle s _ hperm hs ih =>
    exact playGameStart_inv s0 s wallDraw rndG rndP shuffle hperm ih.2.1 ih.2.2 hs
  | moved s0 ch rnd s _ hs ih =>
    obtain ⟨u1, u2, u3, u4⟩ := updateDirection_rest s0 ch
    have hsy : Synced (updateDirection s0 ch).map (updateDirection s0 ch).snake := by
      rw [u1, u2]; exact ih.1
    obtain ⟨g1, g2⟩ := moveSnake_gates _ _ _ hs
    refine ⟨hsy.moveSnake hs, ?_, ?_⟩
    · rw [g1, u3]; exact ih.2.1
    · rw [g2, u4]; exact ih.2.2
  | advanced s0 wallDraw rndG rndP shuffle s _ hperm hs ih =>
    exact advanceStage_inv s0 s wallDraw rndG rndP shuffle hperm ih hs

/-- C1: in every state reachable from a session start by ticks (`updateDirection`
then `moveSnake`, any key, any draws, terminating or not) and stage advancements,
the segments of the snake are pairwise distinct cells of the grid, a cell is
marked SnakeBody exactly when it is a segment, and the number of SnakeBody cells
equals the length of the snake. -/
theorem reachable_lockStep (s : State) (h : Reachable s) : LockStep s :=
  h.inv.1.lockStep

set_option maxRecDepth 100000 in
/-- Witness of C1: the state after a session start from the boot state with no
inner wall, the item draws `(3, 3)` and `(5, 5)` and the identity shuffle. -/
theorem reachable_lockStep_witness :
    ∃ s, playGameStart bootState (fun _ _ _ => false) [(3, 3)] [(5, 5)] id = some s ∧
      LockStep s := by
  have hsome :
      (playGameStart bootState (fun _ _ _ => false) [(3, 3)] [(5, 5)] id).isSome = true := by
    decide
  obtain ⟨s, hs⟩ := Option.isSome_iff_exists.mp hsome
  exact ⟨s, hs, reachable_lockStep s
    (Reachable.start _ _ _ _ s (fun l => List.Perm.refl l) hs)⟩

/-! ## Exit direction of an interior gate (C11) -/

theorem rotation_tables (d : Dir) :
    (dy (clockwise d) = dx d ∧ dx (clockwise d) = -dy d) ∧
    (dy (counterClockwise d) = -dx d ∧ dx (counterClockwise d) = dy d) ∧
    (dy (opposite d) = -dy d ∧ dx (opposite d) = -dx d) := by
  revert d; decide

/-- The four candidates of Rule 2 are all four directions. -/
theorem mem_possibleDirections (e d : Dir) :
    d ∈ [e, clockwise e, counterClockwise e, opposite e] := by
  revert e d; decide

theorem find_fallback_none (m : Grid) (y x : Int) (e : Dir)
    (h : [e, clockwise e, counterClockwise e, opposite e].find? (exitOk m y x) = none) :
    ([0, 1, 2, 3] : List Dir).find? (exitOk m y x) = none := by
  rw [List.find?_eq_none] at h ⊢
  intro d _
  exact h d (mem_possibleDirections e d)

/-- Value of `calculateExitDirection` when Rule 1 does not apply. -/
theorem calculateExitDirection_rule2 (m : Grid) (y x : Int) (e : Dir)
    (h1 : ¬ (y = 0 ∧ m y x = 1)) (h2 : ¬ (y = HEIGHT - 1 ∧ m y x = 1))
    (h3 : ¬ (x = 0 ∧ m y x = 1)) (h4 : ¬ (x = WIDTH - 1 ∧ m y x = 1)) :
    calculateExitDirection m y x e =
      ([e, clockwise e, counterClockwise e, opposite e].find? (exitOk m y x)).getD e := by
  unfold calculateExitDirection
  simp only [if_neg h1, if_neg h2, if_neg h3, if_neg h4]
  cases hf : [e, clockwise e, counterClockwise e, opposite e].find? (exitOk m y x) with
  | some d => rfl
  | none =>
    simp only [find_fallback_none m y x e hf, Option.getD_none]

/-- C11: for an exit gate that is on no border, `calculateExitDirection` returns
the first of the entry direction `e`, `e` turned clockwise, `e` turned
counter-clockwise and the reverse of `e` whose neighbouring cell is in bounds and
Empty, Growth or Poison, and `e` itself when there is none; in particular it
returns `e` when the neighbour in direction `e` qualifies.  The fallback scan
never changes the result.  The tables `clockwise`, `counterClockwise` and
`opposite` are the quarter turns and the half turn of the unit vectors. -/
theorem calculateExitDirection_interior (m : Grid) (y x : Int) (e : Dir)
    (hy : 0 < y ∧ y < HEIGHT - 1) (hx : 0 < x ∧ x < WIDTH - 1) :
    calculateExitDirection m y x e =
        ([e, clockwise e, counterClockwise e, opposite e].find? (exitOk m y x)).getD e ∧
    (exitOk m y x e = true → calculateExitDirection m y x e = e) ∧
    ((∀ d, exitOk m y x d = false) → calculateExitDirection m y x e = e) ∧
    (∀ d : Dir,
      (dy (clockwise d) = dx d ∧ dx (clockwise d) = -dy d) ∧
      (dy (counterClockwise d) = -dx d ∧ dx (counterClockwise d) = dy d) ∧
      (dy (opposite d) = -dy d ∧ dx (opposite d) = -dx d)) := by
  have hr := calculateExitDirection_rule2 m y x e (by omega) (by omega) (by omega) (by omega)
  refine ⟨hr, ?_, ?_, rotation_tables⟩
  · intro he
    rw [hr, List.find?_cons_of_pos _ he]; rfl
  · intro hn
    rw [hr]
    have : [e, clockwise e, counterClockwise e, opposite e].find? (exitOk m y x) = none := by
      rw [List.find?_eq_none]
      intro d _
      simp [hn d]
    rw [this]; rfl

/-- Witness of C11: an interior gate at `(5, 5)` of `borderGrid` with a wall on its
right; entering heading Right the exit turns clockwise, to Down. -/
theorem calculateExitDirection_interior_witness :
    calculateExitDirection (setCell (setCell borderGrid 5 5 5) 5 6 1) 5 5 RIGHT = DOWN := by
  rw [(calculateExitDirection_interior (setCell (setCell borderGrid 5 5 5) 5 6 1) 5 5 RIGHT
    (by decide) (by decide)).1]
  decide

/-! ## An exit is found when one exists (C12) -/

/-- When Rule 1 does not apply and some neighbour of the exit gate is passable,
the direction returned leads to a passable neighbour. -/
theorem calculateExitDirection_exitOk (m : Grid) (y x : Int) (e : Dir)
    (hg : m y x ≠ 1) (hn : ∃ d, exitOk m y x d = true) :
    exitOk m y x (calculateExitDirection m y x e) = true := by
  rw [calculateExitDirection_rule2 m y x e (fun h => hg h.2) (fun h => hg h.2)
    (fun h => hg h.2) (fun h => hg h.2)]
  cases hf : [e, clockwise e, counterClockwise e, opposite e].find? (exitOk m y x) with
  | some d => exact List.find?_some hf
  | none =>
    obtain ⟨d, hd⟩ := hn
    rw [List.find?_eq_none] at hf
    exact absurd hd (hf d (mem_possibleDirections e d))

/-- A neighbour that is passable before the item expiration is passable after it. -/
theorem exitOk_expire (s : State) (y x : Int) (d : Dir) (h : exitOk s.map y x d = true) :
    exitOk (expireItems s).map y x d = true := by
  unfold exitOk at h ⊢
  simp only [decide_eq_true_eq] at h ⊢
  obtain ⟨h1, h2, h3, h4, h5⟩ := h
  refine ⟨h1, h2, h3, h4, ?_⟩
  rw [expireItems_map]
  split_ifs
  · exact Or.inl rfl
  · exact h5

theorem gateExit_eq (s : State) :
    (gateExit s).1 =
      (otherGate s (nextY s) (nextX s)).1 +
        dy (calculateExitDirection (expireItems s).map (otherGate s (nextY s) (nextX s)).1
          (otherGate s (nextY s) (nextX s)).2 s.dirIndex) ∧
    (gateExit s).2.1 =
      (otherGate s (nextY s) (nextX s)).2 +
        dx (calculateExitDirection (expireItems s).map (otherGate s (nextY s) (nextX s)).1
          (otherGate s (nextY s) (nextX s)).2 s.dirIndex) := by
  obtain ⟨-, -, -, e4, -, -, -, -, -, -, -, -, -, -, -, e16, e17⟩ := expireItems_rest s
  simp only [gateExit, gateEntered, teleportThroughGate, otherGate, e4, e16, e17, and_self]

theorem gateArmed_rest (s : State) :
    (gateArmed s).gameOverReason = s.gameOverReason ∧
    (gateArmed s).stageTurnCounter = s.stageTurnCounter ∧
    (gateArmed s).currentStage = s.currentStage ∧
    (gateArmed s).map = (expireItems s).map ∧ (gateArmed s).snake = s.snake := by
  obtain ⟨e1, -, -, -, -, e6, e7, -, -, -, -, -, -, e14, -⟩ := expireItems_rest s
  simp [gateArmed, gateExit, gateEntered, teleportThroughGate, e1, e6, e7, e14]

/-- C12: when the cell of the exit gate is marked Gate (5) and one of its four
neighbours is in bounds and Empty, Growth or Poison, `calculateExitDirection`
returns, for every entry direction, a direction whose neighbouring cell is in
bounds and passable; and a tick of `moveSnake` that enters the other gate outside
the cooldown then passes the post-teleport test: it returns with the head on that
neighbour, inside the grid, and with no reason other than the turn limit set. -/
theorem gate_exit_is_found (s : State) (rnd : List (Nat × Nat))
    (hb : inBounds (nextY s) (nextX s)) (hg : s.map (nextY s) (nextX s) = 5)
    (hc : ¬ s.gateCooldown > 0)
    (hexit : s.map (otherGate s (nextY s) (nextX s)).1 (otherGate s (nextY s) (nextX s)).2 = 5)
    (hn : ∃ d, exitOk s.map (otherGate s (nextY s) (nextX s)).1
      (otherGate s (nextY s) (nextX s)).2 d = true) :
    (∀ (m : Grid) (y x : Int) (e : Dir), m y x = 5 → (∃ d, exitOk m y x d = true) →
      exitOk m y x (calculateExitDirection m y x e) = true) ∧
    ∃ s', moveSnake s rnd = some s' ∧ ¬ gateExitBlocked s ∧
      inBounds s'.headY s'.headX ∧
      s'.headY = (gateExit s).1 ∧ s'.headX = (gateExit s).2.1 ∧
      s'.snake.head? = some ((gateExit s).1, (gateExit s).2.1) ∧
      s'.gameOverReason =
        (if s.stageTurnCounter + 1 > stageTurnLimitPerStage.getD s.currentStage 0 then 4
         else s.gameOverReason) := by
  constructor
  · intro m y x e h5 hne
    exact calculateExitDirection_exitOk m y x e (by rw [h5]; decide) hne
  have ht : target s = 5 := by
    rw [target_of_not_item s (by rw [hg]; decide) (by rw [hg]; decide)]; exact hg
  have hexit' : (expireItems s).map (otherGate s (nextY s) (nextX s)).1
      (otherGate s (nextY s) (nextX s)).2 ≠ 1 := by
    rw [expireItems_map_of_not_item s _ _ (by rw [hexit]; decide) (by rw [hexit]; decide), hexit]
    decide
  obtain ⟨d, hd⟩ := hn
  have hok := calculateExitDirection_exitOk (expireItems s).map _ _ s.dirIndex hexit'
    ⟨d, exitOk_expire s _ _ d hd⟩
  obtain ⟨g1, g2⟩ := gateExit_eq s
  unfold exitOk at hok
  simp only [decide_eq_true_eq] at hok
  rw [← g1, ← g2] at hok
  obtain ⟨k1, k2, k3, k4, k5⟩ := hok
  have hmap : (gateExit s).2.2.map = (expireItems s).map := (gateExit_rest s).2.1
  have hnb : ¬ gateExitBlocked s := by
    unfold gateExitBlocked
    rw [hmap]
    unfold IMMUNE_WALL
    omega
  refine ⟨_, moveSnake_of_gate s rnd hb ht hc hnb, hnb, ?_⟩
  obtain ⟨f1, f2, -, f4, -⟩ := finishMove_rest (gateArmed s) false (gateExit s).1 (gateExit s).2.1
  obtain ⟨a1, a2, a3, -, -⟩ := gateArmed_rest s
  refine ⟨?_, f1, f2, ?_, ?_⟩
  · rw [f1, f2]; exact ⟨k1, k2, k3, k4⟩
  · rw [finishMove_snake]; rfl
  · rw [f4, a1, a2, a3]

/-- Witness of C12: entering `gateA` heading Right, the snake leaves `gateB` on the
top border downwards and its head lands on `(1, 5)`. -/
theorem gate_exit_is_found_witness :
    ∃ s', moveSnake gateDemoState [] = some s' ∧ s'.headY = 1 ∧ s'.headX = 5 ∧
      s'.gameOverReason = 0 := by
  obtain ⟨s', h1, -, -, h4, h5, -, h7⟩ :=
    (gate_exit_is_found gateDemoState [] (by decide) (by decide) (by decide) (by decide)
      ⟨DOWN, by decide⟩).2
  refine ⟨s', h1, ?_, ?_, ?_⟩
  · rw [h4]; decide
  · rw [h5]; decide
  · rw [h7]; decide

/-! ## Mission check (C13) -/

/-- C13: `checkMissionClear` returns true exactly when the snake length, the
collected growth items, the collected poison items and the gates used all reach
the thresholds of the current stage; a state that misses any one of the four does
not clear.  The call changes neither the snake, the grid, the counters, the
scores nor the stage (it only writes the display flags). -/
theorem checkMissionClear_iff (s : State) :
    ((checkMissionClear s).1 = true ↔
      ((s.snake.length : Int) ≥ mission_length_per_stage.getD s.currentStage 0 ∧
       s.collected_growth_items ≥ mission_growth_per_stage.getD s.currentStage 0 ∧
       s.collected_poison_items ≥ mission_poison_per_stage.getD s.currentStage 0 ∧
       s.gates_used_count ≥ mission_gate_per_stage.getD s.currentStage 0)) ∧
    (¬ (s.snake.length : Int) ≥ mission_length_per_stage.getD s.currentStage 0 ∨
     ¬ s.collected_growth_items ≥ mission_growth_per_stage.getD s.currentStage 0 ∨
     ¬ s.collected_poison_items ≥ mission_poison_per_stage.getD s.currentStage 0 ∨
     ¬ s.gates_used_count ≥ mission_gate_per_stage.getD s.currentStage 0 →
      (checkMissionClear s).1 = false) ∧
    (checkMissionClear s).2.snake = s.snake ∧ (checkMissionClear s).2.map = s.map ∧
    (checkMissionClear s).2.headY = s.headY ∧ (checkMissionClear s).2.headX = s.headX ∧
    (checkMissionClear s).2.collected_growth_items = s.collected_growth_items ∧
    (checkMissionClear s).2.collected_poison_items = s.collected_poison_items ∧
    (checkMissionClear s).2.gates_used_count = s.gates_used_count ∧
    (checkMissionClear s).2.stageTurnCounter = s.stageTurnCounter ∧
    (checkMissionClear s).2.total_score_growth = s.total_score_growth ∧
    (checkMissionClear s).2.total_score_poison = s.total_score_poison ∧
    (checkMissionClear s).2.total_score_gate = s.total_score_gate ∧
    (checkMissionClear s).2.currentStage = s.currentStage ∧
    (checkMissionClear s).2.gameOverReason = s.gameOverReason ∧
    (checkMissionClear s).2.itemFrame = s.itemFrame ∧
    (checkMissionClear s).2.gateA = s.gateA ∧ (checkMissionClear s).2.gateB = s.gateB := by
  have hiff : (checkMissionClear s).1 = true ↔
      ((s.snake.length : Int) ≥ mission_length_per_stage.getD s.currentStage 0 ∧
       s.collected_growth_items ≥ mission_growth_per_stage.getD s.currentStage 0 ∧
       s.collected_poison_items ≥ mission_poison_per_stage.getD s.currentStage 0 ∧
       s.gates_used_count ≥ mission_gate_per_stage.getD s.currentStage 0) := by
    simp only [checkMissionClear, Bool.and_eq_true, decide_eq_true_eq, and_assoc]
  refine ⟨hiff, ?_, rfl, rfl, rfl, rfl, rfl, rfl, rfl, rfl, rfl, rfl, rfl, rfl, rfl, rfl, rfl, rfl⟩
  intro h
  cases hv : (checkMissionClear s).1 with
  | false => rfl
  | true =>
    obtain ⟨a, b, c, d⟩ := hiff.mp hv
    rcases h with h | h | h | h
    · exact absurd a h
    · exact absurd b h
    · exact absurd c h
    · exact absurd d h

/-- Witness of C13: on stage 0 a snake of length 6 with 5 growth items, 2 poison
items and only 1 gate used (threshold 2) does not clear. -/
theorem checkMissionClear_iff_witness :
    (checkMissionClear
      { stateFacing 6 0 with
        collected_growth_items := 5, collected_poison_items := 2,
        gates_used_count := 1 }).1 = false :=
  (checkMissionClear_iff
    { stateFacing 6 0 with
      collected_growth_items := 5, collected_poison_items := 2,
      gates_used_count := 1 }).2.1 (Or.inr (Or.inr (Or.inr (by decide))))

/-! ## Final score (C16) -/

/-- C16, evaluated on a failing input: a session that ends with 3 segments after
one growth item (total 10) and one poison item (internal total -5).  The final
score is 315: the formula subtracts the negative poison total, so the poison item
raised the score by 5 instead of lowering it, whereas the score shown during play
by `drawScoreboard` adds the poison total.  In general every further poison item
raises `finalScore` by 5 and lowers `currentTotalScore` by 5. -/
theorem finalScore_poison_raises_score :
    finalScore { stateFacing 3 1 with total_score_growth := 10, total_score_poison := -5 } = 315 ∧
    finalScore { stateFacing 3 1 with total_score_growth := 10, total_score_poison := 0 } = 310 ∧
    currentTotalScore
      { stateFacing 3 1 with total_score_growth := 10, total_score_poison := -5 } = 5 ∧
    (∀ s : State,
      finalScore { s with total_score_poison := s.total_score_poison - 5 } = finalScore s + 5 ∧
      currentTotalScore { s with total_score_poison := s.total_score_poison - 5 } =
        currentTotalScore s - 5) := by
  refine ⟨by decide, by decide, by decide, fun s => ⟨?_, ?_⟩⟩
  · simp only [finalScore]; omega
  · simp only [currentTotalScore]; omega

/-! ## Shared item expiry (C17) -/

theorem NoItems.after_setCell {m : Grid} (h : NoItems m) (y x v : Int) (h4 : v ≠ 4) (h2 : v ≠ 2) :
    NoItems (setCell m y x v) := by
  intro i j hb
  unfold SnakeGame.setCell
  split_ifs
  · exact ⟨h4, h2⟩
  · exact h i j hb

theorem NoItems.after_removeTail {s : State} (h : NoItems s.map) : NoItems (removeTail s).map := by
  rcases List.eq_nil_or_concat s.snake with hnil | ⟨l, t, hl⟩
  · rw [removeTail_of_nil s hnil]; exact h
  · rw [List.concat_eq_append] at hl
    rw [removeTail_of_append s l t hl]
    exact h.after_setCell _ _ 0 (by decide) (by decide)

theorem NoItems.after_finishMove {s : State} (h : NoItems s.map) (ny nx : Int) :
    NoItems (finishMove s false ny nx).map := by
  rw [finishMove_map]
  simp only [if_true]
  exact (NoItems.after_removeTail h).after_setCell _ _ 3 (by decide) (by decide)

theorem expireItems_of_timer_one (s : State) (hf : s.itemFrame = 1) :
    (expireItems s).itemFrame = 0 ∧ NoItems (expireItems s).map := by
  constructor
  · unfold expireItems
    simp [hf]
  · intro y x hb
    rw [expireItems_map]
    by_cases hc : s.map y x = 4 ∨ s.map y x = 2
    · rw [if_pos ⟨hf, hb, hc⟩]; decide
    · rw [if_neg (fun h => hc h.2.2)]
      exact ⟨fun h => hc (Or.inl h), fun h => hc (Or.inr h)⟩

theorem gateExit_itemFrame (s : State) :
    (gateExit s).2.2.itemFrame = (expireItems s).itemFrame := by
  simp [gateExit, gateEntered, teleportThroughGate]

/-- C17: when the item timer is 1 at the start of `moveSnake`, the tick returns
with the timer at 0 and no cell of the grid holding Growth or Poison, whether it
terminates or not; an item directly ahead of the head is cleared before the
target cell is read, so the tick is a plain move onto that cell and the counters
and scores are unchanged.  For any other timer value the expiration block
changes no cell. -/
theorem moveSnake_item_expiry (s : State) (rnd : List (Nat × Nat)) (hf : s.itemFrame = 1) :
    (∃ s', moveSnake s rnd = some s' ∧ s'.itemFrame = 0 ∧ NoItems s'.map ∧
      (inBounds (nextY s) (nextX s) →
        (s.map (nextY s) (nextX s) = 4 ∨ s.map (nextY s) (nextX s) = 2) →
        target s = 0 ∧
        s' = finishMove (expireItems s) false (nextY s) (nextX s) ∧
        s'.snake = (nextY s, nextX s) :: s.snake.dropLast ∧
        s'.collected_growth_items = s.collected_growth_items ∧
        s'.collected_poison_items = s.collected_poison_items ∧
        s'.total_score_growth = s.total_score_growth ∧
        s'.total_score_poison = s.total_score_poison)) ∧
    (∀ t : State, t.itemFrame ≠ 1 → (expireItems t).map = t.map) := by
  refine ⟨?_, expireItems_map_of_timer⟩
  obtain ⟨hfr, hno⟩ := expireItems_of_timer_one s hf
  obtain ⟨e1, -, -, -, -, -, -, e8, e9, -, e11, e12, -⟩ := expireItems_rest s
  by_cases hb : inBounds (nextY s) (nextX s)
  swap
  · exact ⟨_, moveSnake_of_oob s rnd hb, hfr, hno, fun h => absurd h hb⟩
  have hitem : (s.map (nextY s) (nextX s) = 4 ∨ s.map (nextY s) (nextX s) = 2) →
      target s = 0 := by
    intro hc
    show (expireItems s).map (nextY s) (nextX s) = 0
    rw [expireItems_map, if_pos ⟨hf, hb, hc⟩]
  have hnot : ∀ {P : Prop}, (s.map (nextY s) (nextX s) = 4 ∨ s.map (nextY s) (nextX s) = 2) →
      target s ≠ 0 → P := by
    intro P hc hne
    exact absurd (hitem hc) hne
  rcases target_cases s with ht | ht | ht | ht | ht | ht | ⟨h1, h9, h3, h4, h2, h5⟩
  · exact ⟨_, moveSnake_of_blocked s rnd hb (Or.inl ht), hfr, hno,
      fun _ hc => hnot hc (by rw [ht]; decide)⟩
  · exact ⟨_, moveSnake_of_blocked s rnd hb (Or.inr (Or.inl ht)), hfr, hno,
      fun _ hc => hnot hc (by rw [ht]; decide)⟩
  · exact ⟨_, moveSnake_of_blocked s rnd hb (Or.inr (Or.inr ht)), hfr, hno,
      fun _ hc => hnot hc (by rw [ht]; decide)⟩
  · exact absurd ht (hno _ _ hb).1
  · exact absurd ht (hno _ _ hb).2
  · by_cases hc : s.gateCooldown > 0
    · exact ⟨_, moveSnake_of_gate_cooldown s rnd hb ht hc, hfr, hno,
        fun _ hc' => hnot hc' (by rw [ht]; decide)⟩
    · by_cases hx : gateExitBlocked s
      · refine ⟨_, moveSnake_of_gate_blocked s rnd hb ht hc hx, ?_, ?_,
          fun _ hc' => hnot hc' (by rw [ht]; decide)⟩
        · show (gateExit s).2.2.itemFrame = 0
          rw [gateExit_itemFrame]; exact hfr
        · show NoItems (gateExit s).2.2.map
          rw [(gateExit_rest s).2.1]; exact hno
      · refine ⟨_, moveSnake_of_gate s rnd hb ht hc hx, ?_, ?_,
          fun _ hc' => hnot hc' (by rw [ht]; decide)⟩
        · rw [(finishMove_rest _ _ _ _).2.2.2.2.2.2.2.2.2.2.2.2.2.2]
          show (gateExit s).2.2.itemFrame = 0
          rw [gateExit_itemFrame]; exact hfr
        · apply NoItems.after_finishMove
          show NoItems (gateExit s).2.2.map
          rw [(gateExit_rest s).2.1]; exact hno
  · refine ⟨_, moveSnake_of_plain s rnd hb h1 h9 h3 h4 h2 h5, ?_, NoItems.after_finishMove hno _ _, ?_⟩
    · rw [(finishMove_rest _ _ _ _).2.2.2.2.2.2.2.2.2.2.2.2.2.2]; exact hfr
    · intro _ hc
      obtain ⟨-, -, -, -, -, f6, f7, -, f9, f10, -⟩ :=
        finishMove_rest (expireItems s) false (nextY s) (nextX s)
      refine ⟨hitem hc, rfl, ?_, ?_, ?_, ?_, ?_⟩
      · rw [finishMove_snake, e1]; rfl
      · rw [f6, e8]
      · rw [f7, e9]
      · rw [f9, e11]
      · rw [f10, e12]

/-- Witness of C17: a 4-segment snake facing a growth item with the timer at 1
moves onto the cleared cell without eating. -/
theorem moveSnake_item_expiry_witness :
    ∃ s', moveSnake { stateFacing 4 4 with itemFrame := 1 } [] = some s' ∧
      s'.itemFrame = 0 ∧ s'.collected_growth_items = 0 ∧
      s'.snake = [(10, 11), (10, 10), (10, 9), (10, 8)] := by
  obtain ⟨s', h1, h2, -, h4⟩ :=
    (moveSnake_item_expiry { stateFacing 4 4 with itemFrame := 1 } [] rfl).1
  obtain ⟨-, -, k3, k4, -⟩ := h4 (by decide) (Or.inl (by decide))
  exact ⟨s', h1, h2, by rw [k4]; decide, by rw [k3]; decide⟩

/-! ## Postcondition of the item spawns (C18) -/

/-- The rejection loop returns exactly when some draw lands on an Empty cell. -/
theorem rejectionSample_isSome_iff (m : Grid) (rnd : List (Nat × Nat)) :
    (∃ p, rejectionSample m rnd = some p) ↔ hitsEmpty m rnd := by
  unfold hitsEmpty
  induction rnd with
  | nil => simp [rejectionSample]
  | cons r rest ih =>
    obtain ⟨r1, r2⟩ := r
    simp only [rejectionSample, List.mem_cons, exists_eq_or_imp]
    split
    · rename_i hne
      rw [ih]
      constructor
      · exact Or.inr
      · rintro (h | h)
        · exact absurd h hne
        · exact h
    · rename_i h0
      constructor
      · intro _
        exact Or.inl (by simpa using h0)
      · intro _
        exact ⟨_, rfl⟩

theorem hitsEmpty_of_cell (m : Grid) (y x : Int) (hb : inBounds y x) (h0 : m y x = 0) :
    hitsEmpty m [(y.toNat, x.toNat)] := by
  refine ⟨(y.toNat, x.toNat), List.mem_singleton_self _, ?_⟩
  have hy : ((y.toNat : Int)) % HEIGHT = y := by
    unfold inBounds HEIGHT at *; omega
  have hx : ((x.toNat : Int)) % WIDTH = x := by
    unfold inBounds WIDTH at *; omega
  simp only [hy, hx, h0]

theorem spawnGrowthItem_spawned (s s2 : State) (rnd : List (Nat × Nat))
    (hc : countCells s.map 4 < maxGrowthItems) (h : spawnGrowthItem s rnd = some s2) :
    ∃ y x, inBounds y x ∧ s.map y x = 0 ∧
      s2 = { s with map := setCell s.map y x 4, itemFrame := ITEM_LIFESPAN } := by
  unfold spawnGrowthItem at h
  rw [if_neg (by omega)] at h
  split at h
  · cases h
  · rename_i y x hr
    cases h
    exact ⟨y, x, (rejectionSample_spec _ _ _ hr).1, (rejectionSample_spec _ _ _ hr).2, rfl⟩

theorem spawnPoisonItem_spawned (s s2 : State) (rnd : List (Nat × Nat))
    (hc : countCells s.map 2 < maxPoisonItems) (h : spawnPoisonItem s rnd = some s2) :
    ∃ y x, inBounds y x ∧ s.map y x = 0 ∧
      s2 = { s with map := setCell s.map y x 2, itemFrame := ITEM_LIFESPAN } := by
  unfold spawnPoisonItem at h
  rw [if_neg (by omega)] at h
  split at h
  · cases h
  · rename_i y x hr
    cases h
    exact ⟨y, x, (rejectionSample_spec _ _ _ hr).1, (rejectionSample_spec _ _ _ hr).2, rfl⟩

theorem spawnGrowthItem_of_hits (s : State) (rnd : List (Nat × Nat))
    (h : hitsEmpty s.map rnd) : ∃ s2, spawnGrowthItem s rnd = some s2 := by
  unfold spawnGrowthItem
  split
  · exact ⟨_, rfl⟩
  · obtain ⟨p, hp⟩ := (rejectionSample_isSome_iff s.map rnd).mpr h
    rw [hp]
    exact ⟨_, rfl⟩

theorem spawnPoisonItem_of_hits (s : State) (rnd : List (Nat × Nat))
    (h : hitsEmpty s.map rnd) : ∃ s2, spawnPoisonItem s rnd = some s2 := by
  unfold spawnPoisonItem
  split
  · exact ⟨_, rfl⟩
  · obtain ⟨p, hp⟩ := (rejectionSample_isSome_iff s.map rnd).mpr h
    rw [hp]
    exact ⟨_, rfl⟩

theorem setCell_self (m : Grid) (y x v : Int) : setCell m y x v y x = v := by
  simp [setCell]

theorem setCell_of_ne (m : Grid) (y x v i j : Int) (h : (i, j) ≠ (y, x)) :
    setCell m y x v i j = m i j := by
  unfold setCell
  rw [if_neg]
  rintro ⟨rfl, rfl⟩
  exact h rfl

/-- C18: on a grid with at least one Empty cell, `spawnGrowthItem` changes nothing
when the grid already holds 3 or more Growth cells; otherwise every result has
exactly one cell, Empty before, turned into Growth, every other cell unchanged
and the item timer at `ITEM_LIFESPAN`, and the call returns as soon as a draw
lands on an Empty cell (such draws exist).  The same holds for `spawnPoisonItem`
with Poison.  No cell that is not Empty is overwritten. -/
theorem spawnItem_postcondition (s : State)
    (hE : ∃ y x, inBounds y x ∧ s.map y x = 0) :
    ((countCells s.map 4 ≥ maxGrowthItems → ∀ rnd, spawnGrowthItem s rnd = some s) ∧
     (countCells s.map 4 < maxGrowthItems →
      (∀ rnd s2, spawnGrowthItem s rnd = some s2 →
        ∃ y x, inBounds y x ∧ s.map y x = 0 ∧ s2.map y x = 4 ∧
          (∀ i j, (i, j) ≠ (y, x) → s2.map i j = s.map i j) ∧
          s2.itemFrame = ITEM_LIFESPAN)) ∧
     (∀ rnd, hitsEmpty s.map rnd → ∃ s2, spawnGrowthItem s rnd = some s2) ∧
     (∀ rnd s2, spawnGrowthItem s rnd = some s2 →
        ∀ i j, s.map i j ≠ 0 → s2.map i j = s.map i j)) ∧
    ((countCells s.map 2 ≥ maxPoisonItems → ∀ rnd, spawnPoisonItem s rnd = some s) ∧
     (countCells s.map 2 < maxPoisonItems →
      (∀ rnd s2, spawnPoisonItem s rnd = some s2 →
        ∃ y x, inBounds y x ∧ s.map y x = 0 ∧ s2.map y x = 2 ∧
          (∀ i j, (i, j) ≠ (y, x) → s2.map i j = s.map i j) ∧
          s2.itemFrame = ITEM_LIFESPAN)) ∧
     (∀ rnd, hitsEmpty s.map rnd → ∃ s2, spawnPoisonItem s rnd = some s2) ∧
     (∀ rnd s2, spawnPoisonItem s rnd = some s2 →
        ∀ i j, s.map i j ≠ 0 → s2.map i j = s.map i j)) ∧
    (∃ rnd, hitsEmpty s.map rnd) := by
  refine ⟨⟨?_, ?_, spawnGrowthItem_of_hits s, ?_⟩, ⟨?_, ?_, spawnPoisonItem_of_hits s, ?_⟩, ?_⟩
  · intro hc rnd
    unfold spawnGrowthItem
    rw [if_pos hc]
  · intro hc rnd s2 h
    obtain ⟨y, x, hb, h0, rfl⟩ := spawnGrowthItem_spawned s s2 rnd hc h
    exact ⟨y, x, hb, h0, setCell_self _ _ _ _, fun i j hne => setCell_of_ne _ _ _ _ _ _ hne, rfl⟩
  · intro rnd s2 h i j hne
    rcases spawnGrowthItem_map s s2 rnd h with hm | ⟨y, x, -, h0, hm⟩
    · rw [hm]
    · rw [hm]
      exact setCell_of_ne _ _ _ _ _ _ (fun hh => hne (by cases hh; exact h0))
  · intro hc rnd
    unfold spawnPoisonItem
    rw [if_pos hc]
  · intro hc rnd s2 h
    obtain ⟨y, x, hb, h0, rfl⟩ := spawnPoisonItem_spawned s s2 rnd hc h
    exact ⟨y, x, hb, h0, setCell_self _ _ _ _, fun i j hne => setCell_of_ne _ _ _ _ _ _ hne, rfl⟩
  · intro rnd s2 h i j hne
    rcases spawnPoisonItem_map s s2 rnd h with hm | ⟨y, x, -, h0, hm⟩
    · rw [hm]
    · rw [hm]
      exact setCell_of_ne _ _ _ _ _ _ (fun hh => hne (by cases hh; exact h0))
  · obtain ⟨y, x, hb, h0⟩ := hE
    exact ⟨_, hitsEmpty_of_cell s.map y x hb h0⟩

/-- Witness of C18: on the grid of `stateFacing 4 0` the draw `(3, 3)` lands on
an Empty cell, so the growth spawn returns, and it overwrites no occupied cell. -/
theorem spawnItem_postcondition_witness :
    ∃ s2, spawnGrowthItem (stateFacing 4 0) [(3, 3)] = some s2 ∧
      ∀ i j, (stateFacing 4 0).map i j ≠ 0 → s2.map i j = (stateFacing 4 0).map i j := by
  have h := spawnItem_postcondition (stateFacing 4 0) ⟨3, 3, by decide, by decide⟩
  obtain ⟨s2, hs2⟩ := h.1.2.2.1 [(3, 3)] ⟨(3, 3), List.mem_singleton_self _, by decide⟩
  exact ⟨s2, hs2, h.1.2.2.2 _ _ hs2⟩

/-! ## Spawning on a grid without Empty cell (C19) -/

theorem countCells_eq_zero (m : Grid) (k : Int) (h : countCells m k = 0) (y x : Int)
    (hb : inBounds y x) : m y x ≠ k := by
  intro hk
  unfold countCells at h
  have hmem : (y, x) ∈ allCells.filter fun p => m p.1 p.2 = k := by
    rw [List.mem_filter, mem_allCells]
    exact ⟨hb, by simpa using hk⟩
  rw [List.length_eq_zero] at h
  rw [h] at hmem
  exact absurd hmem (List.not_mem_nil _)

/-- On a grid without Empty cell the rejection loop is still running after any
number of draws. -/
theorem rejectionSample_of_full (m : Grid) (h : countCells m 0 = 0) (rnd : List (Nat × Nat)) :
    rejectionSample m rnd = none := by
  cases hr : rejectionSample m rnd with
  | none => rfl
  | some p =>
    obtain ⟨hb, h0⟩ := rejectionSample_spec m rnd p hr
    exact absurd h0 (countCells_eq_zero m 0 h _ _ hb)

set_option maxRecDepth 100000 in
/-- The grid laid out by `initStage` when every inner-wall test succeeds has no
Empty cell and no item. -/
theorem freshStage_all_walls_full :
    countCells (freshStage bootState 0 fun _ _ _ => true).map 0 = 0 ∧
    countCells (freshStage bootState 0 fun _ _ _ => true).map 4 = 0 ∧
    countCells (freshStage bootState 0 fun _ _ _ => true).map 2 = 0 := by
  decide

/-- C19, evaluated on a failing input: `initStage(0)` from the boot state when
every inner-wall test succeeds.  The grid then has no Empty cell and no Growth
cell, and `spawnGrowthItem` has not returned after any number of draws: the loop
`do ... while (map[y][x] != 0)` never exits, so `initStage` never returns.  The
same holds for `spawnPoisonItem` on that grid. -/
theorem spawn_on_full_grid_never_returns (rndG rndP : List (Nat × Nat))
    (shuffle : List Pos → List Pos) :
    countCells (freshStage bootState 0 fun _ _ _ => true).map 0 = 0 ∧
    countCells (freshStage bootState 0 fun _ _ _ => true).map 4 < maxGrowthItems ∧
    countCells (freshStage bootState 0 fun _ _ _ => true).map 2 < maxPoisonItems ∧
    spawnGrowthItem (freshStage bootState 0 fun _ _ _ => true) rndG = none ∧
    spawnPoisonItem (freshStage bootState 0 fun _ _ _ => true) rndP = none ∧
    initStage bootState 0 (fun _ _ _ => true) rndG rndP shuffle = none := by
  obtain ⟨h0, h4, h2⟩ := freshStage_all_walls_full
  have hG : spawnGrowthItem (freshStage bootState 0 fun _ _ _ => true) rndG = none := by
    unfold spawnGrowthItem
    rw [if_neg (by rw [h4]; decide), rejectionSample_of_full _ h0]
  have hP : spawnPoisonItem (freshStage bootState 0 fun _ _ _ => true) rndP = none := by
    unfold spawnPoisonItem
    rw [if_neg (by rw [h2]; decide), rejectionSample_of_full _ h0]
  refine ⟨h0, by rw [h4]; decide, by rw [h2]; decide, hG, hP, ?_⟩
  rw [initStage_eq, hG]
  rfl

/-! ## The flags `gameOver`, `gameWon` and the stage index along a tick -/

theorem expireItems_flags (s : State) :
    (expireItems s).gameOver = s.gameOver ∧ (expireItems s).gameWon = s.gameWon := by
  unfold expireItems
  by_cases h0 : s.itemFrame > 0 <;> by_cases h1 : s.itemFrame - 1 = 0 <;> simp [h0, h1]

theorem removeTail_flags (s : State) :
    (removeTail s).gameOver = s.gameOver ∧ (removeTail s).gameWon = s.gameWon := by
  unfold removeTail
  split <;> simp

theorem finishMove_flags (s : State) (grew : Bool) (ny nx : Int) :
    (finishMove s grew ny nx).gameOver = s.gameOver ∧
    (finishMove s grew ny nx).gameWon = s.gameWon := by
  unfold finishMove
  have hr := removeTail_flags s
  cases grew <;> simp only [Bool.false_eq_true, if_true, if_false] <;>
    split_ifs <;> simp_all

theorem spawnGrowthItem_flags (s s2 : State) (rnd : List (Nat × Nat))
    (h : spawnGrowthItem s rnd = some s2) :
    s2.gameOver = s.gameOver ∧ s2.gameWon = s.gameWon := by
  unfold spawnGrowthItem at h
  split at h
  · cases h; simp
  · split at h
    · cases h
    · cases h; simp

theorem spawnPoisonItem_flags (s s2 : State) (rnd : List (Nat × Nat))
    (h : spawnPoisonItem s rnd = some s2) :
    s2.gameOver = s.gameOver ∧ s2.gameWon = s.gameWon := by
  unfold spawnPoisonItem at h
  split at h
  · cases h; simp
  · split at h
    · cases h
    · cases h; simp

theorem gateExit_flags (s : State) :
    (gateExit s).2.2.gameOver = s.gameOver ∧ (gateExit s).2.2.gameWon = s.gameWon ∧
    (gateExit s).2.2.currentStage = s.currentStage := by
  obtain ⟨f1, f2⟩ := expireItems_flags s
  have f3 := (expireItems_rest s).2.2.2.2.2.2.1
  simp [gateExit, gateEntered, teleportThroughGate, f1, f2, f3]

/-- A tick of `moveSnake` changes neither `gameOver`, `gameWon` nor the stage. -/
theorem moveSnake_flags (s s' : State) (rnd : List (Nat × Nat))
    (h : moveSnake s rnd = some s') :
    s'.gameOver = s.gameOver ∧ s'.gameWon = s.gameWon ∧ s'.currentStage = s.currentStage := by
  obtain ⟨e1, e2⟩ := expireItems_flags s
  have e3 := (expireItems_rest s).2.2.2.2.2.2.1
  have hfin : ∀ (t : State) (g : Bool) (y x : Int),
      (finishMove t g y x).gameOver = t.gameOver ∧ (finishMove t g y x).gameWon = t.gameWon ∧
      (finishMove t g y x).currentStage = t.currentStage :=
    fun t g y x => ⟨(finishMove_flags t g y x).1, (finishMove_flags t g y x).2,
      (finishMove_rest t g y x).2.2.2.2.1⟩
  by_cases hb : inBounds (nextY s) (nextX s)
  swap
  · rw [moveSnake_of_oob s rnd hb] at h
    cases h; exact ⟨e1, e2, e3⟩
  rcases target_cases s with ht | ht | ht | ht | ht | ht | ⟨h1, h9, h3, h4, h2, h5⟩
  · rw [moveSnake_of_blocked s rnd hb (Or.inl ht)] at h
    cases h; exact ⟨e1, e2, e3⟩
  · rw [moveSnake_of_blocked s rnd hb (Or.inr (Or.inl ht))] at h
    cases h; exact ⟨e1, e2, e3⟩
  · rw [moveSnake_of_blocked s rnd hb (Or.inr (Or.inr ht))] at h
    cases h; exact ⟨e1, e2, e3⟩
  · rw [moveSnake_of_growth s rnd hb ht] at h
    obtain ⟨s2, hsp, rfl⟩ := Option.map_eq_some'.mp h
    obtain ⟨f1, f2⟩ := spawnGrowthItem_flags _ _ _ hsp
    have f3 := (spawnGrowthItem_rest _ _ _ hsp).2.2.2.2.2.1
    obtain ⟨k1, k2, k3⟩ := hfin s2 true (nextY s) (nextX s)
    rw [k1, k2, k3, f1, f2, f3]
    exact ⟨e1, e2, e3⟩
  · have hpe : (poisonEaten s).gameOver = s.gameOver ∧ (poisonEaten s).gameWon = s.gameWon ∧
        (poisonEaten s).currentStage = s.currentStage := by
      unfold poisonEaten
      rw [(removeTail_flags _).1, (removeTail_flags _).2, (removeTail_rest _).2.2.2.2.1]
      exact ⟨e1, e2, e3⟩
    by_cases hc : s.snake ≠ [] ∧ (poisonEaten s).snake.length < 3
    · rw [moveSnake_of_poison_short s rnd hb ht hc] at h
      cases h; exact hpe
    · rw [moveSnake_of_poison s rnd hb ht hc] at h
      obtain ⟨s4, hsp, rfl⟩ := Option.map_eq_some'.mp h
      obtain ⟨f1, f2⟩ := spawnPoisonItem_flags _ _ _ hsp
      have f3 := (spawnPoisonItem_rest _ _ _ hsp).2.2.2.2.2.1
      obtain ⟨k1, k2, k3⟩ := hfin s4 false (nextY s) (nextX s)
      rw [k1, k2, k3, f1, f2, f3]
      exact hpe
  · by_cases hc : s.gateCooldown > 0
    · rw [moveSnake_of_gate_cooldown s rnd hb ht hc] at h
      cases h; exact ⟨e1, e2, e3⟩
    · by_cases hx : gateExitBlocked s
      · rw [moveSnake_of_gate_blocked s rnd hb ht hc hx] at h
        cases h
        exact gateExit_flags s
      · rw [moveSnake_of_gate s rnd hb ht hc hx] at h
        cases h
        obtain ⟨k1, k2, k3⟩ := hfin (gateArmed s) false (gateExit s).1 (gateExit s).2.1
        rw [k1, k2, k3]
        exact gateExit_flags s
  · rw [moveSnake_of_plain s rnd hb h1 h9 h3 h4 h2 h5] at h
    cases h
    obtain ⟨k1, k2, k3⟩ := hfin (expireItems s) false (nextY s) (nextX s)
    rw [k1, k2, k3]
    exact ⟨e1, e2, e3⟩

theorem updateDirection_turn_flags (s : State) (newDir : Dir) (u : Bool) :
    let s1 : State := if u = true then { s with gameOverReason := 1 } else s
    let r : State :=
      if newDir ≠ s1.dirIndex ∧ u = false then
        { s1 with prevDirIndex := s1.dirIndex, dirIndex := newDir }
      else s1
    r.gameOver = s.gameOver ∧ r.gameWon = s.gameWon ∧ r.currentStage = s.currentStage := by
  cases u
  · by_cases h : newDir = s.dirIndex <;> simp [h]
  · simp

theorem updateDirection_flags (s : State) (ch : Int) :
    (updateDirection s ch).gameOver = s.gameOver ∧
    (updateDirection s ch).gameWon = s.gameWon ∧
    (updateDirection s ch).currentStage = s.currentStage := by
  unfold updateDirection
  by_cases h1 : s.paused = true ∧ ch = KEY_p
  · simp only [if_pos h1, and_self]
  · by_cases h2 : ch = KEY_p
    · simp only [if_neg h1, if_pos h2, and_self]
    · simp only [if_neg h1, if_neg h2]
      exact updateDirection_turn_flags s _ _

/-! ## Fields after `initStage` -/

theorem spawnGrowthItem_itemFrame (s s2 : State) (rnd : List (Nat × Nat))
    (h : spawnGrowthItem s rnd = some s2) :
    s2.itemFrame = s.itemFrame ∨ s2.itemFrame = ITEM_LIFESPAN := by
  unfold spawnGrowthItem at h
  split at h
  · cases h; exact Or.inl rfl
  · split at h
    · cases h
    · cases h; exact Or.inr rfl

theorem spawnPoisonItem_itemFrame (s s2 : State) (rnd : List (Nat × Nat))
    (h : spawnPoisonItem s rnd = some s2) :
    s2.itemFrame = s.itemFrame ∨ s2.itemFrame = ITEM_LIFESPAN := by
  unfold spawnPoisonItem at h
  split at h
  · cases h; exact Or.inl rfl
  · split at h
    · cases h
    · cases h; exact Or.inr rfl

theorem spawnGates_rest (s : State) (shuffle : List Pos → List Pos) :
    (spawnGates s shuffle).snake = s.snake ∧
    (spawnGates s shuffle).currentStage = s.currentStage ∧
    (spawnGates s shuffle).collected_growth_items = s.collected_growth_items ∧
    (spawnGates s shuffle).collected_poison_items = s.collected_poison_items ∧
    (spawnGates s shuffle).gates_used_count = s.gates_used_count ∧
    (spawnGates s shuffle).stageTurnCounter = s.stageTurnCounter ∧
    (spawnGates s shuffle).itemFrame = s.itemFrame ∧
    (spawnGates s shuffle).total_score_growth = s.total_score_growth ∧
    (spawnGates s shuffle).total_score_poison = s.total_score_poison ∧
    (spawnGates s shuffle).total_score_gate = s.total_score_gate ∧
    (spawnGates s shuffle).headY = s.headY ∧ (spawnGates s shuffle).headX = s.headX ∧
    (spawnGates s shuffle).dirIndex = s.dirIndex := by
  rw [spawnGates_eq]
  split_ifs <;> simp

/-- What `initStage` leaves behind whenever it returns: the fresh snake of three
segments at the centre heading Right, turn counter 0, item timer at
`ITEM_LIFESPAN`; the stage index, the mission counters and the scores are those
it was called with. -/
theorem initStage_fields (s s' : State) (stage : Nat) (wallDraw : Nat → Int → Int → Bool)
    (rndG rndP : List (Nat × Nat)) (shuffle : List Pos → List Pos)
    (h : initStage s stage wallDraw rndG rndP shuffle = some s') :
    s'.snake = centreCells ∧ s'.stageTurnCounter = 0 ∧ s'.itemFrame = ITEM_LIFESPAN ∧
    s'.currentStage = s.currentStage ∧
    s'.collected_growth_items = s.collected_growth_items ∧
    s'.collected_poison_items = s.collected_poison_items ∧
    s'.gates_used_count = s.gates_used_count ∧
    s'.total_score_growth = s.total_score_growth ∧
    s'.total_score_poison = s.total_score_poison ∧
    s'.total_score_gate = s.total_score_gate ∧
    s'.headY = HEIGHT / 2 ∧ s'.headX = WIDTH / 2 ∧ s'.dirIndex = RIGHT := by
  rw [initStage_eq] at h
  obtain ⟨s3, h3, h⟩ := Option.bind_eq_some.mp h
  obtain ⟨s4, h4, rfl⟩ := Option.map_eq_some'.mp h
  obtain ⟨f1, f2, f3, f4, -, f6, f7, f8, f9, f10, f11, f12, f13, -⟩ :=
    spawnGrowthItem_rest _ _ _ h3
  obtain ⟨g1, g2, g3, g4, -, g6, g7, g8, g9, g10, g11, g12, g13, -⟩ :=
    spawnPoisonItem_rest _ _ _ h4
  obtain ⟨k1, k2, k3, k4, k5, k6, k7, k8, k9, k10, k11, k12, k13⟩ := spawnGates_rest s4 shuffle
  have hfr : s4.itemFrame = ITEM_LIFESPAN := by
    rcases spawnPoisonItem_itemFrame _ _ _ h4 with hp | hp
    · rw [hp]
      rcases spawnGrowthItem_itemFrame _ _ _ h3 with hg | hg
      · rw [hg]; rfl
      · exact hg
    · exact hp
  refine ⟨?_, ?_, ?_, ?_, ?_, ?_, ?_, ?_, ?_, ?_, ?_, ?_, ?_⟩
  · rw [k1, g1, f1]; rfl
  · rw [k6, g13, f13]; rfl
  · rw [k7, hfr]
  · rw [k2, g6, f6]; rfl
  · rw [k3, g7, f7]; rfl
  · rw [k4, g8, f8]; rfl
  · rw [k5, g9, f9]; rfl
  · rw [k8, g10, f10]; rfl
  · rw [k9, g11, f11]; rfl
  · rw [k10, g12, f12]; rfl
  · rw [k11, g2, f2]; rfl
  · rw [k12, g3, f3]; rfl
  · rw [k13, g4, f4]; rfl

/-- The call of `initStage` returns when the growth draws land on an Empty cell of
the freshly laid grid and the poison draws land on two different Empty cells of
it (one of them is still Empty after the growth item has been placed). -/
theorem initStage_returns (s : State) (stage : Nat) (wallDraw : Nat → Int → Int → Bool)
    (rndG rndP : List (Nat × Nat)) (shuffle : List Pos → List Pos)
    (hG : hitsEmpty (freshStage s stage wallDraw).map rndG)
    (hP : ∃ r1 ∈ rndP, ∃ r2 ∈ rndP,
      (((r1.1 : Int) % HEIGHT, (r1.2 : Int) % WIDTH) ≠ ((r2.1 : Int) % HEIGHT, (r2.2 : Int) % WIDTH)) ∧
      (freshStage s stage wallDraw).map ((r1.1 : Int) % HEIGHT) ((r1.2 : Int) % WIDTH) = 0 ∧
      (freshStage s stage wallDraw).map ((r2.1 : Int) % HEIGHT) ((r2.2 : Int) % WIDTH) = 0) :
    ∃ s', initStage s stage wallDraw rndG rndP shuffle = some s' := by
  rw [initStage_eq]
  obtain ⟨s3, h3⟩ := spawnGrowthItem_of_hits _ rndG hG
  have hP3 : hitsEmpty s3.map rndP := by
    obtain ⟨r1, hr1, r2, hr2, hne, h1, h2⟩ := hP
    rcases spawnGrowthItem_map _ _ _ h3 with hm | ⟨y, x, -, -, hm⟩
    · exact ⟨r1, hr1, by rw [hm]; exact h1⟩
    · by_cases hc : ((r1.1 : Int) % HEIGHT, (r1.2 : Int) % WIDTH) = (y, x)
      · refine ⟨r2, hr2, ?_⟩
        rw [hm, setCell_of_ne _ _ _ _ _ _ (fun hh => hne (hc.trans hh.symm))]
        exact h2
      · refine ⟨r1, hr1, ?_⟩
        rw [hm, setCell_of_ne _ _ _ _ _ _ hc]
        exact h1
  obtain ⟨s4, h4⟩ := spawnPoisonItem_of_hits s3 rndP hP3
  exact ⟨spawnGates s4 shuffle, by rw [h3]; simp [h4]⟩

/-! ## The loop body after `moveSnake` -/

theorem stageCheck_of_terminated (DELAY : Int) (isPaused : Bool) (s1 : State)
    (wallDraw : Nat → Int → Int → Bool) (rndG rndP : List (Nat × Nat))
    (shuffle : List Pos → List Pos)
    (ht : s1.gameOverReason ≠ 0 ∨ s1.snake.length < 3) :
    stageCheck DELAY isPaused s1 wallDraw rndG rndP shuffle =
      some { g := { s1 with gameOver := true }, DELAY := DELAY, isPaused := isPaused } := by
  simp [stageCheck, if_pos ht]

theorem stageCheck_of_won (DELAY : Int) (isPaused : Bool) (s1 : State)
    (wallDraw : Nat → Int → Int → Bool) (rndG rndP : List (Nat × Nat))
    (shuffle : List Pos → List Pos)
    (ht : ¬ (s1.gameOverReason ≠ 0 ∨ s1.snake.length < 3)) (hgo : s1.gameOver = false)
    (hclear : (checkMissionClear s1).1 = true) (hstage : s1.currentStage + 1 ≥ STAGES) :
    stageCheck DELAY isPaused s1 wallDraw rndG rndP shuffle =
      some { g := { (checkMissionClear s1).2 with
                    currentStage := s1.currentStage + 1, gameOver := true, gameWon := true },
             DELAY := DELAY, isPaused := isPaused } := by
  have hst : (checkMissionClear s1).2.currentStage + 1 ≥ STAGES := hstage
  simp only [stageCheck, if_neg ht, hgo, hclear, if_true, if_pos hst]
  rfl

theorem stageCheck_of_advance (DELAY : Int) (isPaused : Bool) (s1 : State)
    (wallDraw : Nat → Int → Int → Bool) (rndG rndP : List (Nat × Nat))
    (shuffle : List Pos → List Pos)
    (ht : ¬ (s1.gameOverReason ≠ 0 ∨ s1.snake.length < 3)) (hgo : s1.gameOver = false)
    (hclear : (checkMissionClear s1).1 = true) (hstage : ¬ s1.currentStage + 1 ≥ STAGES) :
    stageCheck DELAY isPaused s1 wallDraw rndG rndP shuffle =
      (initStage (nextStageInput s1) (s1.currentStage + 1) wallDraw rndG rndP shuffle).map
        fun s6 =>
          { g := s6, DELAY := delay_per_stage.getD s6.currentStage 0, isPaused := isPaused } := by
  have hst : ¬ (checkMissionClear s1).2.currentStage + 1 ≥ STAGES := hstage
  simp only [stageCheck, if_neg ht, hgo, hclear, if_true, if_neg hst]
  rfl

theorem gameStep_of_move (ls : LoopState) (ch : Int) (rnd : List (Nat × Nat)) (s1 : State)
    (wallDraw : Nat → Int → Int → Bool) (rndG rndP : List (Nat × Nat))
    (shuffle : List Pos → List Pos)
    (hq : ¬ (ch = KEY_q ∨ ch = KEY_Q))
    (hp : (if ch = KEY_p ∨ ch = KEY_P then !ls.isPaused else ls.isPaused) = false)
    (hmove : moveSnake (updateDirection ls.g ch) rnd = some s1) :
    gameStep ls ch rnd wallDraw rndG rndP shuffle =
      stageCheck ls.DELAY false s1 wallDraw rndG rndP shuffle := by
  simp only [gameStep, if_neg hq, hp, hmove, Option.some_bind, Bool.false_eq_true, if_false]

/-! ## Stage transition (C14) -/

/-- C14: on a stage that is not the last one, when the tick of a loop iteration
(not paused, no quit key) returns from `moveSnake` without a terminal reason, with
at least 3 segments and the mission of the stage satisfied, every result of the
iteration has the stage index incremented, growth, poison, gate and turn
counters 0, the fresh snake of length 3, the item timer at `ITEM_LIFESPAN`, the
delay of the new stage, and the three score totals left by the tick; and the
iteration returns when the spawn draws of `initStage` land on Empty cells. -/
theorem gameStep_stage_transition (ls : LoopState) (ch : Int) (rnd : List (Nat × Nat))
    (s1 : State)
    (hq : ¬ (ch = KEY_q ∨ ch = KEY_Q))
    (hp : (if ch = KEY_p ∨ ch = KEY_P then !ls.isPaused else ls.isPaused) = false)
    (hgo : ls.g.gameOver = false)
    (hmove : moveSnake (updateDirection ls.g ch) rnd = some s1)
    (hr : s1.gameOverReason = 0) (hlen : 3 ≤ s1.snake.length)
    (hclear : (checkMissionClear s1).1 = true)
    (hstage : s1.currentStage + 1 < STAGES) :
    (∀ wallDraw rndG rndP shuffle ls',
      gameStep ls ch rnd wallDraw rndG rndP shuffle = some ls' →
        ls'.g.currentStage = s1.currentStage + 1 ∧
        ls'.g.collected_growth_items = 0 ∧ ls'.g.collected_poison_items = 0 ∧
        ls'.g.gates_used_count = 0 ∧ ls'.g.stageTurnCounter = 0 ∧
        ls'.g.snake = centreCells ∧ ls'.g.snake.length = 3 ∧
        ls'.g.itemFrame = ITEM_LIFESPAN ∧
        ls'.DELAY = delay_per_stage.getD (s1.currentStage + 1) 0 ∧
        ls'.g.total_score_growth = s1.total_score_growth ∧
        ls'.g.total_score_poison = s1.total_score_poison ∧
        ls'.g.total_score_gate = s1.total_score_gate) ∧
    (∀ wallDraw rndG rndP shuffle,
      hitsEmpty (freshStage (nextStageInput s1) (s1.currentStage + 1) wallDraw).map rndG →
      (∃ r1 ∈ rndP, ∃ r2 ∈ rndP,
        (((r1.1 : Int) % HEIGHT, (r1.2 : Int) % WIDTH) ≠
          ((r2.1 : Int) % HEIGHT, (r2.2 : Int) % WIDTH)) ∧
        (freshStage (nextStageInput s1) (s1.currentStage + 1) wallDraw).map
          ((r1.1 : Int) % HEIGHT) ((r1.2 : Int) % WIDTH) = 0 ∧
        (freshStage (nextStageInput s1) (s1.currentStage + 1) wallDraw).map
          ((r2.1 : Int) % HEIGHT) ((r2.2 : Int) % WIDTH) = 0) →
      ∃ ls', gameStep ls ch rnd wallDraw rndG rndP shuffle = some ls') := by
  have ht : ¬ (s1.gameOverReason ≠ 0 ∨ s1.snake.length < 3) := by
    rw [hr]; omega
  have hgo1 : s1.gameOver = false := by
    rw [(moveSnake_flags _ _ _ hmove).1, (updateDirection_flags _ _).1]; exact hgo
  have hst : ¬ s1.currentStage + 1 ≥ STAGES := by omega
  have hstep : ∀ wallDraw rndG rndP shuffle,
      gameStep ls ch rnd wallDraw rndG rndP shuffle =
        (initStage (nextStageInput s1) (s1.currentStage + 1) wallDraw rndG rndP shuffle).map
          fun s6 =>
            { g := s6, DELAY := delay_per_stage.getD s6.currentStage 0, isPaused := false } :=
    fun wallDraw rndG rndP shuffle =>
      (gameStep_of_move ls ch rnd s1 wallDraw rndG rndP shuffle hq hp hmove).trans
        (stageCheck_of_advance _ _ s1 wallDraw rndG rndP shuffle ht hgo1 hclear hst)
  constructor
  · intro wallDraw rndG rndP shuffle ls' h
    rw [hstep] at h
    obtain ⟨s6, h6, rfl⟩ := Option.map_eq_some'.mp h
    obtain ⟨k1, k2, k3, k4, k5, k6, k7, k8, k9, k10, -⟩ := initStage_fields _ _ _ _ _ _ _ h6
    have hcs : (nextStageInput s1).currentStage = s1.currentStage + 1 := rfl
    refine ⟨?_, ?_, ?_, ?_, k2, k1, ?_, k3, ?_, ?_, ?_, ?_⟩
    · rw [k4, hcs]
    · rw [k5]; rfl
    · rw [k6]; rfl
    · rw [k7]; rfl
    · rw [k1]; rfl
    · show delay_per_stage.getD s6.currentStage 0 = _
      rw [k4, hcs]
    · rw [k8]; rfl
    · rw [k9]; rfl
    · rw [k10]; rfl
  · intro wallDraw rndG rndP shuffle hG hP
    rw [hstep]
    obtain ⟨s6, h6⟩ := initStage_returns _ _ wallDraw rndG rndP shuffle hG hP
    rw [h6]
    exact ⟨_, rfl⟩

/-- Witness of C14: the snake of `missionDoneState` makes a plain move on stage 0
with the mission satisfied; the iteration lays out stage 1. -/
theorem gameStep_stage_transition_witness :
    ∃ ls', gameStep { g := missionDoneState, DELAY := 220000, isPaused := false } (-1) []
        (fun _ _ _ => false) [(3, 3)] [(5, 5), (6, 6)] id = some ls' ∧
      ls'.g.currentStage = 1 ∧ ls'.DELAY = 180000 ∧ ls'.g.snake.length = 3 ∧
      ls'.g.collected_growth_items = 0 := by
  have hmove := moveSnake_of_plain (updateDirection missionDoneState (-1)) []
    (by decide) (by decide) (by decide) (by decide) (by decide) (by decide) (by decide)
  have h := gameStep_stage_transition
    { g := missionDoneState, DELAY := 220000, isPaused := false } (-1) [] _
    (by decide) (by decide) (by decide) hmove (by decide) (by decide) (by decide) (by decide)
  obtain ⟨ls', hls⟩ := h.2 (fun _ _ _ => false) [(3, 3)] [(5, 5), (6, 6)] id
    ⟨(3, 3), List.mem_singleton_self _, by decide⟩
    ⟨(5, 5), by simp, (6, 6), by simp, by decide, by decide, by decide⟩
  obtain ⟨k1, k2, -, -, -, -, k7, -, k9, -⟩ := h.1 _ _ _ _ _ hls
  exact ⟨ls', hls, by rw [k1]; decide, by rw [k9]; decide, k7, k2⟩

/-! ## Clearing the last stage (C15) -/

set_option maxRecDepth 100000 in
/-- Counterexample to C15 as stated: on the last stage (index 3) the snake of
`lastStageGateState` enters a gate; the gate use completes the mission, so after
the movement all four thresholds are met, but the exit is lethal (reason 2) and
the iteration ends with `gameOver` set, `gameWon` false and reason 2. -/
theorem gameStep_lethal_exit_not_won :
    lastStageGateState.currentStage + 1 = STAGES ∧
    ((moveSnake (updateDirection lastStageGateState (-1)) []).map fun s1 =>
      ((checkMissionClear s1).1, s1.gates_used_count, s1.gameOverReason)) =
        some (true, 5, 2) ∧
    ((gameStep { g := lastStageGateState, DELAY := 60000, isPaused := false } (-1) []
        (fun _ _ _ => false) [] [] id).map fun ls' =>
      (ls'.g.gameWon, ls'.g.gameOver, ls'.g.gameOverReason)) = some (false, true, 2) := by
  decide

/-- C15 as amended: on the last stage, when the tick of a loop iteration (not
paused, no quit key) returns from `moveSnake` with all four mission thresholds
met, the iteration ends the session; it ends in the Won state (`gameWon` true,
reason 0, stage index `STAGES`) when the tick did not terminate (reason 0 and at
least 3 segments), and otherwise in the terminated state of the tick with
`gameWon` still false. -/
theorem gameStep_last_stage (ls : LoopState) (ch : Int) (rnd : List (Nat × Nat)) (s1 : State)
    (wallDraw : Nat → Int → Int → Bool) (rndG rndP : List (Nat × Nat))
    (shuffle : List Pos → List Pos)
    (hq : ¬ (ch = KEY_q ∨ ch = KEY_Q))
    (hp : (if ch = KEY_p ∨ ch = KEY_P then !ls.isPaused else ls.isPaused) = false)
    (hgo : ls.g.gameOver = false) (hgw : ls.g.gameWon = false)
    (hmove : moveSnake (updateDirection ls.g ch) rnd = some s1)
    (hclear : (checkMissionClear s1).1 = true)
    (hstage : s1.currentStage + 1 = STAGES) :
    ∃ ls', gameStep ls ch rnd wallDraw rndG rndP shuffle = some ls' ∧
      ls'.g.gameOver = true ∧
      (s1.gameOverReason = 0 ∧ 3 ≤ s1.snake.length →
        ls'.g.gameWon = true ∧ ls'.g.gameOverReason = 0 ∧ ls'.g.currentStage = STAGES) ∧
      (s1.gameOverReason ≠ 0 ∨ s1.snake.length < 3 →
        ls'.g.gameWon = false ∧ ls'.g.gameOverReason = s1.gameOverReason ∧
        ls'.g.currentStage = s1.currentStage) := by
  obtain ⟨f1, f2, -⟩ := moveSnake_flags _ _ _ hmove
  obtain ⟨u1, u2, -⟩ := updateDirection_flags ls.g ch
  have hgo1 : s1.gameOver = false := by rw [f1, u1]; exact hgo
  have hgw1 : s1.gameWon = false := by rw [f2, u2]; exact hgw
  rw [gameStep_of_move ls ch rnd s1 wallDraw rndG rndP shuffle hq hp hmove]
  by_cases ht : s1.gameOverReason ≠ 0 ∨ s1.snake.length < 3
  · rw [stageCheck_of_terminated _ _ s1 wallDraw rndG rndP shuffle ht]
    refine ⟨_, rfl, rfl, ?_, fun _ => ⟨hgw1, rfl, rfl⟩⟩
    rintro ⟨h0, h3⟩
    rcases ht with h | h
    · exact absurd h0 h
    · omega
  · rw [stageCheck_of_won _ _ s1 wallDraw rndG rndP shuffle ht hgo1 hclear (by omega)]
    refine ⟨_, rfl, rfl, fun h => ⟨rfl, ?_, hstage⟩, fun h => absurd h ht⟩
    exact h.1

/-- Witness of C15 as amended: the lethal gate exit of `lastStageGateState` ends
the session terminated with reason 2 and `gameWon` false. -/
theorem gameStep_last_stage_witness :
    ∃ ls', gameStep { g := lastStageGateState, DELAY := 60000, isPaused := false } (-1) []
        (fun _ _ _ => false) [] [] id = some ls' ∧
      ls'.g.gameOver = true ∧ ls'.g.gameWon = false := by
  have hmove : moveSnake (updateDirection lastStageGateState (-1)) [] =
      some (gateCrashed (updateDirection lastStageGateState (-1))) :=
    moveSnake_of_gate_blocked _ _ (by decide) (by decide) (by decide) (by decide)
  obtain ⟨ls', h1, h2, -, h4⟩ := gameStep_last_stage
    { g := lastStageGateState, DELAY := 60000, isPaused := false } (-1) [] _
    (fun _ _ _ => false) [] [] id (by decide) (by decide) (by decide) (by decide) hmove
    (by decide) (by decide)
  exact ⟨ls', h1, h2, (h4 (Or.inl (by decide))).1⟩

/-! ## Postcondition of `spawnGates` (C20) -/

theorem wallCandidates_nodup (m : Grid) : (wallCandidates m).Nodup :=
  allCells_nodup.filter _

theorem mem_wallCandidates_iff {m : Grid} {p : Pos} :
    p ∈ wallCandidates m ↔
      inBounds p.1 p.2 ∧ m p.1 p.2 = 1 ∧ hasValidExitSpace m p.1 p.2 = true := by
  unfold wallCandidates
  rw [List.mem_filter, mem_allCells]
  simp only [Bool.and_eq_true, decide_eq_true_eq]

theorem mem_allDirs (d : Dir) : d ∈ ([0, 1, 2, 3] : List Dir) := by
  revert d; decide

theorem hasValidExitSpace_iff (m : Grid) (y x : Int) :
    hasValidExitSpace m y x = true ↔
      ∃ d : Dir, inBounds (y + dy d) (x + dx d) ∧ m (y + dy d) (x + dx d) = 0 := by
  unfold hasValidExitSpace inBounds
  simp only [List.any_eq_true, decide_eq_true_eq]
  constructor
  · rintro ⟨d, -, h1, h2, h3, h4, h5⟩
    exact ⟨d, ⟨h1, h2, h3, h4⟩, h5⟩
  · rintro ⟨d, ⟨h1, h2, h3, h4⟩, h5⟩
    exact ⟨d, mem_allDirs d, h1, h2, h3, h4, h5⟩

/-- The grid after the reverting of the old pair: the in-grid cells of the pair
hold Wall, every other cell is unchanged. -/
theorem revertGates_spec (s : State) :
    (∀ y x, inBounds y x → ((y, x) = s.gateA ∨ (y, x) = s.gateB) → revertGates s y x = 1) ∧
    (∀ y x, (y, x) ≠ s.gateA → (y, x) ≠ s.gateB → revertGates s y x = s.map y x) := by
  constructor
  · intro y x hb h
    have hy : y ≠ -1 := by unfold inBounds at hb; omega
    unfold revertGates
    rcases h with h | h
    · have hAeq : y = s.gateA.1 ∧ x = s.gateA.2 := ⟨congrArg Prod.fst h, congrArg Prod.snd h⟩
      have hA : s.gateA.1 ≠ -1 := by rw [← hAeq.1]; exact hy
      simp only [if_pos hA]
      by_cases hB : s.gateB.1 ≠ -1
      · simp only [if_pos hB, setCell, if_pos hAeq]
        split_ifs <;> rfl
      · simp only [if_neg hB, setCell, if_pos hAeq]
    · have hBeq : y = s.gateB.1 ∧ x = s.gateB.2 := ⟨congrArg Prod.fst h, congrArg Prod.snd h⟩
      have hB : s.gateB.1 ≠ -1 := by rw [← hBeq.1]; exact hy
      simp only [if_pos hB, setCell, if_pos hBeq]
  · intro y x hA hB
    have hA' : ¬ (y = s.gateA.1 ∧ x = s.gateA.2) := fun h => hA (Prod.ext h.1 h.2)
    have hB' : ¬ (y = s.gateB.1 ∧ x = s.gateB.2) := fun h => hB (Prod.ext h.1 h.2)
    unfold revertGates
    split_ifs <;> simp [setCell, hA', hB']

theorem countCells_eq_of_cells (m : Grid) (k : Int) (l : List Pos) (hl : l.Nodup)
    (h : ∀ p : Pos, (inBounds p.1 p.2 ∧ m p.1 p.2 = k) ↔ p ∈ l) :
    countCells m k = l.length := by
  unfold countCells
  apply List.Perm.length_eq
  rw [List.perm_ext_iff_of_nodup (allCells_nodup.filter _) hl]
  intro p
  rw [List.mem_filter, mem_allCells, ← h p]
  simp

/-- The function `initStage` is the call of `spawnGates` on `spawnGatesInput`. -/
theorem initStage_eq_spawnGates (s : State) (stage : Nat) (wallDraw : Nat → Int → Int → Bool)
    (rndG rndP : List (Nat × Nat)) (shuffle : List Pos → List Pos) :
    initStage s stage wallDraw rndG rndP shuffle =
      (spawnGatesInput s stage wallDraw rndG rndP).map fun s4 => spawnGates s4 shuffle := by
  rw [initStage_eq]
  unfold spawnGatesInput
  cases spawnGrowthItem (freshStage s stage wallDraw) rndG <;> rfl

/-- Counterexample to C20 as stated, on a call the program makes.  With the
identity shuffle the session start records the pair `(0, 1)`, `(0, 2)`.  When the
stage advances, `initStage(1)` rebuilds the grid and calls `spawnGates` with that
pair still recorded (no tick changes the recorded pair): at the call no cell is
Gate and both cells hold Wall.  The reverted cells are candidates themselves and
the identity shuffle picks them again, so after the call the cells of the
previous pair hold Gate, not Wall. -/
theorem spawnGates_rechooses_recorded_pair :
    ((playGameStart bootState (fun _ _ _ => false) [(3, 3)] [(5, 5)] id).map fun s =>
      (s.gateA, s.gateB)) = some ((0, 1), (0, 2)) ∧
    (secondStageCall.map fun s4 =>
      (s4.gateA, s4.gateB, s4.map 0 1, s4.map 0 2, countCells s4.map 5)) =
        some ((0, 1), (0, 2), 1, 1, 0) ∧
    (secondStageCall.map fun s4 =>
      ((spawnGates s4 id).gateA, (spawnGates s4 id).gateB, (spawnGates s4 id).map 0 1,
        (spawnGates s4 id).map 0 2)) = some ((0, 1), (0, 2), 5, 5) ∧
    (((playGameStart bootState (fun _ _ _ => false) [(3, 3)] [(5, 5)] id).bind fun s =>
      advanceStage s (fun _ _ _ => false) [(3, 3)] [(5, 5)] id).map fun s =>
        (s.currentStage, s.gateA, s.gateB, s.map 0 1, s.map 0 2)) =
      some (1, (0, 1), (0, 2), 5, 5) := by
  refine ⟨?_, ?_, ?_, ?_⟩
  · decide!
  · decide!
  · decide!
  · decide!

/-- C20 as amended: when every Gate cell of the grid is a cell of the recorded
pair (the Gate cells are exactly the recorded pair, or no cell is Gate whatever
pair is still recorded, as at every call `initStage` makes), `spawnGates` first
reverts the in-grid cells of the recorded pair to Wall and changes no other cell;
then either fewer than two candidates exist on the reverted grid, the recorded
pair is empty, the grid is the reverted grid and no cell is Gate; or the new
`gateA` and `gateB` are two distinct cells of the grid, each a Wall cell of the
reverted grid (an ordinary wall or a cell of the previous pair, never ImmuneWall)
with an adjacent in-bounds Empty cell, the Gate cells are exactly these two, no
other cell of the reverted grid changed, and the gate lifetime counter is 0.  The
number of Gate cells is zero or two. -/
theorem spawnGates_postcondition (s : State) (shuffle : List Pos → List Pos)
    (hperm : ∀ l, (shuffle l).Perm l)
    (hG : ∀ y x, inBounds y x → s.map y x = 5 → ((y, x) = s.gateA ∨ (y, x) = s.gateB)) :
    (∀ y x, inBounds y x → ((y, x) = s.gateA ∨ (y, x) = s.gateB) → revertGates s y x = 1) ∧
    (∀ y x, (y, x) ≠ s.gateA → (y, x) ≠ s.gateB → revertGates s y x = s.map y x) ∧
    ((wallCandidates (revertGates s)).length < 2 →
      (spawnGates s shuffle).gateA = (-1, -1) ∧ (spawnGates s shuffle).gateB = (-1, -1) ∧
      (spawnGates s shuffle).map = revertGates s ∧
      countCells (spawnGates s shuffle).map 5 = 0) ∧
    (2 ≤ (wallCandidates (revertGates s)).length →
      (spawnGates s shuffle).gateA ≠ (spawnGates s shuffle).gateB ∧
      inBounds (spawnGates s shuffle).gateA.1 (spawnGates s shuffle).gateA.2 ∧
      inBounds (spawnGates s shuffle).gateB.1 (spawnGates s shuffle).gateB.2 ∧
      revertGates s (spawnGates s shuffle).gateA.1 (spawnGates s shuffle).gateA.2 = 1 ∧
      revertGates s (spawnGates s shuffle).gateB.1 (spawnGates s shuffle).gateB.2 = 1 ∧
      (∃ d : Dir,
        inBounds ((spawnGates s shuffle).gateA.1 + dy d) ((spawnGates s shuffle).gateA.2 + dx d) ∧
        revertGates s ((spawnGates s shuffle).gateA.1 + dy d)
          ((spawnGates s shuffle).gateA.2 + dx d) = 0) ∧
      (∃ d : Dir,
        inBounds ((spawnGates s shuffle).gateB.1 + dy d) ((spawnGates s shuffle).gateB.2 + dx d) ∧
        revertGates s ((spawnGates s shuffle).gateB.1 + dy d)
          ((spawnGates s shuffle).gateB.2 + dx d) = 0) ∧
      (∀ y x, inBounds y x →
        ((spawnGates s shuffle).map y x = 5 ↔
          ((y, x) = (spawnGates s shuffle).gateA ∨ (y, x) = (spawnGates s shuffle).gateB))) ∧
      (∀ y x, (y, x) ≠ (spawnGates s shuffle).gateA → (y, x) ≠ (spawnGates s shuffle).gateB →
        (spawnGates s shuffle).map y x = revertGates s y x) ∧
      (spawnGates s shuffle).gateLifetimeCounter = 0 ∧
      countCells (spawnGates s shuffle).map 5 = 2) := by
  obtain ⟨hrev, hkeep⟩ := revertGates_spec s
  have hno5 : ∀ y x, inBounds y x → revertGates s y x ≠ 5 := by
    intro y x hb
    by_cases h : (y, x) = s.gateA ∨ (y, x) = s.gateB
    · rw [hrev y x hb h]; decide
    · rw [hkeep y x (fun hh => h (Or.inl hh)) (fun hh => h (Or.inr hh))]
      exact fun h5 => h (hG y x hb h5)
  refine ⟨hrev, hkeep, ?_, ?_⟩
  · intro hlen
    rw [spawnGates_eq, if_pos hlen]
    refine ⟨rfl, rfl, rfl, ?_⟩
    rw [countCells_eq_of_cells _ 5 [] List.nodup_nil]
    · rfl
    · intro p
      simp only [List.not_mem_nil, iff_false, not_and]
      exact fun hb => hno5 p.1 p.2 hb
  · intro hlen
    have hlen' : ¬ (wallCandidates (revertGates s)).length < 2 := by omega
    have hl : (shuffle (wallCandidates (revertGates s))).length =
        (wallCandidates (revertGates s)).length := (hperm _).length_eq
    have hnd : (shuffle (wallCandidates (revertGates s))).Nodup :=
      (hperm _).nodup_iff.mpr (wallCandidates_nodup _)
    have h0 : 0 < (shuffle (wallCandidates (revertGates s))).length := by omega
    have h1 : 1 < (shuffle (wallCandidates (revertGates s))).length := by omega
    have ea : (shuffle (wallCandidates (revertGates s))).getD 0 (-1, -1) =
        (shuffle (wallCandidates (revertGates s)))[0] := List.getD_eq_getElem _ _ h0
    have eb : (shuffle (wallCandidates (revertGates s))).getD 1 (-1, -1) =
        (shuffle (wallCandidates (revertGates s)))[1] := List.getD_eq_getElem _ _ h1
    have hab : (shuffle (wallCandidates (revertGates s))).getD 0 (-1, -1) ≠
        (shuffle (wallCandidates (revertGates s))).getD 1 (-1, -1) := by
      rw [ea, eb]
      intro h
      have := (hnd.getElem_inj_iff).mp h
      omega
    have ha : (shuffle (wallCandidates (revertGates s))).getD 0 (-1, -1) ∈
        wallCandidates (revertGates s) := by
      rw [ea]; exact (hperm _).subset (List.getElem_mem _)
    have hb : (shuffle (wallCandidates (revertGates s))).getD 1 (-1, -1) ∈
        wallCandidates (revertGates s) := by
      rw [eb]; exact (hperm _).subset (List.getElem_mem _)
    rw [spawnGates_eq, if_neg hlen']
    generalize (shuffle (wallCandidates (revertGates s))).getD 0 (-1, -1) = a at hab ha
    generalize (shuffle (wallCandidates (revertGates s))).getD 1 (-1, -1) = b at hab hb
    obtain ⟨hab1, hab2, hab3⟩ := mem_wallCandidates_iff.mp ha
    obtain ⟨hbb1, hbb2, hbb3⟩ := mem_wallCandidates_iff.mp hb
    have hcells : ∀ y x, inBounds y x →
        (setCell (setCell (revertGates s) a.1 a.2 5) b.1 b.2 5 y x = 5 ↔
          ((y, x) = a ∨ (y, x) = b)) := by
      intro y x hyx
      unfold setCell
      by_cases h2 : y = b.1 ∧ x = b.2
      · rw [if_pos h2]
        exact ⟨fun _ => Or.inr (Prod.ext h2.1 h2.2), fun _ => rfl⟩
      · rw [if_neg h2]
        by_cases h3 : y = a.1 ∧ x = a.2
        · rw [if_pos h3]
          exact ⟨fun _ => Or.inl (Prod.ext h3.1 h3.2), fun _ => rfl⟩
        · rw [if_neg h3]
          constructor
          · intro h5; exact absurd h5 (hno5 y x hyx)
          · rintro (h | h)
            · exact absurd ⟨congrArg Prod.fst h, congrArg Prod.snd h⟩ h3
            · exact absurd ⟨congrArg Prod.fst h, congrArg Prod.snd h⟩ h2
    refine ⟨hab, hab1, hbb1, hab2, hbb2, (hasValidExitSpace_iff _ _ _).mp hab3,
      (hasValidExitSpace_iff _ _ _).mp hbb3, hcells, ?_, rfl, ?_⟩
    · intro y x hna hnb
      show setCell (setCell (revertGates s) a.1 a.2 5) b.1 b.2 5 y x = _
      rw [setCell_of_ne _ _ _ _ _ _ hnb, setCell_of_ne _ _ _ _ _ _ hna]
    · show countCells (setCell (setCell (revertGates s) a.1 a.2 5) b.1 b.2 5) 5 = 2
      rw [countCells_eq_of_cells _ 5 [a, b] (by simp [hab])]
      · rfl
      · intro p
        simp only [List.mem_cons, List.mem_singleton, List.not_mem_nil, or_false]
        constructor
        · rintro ⟨hp, h5⟩
          exact (hcells p.1 p.2 hp).mp h5
        · rintro (h | h)
          · subst h; exact ⟨hab1, (hcells _ _ hab1).mpr (Or.inl rfl)⟩
          · subst h; exact ⟨hbb1, (hcells _ _ hbb1).mpr (Or.inr rfl)⟩

/-- Witness of C20 as amended: the call of `spawnGates` made by `initStage(1)`.
No cell is Gate at the call while the pair of stage 0 is still recorded; the call
leaves exactly two Gate cells, the two distinct recorded gates. -/
theorem spawnGates_postcondition_witness :
    ∃ s4, secondStageCall = some s4 ∧ countCells s4.map 5 = 0 ∧
      s4.gateA = (0, 1) ∧ s4.gateB = (0, 2) ∧
      (spawnGates s4 id).gateA ≠ (spawnGates s4 id).gateB ∧
      countCells (spawnGates s4 id).map 5 = 2 := by
  have hsome : secondStageCall.isSome = true := by decide!
  obtain ⟨s4, hs⟩ := Option.isSome_iff_exists.mp hsome
  have hfacts : (secondStageCall.map fun s4 =>
      (countCells s4.map 5, s4.gateA, s4.gateB,
        decide (2 ≤ (wallCandidates (revertGates s4)).length))) =
        some (0, (0, 1), (0, 2), true) := by decide!
  rw [hs] at hfacts
  simp only [Option.map_some', Option.some.injEq, Prod.mk.injEq, decide_eq_true_eq] at hfacts
  obtain ⟨h0, hA, hB, hlen⟩ := hfacts
  have hG : ∀ y x, inBounds y x → s4.map y x = 5 →
      ((y, x) = s4.gateA ∨ (y, x) = s4.gateB) :=
    fun y x hb h5 => absurd h5 (countCells_eq_zero s4.map 5 h0 y x hb)
  have h := (spawnGates_postcondition s4 id (fun l => List.Perm.refl l) hG).2.2.2 hlen
  exact ⟨s4, hs, h0, hA, hB, h.1, h.2.2.2.2.2.2.2.2.2.2⟩

/-! ## Effect of `updateDirection` (C25) -/

theorem arrowKey_ne_p (d : Dir) : arrowKey d ≠ KEY_p := by
  revert d; decide

/-- The value `newDir` computed by the `switch` of `updateDirection`. -/
theorem updateDirection_eq (s : State) (ch : Int) (hp : ch ≠ KEY_p) (newDir : Dir)
    (hnew : newDir =
      (if ch = KEY_UP then UP else if ch = KEY_DOWN then DOWN
       else if ch = KEY_LEFT then LEFT else if ch = KEY_RIGHT then RIGHT else s.dirIndex)) :
    (updateDirection s ch).dirIndex =
        (if newDir = opposite s.dirIndex then s.dirIndex else newDir) ∧
    (updateDirection s ch).gameOverReason =
        (if newDir = opposite s.dirIndex then 1 else s.gameOverReason) ∧
    (updateDirection s ch).prevDirIndex =
        (if newDir ≠ s.dirIndex ∧ newDir ≠ opposite s.dirIndex then s.dirIndex
         else s.prevDirIndex) := by
  have h1 : ¬ (s.paused = true ∧ ch = KEY_p) := fun h => hp h.2
  unfold updateDirection
  simp only [if_neg h1, if_neg hp, ← hnew]
  obtain ⟨go, gr, gw, cs, sn, hy, hx, di, pdi, mp, itf, gsp, glc, cg, cp, gu, tg, tp, tgt, mx, stc,
    pa, ga, gb, gc, m1, m2, m3, m4⟩ := s
  simp only
  fin_cases di <;> fin_cases newDir <;> simp [UP, DOWN, LEFT, RIGHT, opposite]

theorem newDir_of_arrowKey (d di : Dir) :
    (if arrowKey d = KEY_UP then UP else if arrowKey d = KEY_DOWN then DOWN
     else if arrowKey d = KEY_LEFT then LEFT else if arrowKey d = KEY_RIGHT then RIGHT
     else di) = d := by
  revert d di; decide

theorem opposite_ne_self (d : Dir) : opposite d ≠ d := by
  revert d; decide

/-- C25: for an arrow key whose direction `d` is neither the current direction nor
its opposite, `updateDirection` sets `dirIndex` to `d` and `prevDirIndex` to the
old direction and leaves `gameOverReason`; for the arrow opposite to the current
direction it leaves `dirIndex` and sets `gameOverReason` to 1; for the arrow of
the current direction, and for every key that is neither an arrow nor `p`, it
leaves direction and `gameOverReason`.  For no key does `dirIndex` become the
opposite of its previous value. -/
theorem updateDirection_effect (s : State) :
    (∀ d : Dir, d ≠ s.dirIndex → d ≠ opposite s.dirIndex →
      (updateDirection s (arrowKey d)).dirIndex = d ∧
      (updateDirection s (arrowKey d)).prevDirIndex = s.dirIndex ∧
      (updateDirection s (arrowKey d)).gameOverReason = s.gameOverReason) ∧
    ((updateDirection s (arrowKey (opposite s.dirIndex))).dirIndex = s.dirIndex ∧
     (updateDirection s (arrowKey (opposite s.dirIndex))).gameOverReason = 1) ∧
    ((updateDirection s (arrowKey s.dirIndex)).dirIndex = s.dirIndex ∧
     (updateDirection s (arrowKey s.dirIndex)).gameOverReason = s.gameOverReason) ∧
    (∀ ch : Int, ch ≠ KEY_p → (∀ d : Dir, ch ≠ arrowKey d) →
      (updateDirection s ch).dirIndex = s.dirIndex ∧
      (updateDirection s ch).gameOverReason = s.gameOverReason) ∧
    (∀ ch : Int, (updateDirection s ch).dirIndex ≠ opposite s.dirIndex) := by
  have harrow : ∀ d : Dir,
      (updateDirection s (arrowKey d)).dirIndex =
          (if d = opposite s.dirIndex then s.dirIndex else d) ∧
      (updateDirection s (arrowKey d)).gameOverReason =
          (if d = opposite s.dirIndex then 1 else s.gameOverReason) ∧
      (updateDirection s (arrowKey d)).prevDirIndex =
          (if d ≠ s.dirIndex ∧ d ≠ opposite s.dirIndex then s.dirIndex else s.prevDirIndex) :=
    fun d => updateDirection_eq s (arrowKey d) (arrowKey_ne_p d) d
      (newDir_of_arrowKey d s.dirIndex).symm
  refine ⟨?_, ?_, ?_, ?_, ?_⟩
  · intro d h1 h2
    obtain ⟨a, b, c⟩ := harrow d
    rw [a, b, c, if_neg h2, if_neg h2, if_pos ⟨h1, h2⟩]
    exact ⟨rfl, rfl, rfl⟩
  · obtain ⟨a, b, -⟩ := harrow (opposite s.dirIndex)
    rw [a, b, if_pos rfl, if_pos rfl]
    exact ⟨rfl, rfl⟩
  · obtain ⟨a, b, -⟩ := harrow s.dirIndex
    have hne : ¬ s.dirIndex = opposite s.dirIndex := fun h => opposite_ne_self _ h.symm
    rw [a, b, if_neg hne, if_neg hne]
    exact ⟨rfl, rfl⟩
  · intro ch hp hna
    have h0 : ch ≠ KEY_UP := hna 0
    have h1 : ch ≠ KEY_DOWN := hna 1
    have h2 : ch ≠ KEY_LEFT := hna 2
    have h3 : ch ≠ KEY_RIGHT := hna 3
    have hnew : s.dirIndex =
        (if ch = KEY_UP then UP else if ch = KEY_DOWN then DOWN
         else if ch = KEY_LEFT then LEFT else if ch = KEY_RIGHT then RIGHT else s.dirIndex) := by
      rw [if_neg h0, if_neg h1, if_neg h2, if_neg h3]
    obtain ⟨a, b, -⟩ := updateDirection_eq s ch hp s.dirIndex hnew
    have hne : ¬ s.dirIndex = opposite s.dirIndex := fun h => opposite_ne_self _ h.symm
    rw [a, b, if_neg hne, if_neg hne]
    exact ⟨rfl, rfl⟩
  · intro ch
    by_cases hp : ch = KEY_p
    · have hd : (updateDirection s ch).dirIndex = s.dirIndex := by
        unfold updateDirection
        split_ifs <;> rfl
      rw [hd]
      exact fun h => opposite_ne_self _ h.symm
    · obtain ⟨a, -, -⟩ := updateDirection_eq s ch hp _ rfl
      rw [a]
      generalize (if ch = KEY_UP then UP else if ch = KEY_DOWN then DOWN
        else if ch = KEY_LEFT then LEFT else if ch = KEY_RIGHT then RIGHT else s.dirIndex) = nd
      by_cases h : nd = opposite s.dirIndex
      · rw [if_pos h]
        exact fun h' => opposite_ne_self _ h'.symm
      · rw [if_neg h]
        exact h

/-- Witness of C25: heading Right (the boot direction), the key Up turns the snake
upwards and records Right as previous direction. -/
theorem updateDirection_effect_witness :
    (updateDirection (stateFacing 3 0) KEY_UP).dirIndex = UP ∧
    (updateDirection (stateFacing 3 0) KEY_UP).prevDirIndex = RIGHT ∧
    (updateDirection (stateFacing 3 0) KEY_UP).gameOverReason = 0 :=
  (updateDirection_effect (stateFacing 3 0)).1 UP (by decide) (by decide)

/-! ## The snake laid out by `initStage` (C24) -/

/-- The deque laid out by `initStage` is the same for every stage and every wall
outcome: front `(10, 8)`, back `(10, 10)`, while `headY`, `headX` is `(10, 10)`. -/
theorem freshStage_snake (s : State) (stage : Nat) (wallDraw : Nat → Int → Int → Bool) :
    (freshStage s stage wallDraw).snake = [(10, 8), (10, 9), (10, 10)] ∧
    (freshStage s stage wallDraw).headY = 10 ∧ (freshStage s stage wallDraw).headX = 10 := by
  refine ⟨?_, ?_, ?_⟩ <;> simp [freshStage, centreCells, HEIGHT, WIDTH]

/-- C24, evaluated on a failing input: a session start from the boot state (no
inner wall, item draws `(3, 3)` and `(5, 5)`, identity shuffle).  The three
`push_front` calls of `initStage` leave the deque as `(10, 8), (10, 9), (10, 10)`:
its front is `(headY, headX - 2)` and the head cell `(10, 10)` is at the back.
The first tick then pops the head cell as if it were the tail and the snake
becomes `(10, 11), (10, 8), (10, 9)` with the cell `(10, 10)` Empty. -/
theorem initStage_front_is_not_head :
    ((playGameStart bootState (fun _ _ _ => false) [(3, 3)] [(5, 5)] id).map fun s =>
      (s.snake, s.snake.head?, s.headY, s.headX, s.dirIndex)) =
        some ([(10, 8), (10, 9), (10, 10)], some (10, 8), 10, 10, RIGHT) ∧
    (((playGameStart bootState (fun _ _ _ => false) [(3, 3)] [(5, 5)] id).bind fun s =>
      moveSnake (updateDirection s (-1)) []).map fun s => (s.snake, s.map 10 10, s.map 10 8)) =
        some ([(10, 11), (10, 8), (10, 9)], 0, 3) := by
  constructor
  · decide!
  · decide!

/-! ## Gate lifetime (C21) -/

theorem updateDirection_turn_more (s : State) (newDir : Dir) (u : Bool) :
    let s1 : State := if u = true then { s with gameOverReason := 1 } else s
    let r : State :=
      if newDir ≠ s1.dirIndex ∧ u = false then
        { s1 with prevDirIndex := s1.dirIndex, dirIndex := newDir }
      else s1
    r.gateLifetimeCounter = s.gateLifetimeCounter ∧ r.itemFrame = s.itemFrame ∧
    r.stageTurnCounter = s.stageTurnCounter ∧ r.gateCooldown = s.gateCooldown ∧
    r.currentStage = s.currentStage ∧ r.headY = s.headY ∧ r.headX = s.headX ∧
    r.collected_growth_items = s.collected_growth_items ∧
    r.collected_poison_items = s.collected_poison_items ∧
    r.gates_used_count = s.gates_used_count := by
  cases u
  · by_cases h : newDir = s.dirIndex <;> simp [h]
  · simp

/-- The fields `updateDirection` never writes. -/
theorem updateDirection_more (s : State) (ch : Int) :
    (updateDirection s ch).gateLifetimeCounter = s.gateLifetimeCounter ∧
    (updateDirection s ch).itemFrame = s.itemFrame ∧
    (updateDirection s ch).stageTurnCounter = s.stageTurnCounter ∧
    (updateDirection s ch).gateCooldown = s.gateCooldown ∧
    (updateDirection s ch).currentStage = s.currentStage ∧
    (updateDirection s ch).headY = s.headY ∧ (updateDirection s ch).headX = s.headX ∧
    (updateDirection s ch).collected_growth_items = s.collected_growth_items ∧
    (updateDirection s ch).collected_poison_items = s.collected_poison_items ∧
    (updateDirection s ch).gates_used_count = s.gates_used_count := by
  unfold updateDirection
  by_cases h1 : s.paused = true ∧ ch = KEY_p
  · simp only [if_pos h1, and_self]
  · by_cases h2 : ch = KEY_p
    · simp only [if_neg h1, if_pos h2, and_self]
    · simp only [if_neg h1, if_neg h2]
      exact updateDirection_turn_more s _ _

theorem expireItems_gateLifetime (s : State) :
    (expireItems s).gateLifetimeCounter = s.gateLifetimeCounter := by
  unfold expireItems
  by_cases h0 : s.itemFrame > 0 <;> by_cases h1 : s.itemFrame - 1 = 0 <;> simp [h0, h1]

theorem removeTail_gateLifetime (s : State) :
    (removeTail s).gateLifetimeCounter = s.gateLifetimeCounter := by
  unfold removeTail
  split <;> simp

theorem finishMove_gateLifetime (s : State) (grew : Bool) (ny nx : Int) :
    (finishMove s grew ny nx).gateLifetimeCounter = s.gateLifetimeCounter := by
  unfold finishMove
  have hr := removeTail_gateLifetime s
  cases grew <;> simp only [Bool.false_eq_true, if_true, if_false] <;>
    split_ifs <;> simp_all

theorem spawnGrowthItem_gateLifetime (s s2 : State) (rnd : List (Nat × Nat))
    (h : spawnGrowthItem s rnd = some s2) :
    s2.gateLifetimeCounter = s.gateLifetimeCounter := by
  unfold spawnGrowthItem at h
  split at h
  · cases h; rfl
  · split at h
    · cases h
    · cases h; rfl

theorem spawnPoisonItem_gateLifetime (s s2 : State) (rnd : List (Nat × Nat))
    (h : spawnPoisonItem s rnd = some s2) :
    s2.gateLifetimeCounter = s.gateLifetimeCounter := by
  unfold spawnPoisonItem at h
  split at h
  · cases h; rfl
  · split at h
    · cases h
    · cases h; rfl

theorem gateExit_gateLifetime (s : State) :
    (gateExit s).2.2.gateLifetimeCounter = s.gateLifetimeCounter := by
  have e := expireItems_gateLifetime s
  simp [gateExit, gateEntered, teleportThroughGate, e]

/-- No tick of `moveSnake` changes the gate lifetime counter. -/
theorem moveSnake_gateLifetime (s s' : State) (rnd : List (Nat × Nat))
    (h : moveSnake s rnd = some s') : s'.gateLifetimeCounter = s.gateLifetimeCounter := by
  have e := expireItems_gateLifetime s
  by_cases hb : inBounds (nextY s) (nextX s)
  swap
  · rw [moveSnake_of_oob s rnd hb] at h
    cases h; exact e
  rcases target_cases s with ht | ht | ht | ht | ht | ht | ⟨h1, h9, h3, h4, h2, h5⟩
  · rw [moveSnake_of_blocked s rnd hb (Or.inl ht)] at h
    cases h; exact e
  · rw [moveSnake_of_blocked s rnd hb (Or.inr (Or.inl ht))] at h
    cases h; exact e
  · rw [moveSnake_of_blocked s rnd hb (Or.inr (Or.inr ht))] at h
    cases h; exact e
  · rw [moveSnake_of_growth s rnd hb ht] at h
    obtain ⟨s2, hsp, rfl⟩ := Option.map_eq_some'.mp h
    rw [finishMove_gateLifetime, spawnGrowthItem_gateLifetime _ _ _ hsp]
    exact e
  · have hpe : (poisonEaten s).gateLifetimeCounter = s.gateLifetimeCounter := by
      unfold poisonEaten
      rw [removeTail_gateLifetime]; exact e
    by_cases hc : s.snake ≠ [] ∧ (poisonEaten s).snake.length < 3
    · rw [moveSnake_of_poison_short s rnd hb ht hc] at h
      cases h; exact hpe
    · rw [moveSnake_of_poison s rnd hb ht hc] at h
      obtain ⟨s4, hsp, rfl⟩ := Option.map_eq_some'.mp h
      rw [finishMove_gateLifetime, spawnPoisonItem_gateLifetime _ _ _ hsp]
      exact hpe
  · by_cases hc : s.gateCooldown > 0
    · rw [moveSnake_of_gate_cooldown s rnd hb ht hc] at h
      cases h; exact e
    · by_cases hx : gateExitBlocked s
      · rw [moveSnake_of_gate_blocked s rnd hb ht hc hx] at h
        cases h
        exact gateExit_gateLifetime s
      · rw [moveSnake_of_gate s rnd hb ht hc hx] at h
        cases h
        rw [finishMove_gateLifetime]
        exact gateExit_gateLifetime s
  · rw [moveSnake_of_plain s rnd hb h1 h9 h3 h4 h2 h5] at h
    cases h
    rw [finishMove_gateLifetime]
    exact e

/-- C21, evaluated on a failing input: a tick of a snake moving onto an Empty cell
with the gate pair `(0, 5)`, `(20, 7)` in place.  With the lifetime counter at 0
the counter is still 0 after the tick, and with the counter at 99 it is still 99
and the same pair is still marked Gate: nothing increments the counter or calls
`spawnGates`.  For every state and all draws a tick leaves the counter and the
recorded pair unchanged. -/
theorem gate_lifetime_never_advances :
    ((moveSnake (updateDirection (gatesAgedState 0) (-1)) []).map fun s =>
      s.gateLifetimeCounter) = some 0 ∧
    ((moveSnake (updateDirection (gatesAgedState 99) (-1)) []).map fun s =>
      (s.gateLifetimeCounter, s.gateA, s.gateB, s.map 0 5, s.map 20 7)) =
        some (99, (0, 5), (20, 7), 5, 5) ∧
    (∀ (s : State) (ch : Int) (rnd : List (Nat × Nat)),
      ((moveSnake (updateDirection s ch) rnd).map fun s' =>
        (s'.gateLifetimeCounter, s'.gateA, s'.gateB)) =
      (moveSnake (updateDirection s ch) rnd).map fun _ =>
        (s.gateLifetimeCounter, s.gateA, s.gateB)) := by
  refine ⟨by decide, by decide, fun s ch rnd => ?_⟩
  cases h : moveSnake (updateDirection s ch) rnd with
  | none => rfl
  | some s' =>
    obtain ⟨g1, g2⟩ := moveSnake_gates _ _ _ h
    have g3 := moveSnake_gateLifetime _ _ _ h
    obtain ⟨-, -, u3, u4⟩ := updateDirection_rest s ch
    have u5 := (updateDirection_more s ch).1
    simp only [Option.map_some', g1, g2, g3, u3, u4, u5]

/-! ## Turn limit (C22) -/

theorem updateDirection_reason (s : State) (ch : Int) :
    (updateDirection s ch).gameOverReason = 1 ∨
      (updateDirection s ch).gameOverReason = s.gameOverReason := by
  unfold updateDirection
  by_cases h1 : s.paused = true ∧ ch = KEY_p
  · simp only [if_pos h1]; exact Or.inr trivial
  · by_cases h2 : ch = KEY_p
    · simp only [if_neg h1, if_pos h2]; exact Or.inr trivial
    · simp only [if_neg h1, if_neg h2]
      split_ifs <;> simp

/-- A tick that completes its move increments the turn counter and writes reason
4 exactly on the turn-limit test. -/
theorem moveSnake_turn_counter (s s' : State) (rnd : List (Nat × Nat)) (hm : movesOn s)
    (h : moveSnake s rnd = some s') :
    s'.stageTurnCounter = s.stageTurnCounter + 1 ∧ s'.currentStage = s.currentStage ∧
    s'.gameOverReason = (if turnLimitHit s then 4 else s.gameOverReason) := by
  obtain ⟨hb, h1, h9, h3, hps, hg⟩ := hm
  obtain ⟨-, -, -, -, -, e6, e7, -, -, -, -, -, -, e14, -, -, -⟩ := expireItems_rest s
  unfold turnLimitHit
  by_cases h4 : target s = 4
  · rw [moveSnake_of_growth s rnd hb h4] at h
    obtain ⟨s2, hsp, rfl⟩ := Option.map_eq_some'.mp h
    obtain ⟨-, -, -, -, f5, f6, -, -, -, -, -, -, f13, -, -, -⟩ :=
      spawnGrowthItem_rest _ _ _ hsp
    obtain ⟨-, -, -, g4, g5, -, -, -, -, -, -, g12, -, -, -⟩ :=
      finishMove_rest s2 true (nextY s) (nextX s)
    have a1 : (growthEaten s).stageTurnCounter = s.stageTurnCounter := e14
    have a2 : (growthEaten s).currentStage = s.currentStage := e7
    have a3 : (growthEaten s).gameOverReason = s.gameOverReason := e6
    rw [g12, g5, g4, f13, f6, f5, a1, a2, a3]
    exact ⟨rfl, rfl, rfl⟩
  by_cases h2 : target s = 2
  · have hs : ¬ (s.snake ≠ [] ∧ (poisonEaten s).snake.length < 3) := fun hc => hps ⟨h2, hc⟩
    rw [moveSnake_of_poison s rnd hb h2 hs] at h
    obtain ⟨s4, hsp, rfl⟩ := Option.map_eq_some'.mp h
    obtain ⟨-, -, -, -, f5, f6, -, -, -, -, -, -, f13, -, -, -⟩ :=
      spawnPoisonItem_rest _ _ _ hsp
    obtain ⟨-, -, -, g4, g5, -, -, -, -, -, -, g12, -, -, -⟩ :=
      finishMove_rest s4 false (nextY s) (nextX s)
    obtain ⟨-, -, -, r4, r5, -, -, -, -, -, -, r12, -, -, -, -⟩ :=
      removeTail_rest { expireItems s with
        collected_poison_items := (expireItems s).collected_poison_items + 1,
        total_score_poison := (expireItems s).total_score_poison - 5 }
    have a1 : (poisonCleared s).stageTurnCounter = s.stageTurnCounter := r12.trans e14
    have a2 : (poisonCleared s).currentStage = s.currentStage := r5.trans e7
    have a3 : (poisonCleared s).gameOverReason = s.gameOverReason := r4.trans e6
    rw [g12, g5, g4, f13, f6, f5, a1, a2, a3]
    exact ⟨rfl, rfl, rfl⟩
  by_cases h5 : target s = 5
  · have hc : ¬ s.gateCooldown > 0 := fun hc => hg ⟨h5, Or.inl hc⟩
    have hx : ¬ gateExitBlocked s := fun hx => hg ⟨h5, Or.inr hx⟩
    rw [moveSnake_of_gate s rnd hb h5 hc hx] at h
    cases h
    obtain ⟨-, -, -, g4, g5, -, -, -, -, -, -, g12, -, -, -⟩ :=
      finishMove_rest (gateArmed s) false (gateExit s).1 (gateExit s).2.1
    obtain ⟨a3, a1, a2, -, -⟩ := gateArmed_rest s
    rw [g12, g5, g4, a1, a2, a3]
    exact ⟨rfl, rfl, rfl⟩
  · rw [moveSnake_of_plain s rnd hb h1 h9 h3 h4 h2 h5] at h
    cases h
    obtain ⟨-, -, -, g4, g5, -, -, -, -, -, -, g12, -, -, -⟩ :=
      finishMove_rest (expireItems s) false (nextY s) (nextX s)
    rw [g12, g5, g4, e14, e7, e6]
    exact ⟨rfl, rfl, rfl⟩

/-- After `n` completed moves the turn counter has advanced by `n`, and from a
state without reason 4 the reason is 4 exactly when the counter has exceeded the
limit of the stage. -/
theorem moveRun_turn_counter (n : Nat) (s s' : State) (hrun : MoveRun n s s') :
    s'.stageTurnCounter = s.stageTurnCounter + n ∧ s'.currentStage = s.currentStage ∧
    (s.gameOverReason ≠ 4 → 0 < n →
      (s'.gameOverReason = 4 ↔
        s.stageTurnCounter + n > stageTurnLimitPerStage.getD s.currentStage 0)) ∧
    (s.gameOverReason ≠ 4 →
      s.stageTurnCounter + n ≤ stageTurnLimitPerStage.getD s.currentStage 0 →
      s'.gameOverReason ≠ 4) := by
  induction hrun with
  | zero s => exact ⟨by simp, rfl, fun _ h => absurd h (lt_irrefl 0), fun h _ => h⟩
  | succ n s t t' _ htick ih =>
    obtain ⟨ch, rnd, hm, hmv⟩ := htick
    obtain ⟨i1, i2, -, i4⟩ := ih
    obtain ⟨m1, m2, m3⟩ := moveSnake_turn_counter _ _ rnd hm hmv
    obtain ⟨-, -, u3, -, u5, -⟩ := updateDirection_more t ch
    have hc : t'.stageTurnCounter = s.stageTurnCounter + ((n + 1 : Nat) : Int) := by
      rw [m1, u3, i1]; push_cast; ring
    have hs : t'.currentStage = s.currentStage := by rw [m2, u5, i2]
    have key : s.gameOverReason ≠ 4 →
        (t'.gameOverReason = 4 ↔
          s.stageTurnCounter + ((n + 1 : Nat) : Int) >
            stageTurnLimitPerStage.getD s.currentStage 0) := by
      intro h4
      have hhit : turnLimitHit (updateDirection t ch) ↔
          s.stageTurnCounter + ((n + 1 : Nat) : Int) >
            stageTurnLimitPerStage.getD s.currentStage 0 := by
        unfold turnLimitHit
        rw [u3, u5, i1, i2]; push_cast
        constructor <;> intro h <;> linarith
      rw [m3]
      by_cases hh : turnLimitHit (updateDirection t ch)
      · simp only [if_pos hh, true_iff]
        exact hhit.mp hh
      · simp only [if_neg hh]
        have hle : s.stageTurnCounter + (n : Int) ≤
            stageTurnLimitPerStage.getD s.currentStage 0 := by
          have := mt hhit.mpr hh
          push_cast at this
          linarith
        have hprev := i4 h4 hle
        have hu : (updateDirection t ch).gameOverReason ≠ 4 := by
          rcases updateDirection_reason t ch with h | h
          · rw [h]; decide
          · rw [h]; exact hprev
        exact ⟨fun h => absurd h hu, fun h => absurd (hhit.mpr h) hh⟩
    refine ⟨hc, hs, fun h4 _ => key h4, fun h4 hle hr => ?_⟩
    have := (key h4).mp hr
    linarith

/-- C22: in every state in which `moveSnake` completes its move (no boundary,
wall, self, short-length, cooldown or post-teleport termination) the stage turn
counter is incremented by exactly 1 and the reason is set to 4 exactly on the
test `stageTurnCounter > stageTurnLimitPerStage[currentStage]` of the incremented
counter, otherwise left as it was; so, the reason not being 4 before the tick,
the tick ends with reason 4 if and only if the incremented counter exceeds the
limit.  Starting from counter 0 without reason 4, after `n > 0` completed moves
(any keys, any draws) the counter is `n` and the reason is 4 if and only if `n`
exceeds the limit `L` of the stage: none of the first `L` moves is terminated by
the turn limit and move `L + 1` is. -/
theorem moveSnake_turn_limit (s s' : State) (rnd : List (Nat × Nat)) (hm : movesOn s)
    (h : moveSnake s rnd = some s') :
    s'.stageTurnCounter = s.stageTurnCounter + 1 ∧
    s'.gameOverReason =
      (if s.stageTurnCounter + 1 > stageTurnLimitPerStage.getD s.currentStage 0 then 4
       else s.gameOverReason) ∧
    (s.gameOverReason ≠ 4 →
      (s'.gameOverReason = 4 ↔
        s'.stageTurnCounter > stageTurnLimitPerStage.getD s'.currentStage 0)) ∧
    (∀ (n : Nat) (t t' : State), t.stageTurnCounter = 0 → t.gameOverReason ≠ 4 → 0 < n →
      MoveRun n t t' →
      t'.stageTurnCounter = n ∧
      (t'.gameOverReason = 4 ↔ (n : Int) > stageTurnLimitPerStage.getD t.currentStage 0)) := by
  obtain ⟨m1, m2, m3⟩ := moveSnake_turn_counter s s' rnd hm h
  refine ⟨m1, m3, fun h4 => ?_, fun n t t' h0 h4 hn hrun => ?_⟩
  · rw [m3, m1, m2]
    unfold turnLimitHit
    split_ifs with hh
    · exact ⟨fun _ => hh, fun _ => rfl⟩
    · exact ⟨fun e => absurd e h4, fun e => absurd e hh⟩
  · obtain ⟨r1, -, r3, -⟩ := moveRun_turn_counter n t t' hrun
    rw [h0, zero_add] at r1
    refine ⟨r1, ?_⟩
    have := r3 h4 hn
    rw [h0, zero_add] at this
    exact this

/-- Witness of C22: a 4-segment snake stepping onto an Empty cell on stage 0 with
the counter at 0; the move completes, the counter becomes 1 and the reason stays
0. -/
theorem moveSnake_turn_limit_witness :
    movesOn (stateFacing 4 0) ∧
    moveSnake (stateFacing 4 0) [] =
      some (finishMove (expireItems (stateFacing 4 0)) false 10 11) ∧
    (finishMove (expireItems (stateFacing 4 0)) false 10 11).stageTurnCounter = 1 ∧
    (finishMove (expireItems (stateFacing 4 0)) false 10 11).gameOverReason = 0 := by
  have hm : movesOn (stateFacing 4 0) := by decide
  have hmv : moveSnake (stateFacing 4 0) [] =
      some (finishMove (expireItems (stateFacing 4 0)) false 10 11) :=
    moveSnake_of_plain (stateFacing 4 0) [] (by decide) (by decide) (by decide) (by decide)
      (by decide) (by decide) (by decide)
  obtain ⟨h1, h2, -, -⟩ := moveSnake_turn_limit (stateFacing 4 0) _ [] hm hmv
  refine ⟨hm, hmv, ?_, ?_⟩
  · rw [h1]; decide
  · rw [h2]; decide

/-! ## Items after the timer has run out (C26) -/

theorem gateExit_counters (s : State) :
    (gateExit s).2.2.collected_growth_items = s.collected_growth_items ∧
    (gateExit s).2.2.collected_poison_items = s.collected_poison_items ∧
    (gateExit s).2.2.gameOverReason = s.gameOverReason ∧
    (gateExit s).2.2.gateCooldown = s.gateCooldown ∧
    (gateExit s).2.2.stageTurnCounter = s.stageTurnCounter := by
  obtain ⟨-, -, -, -, -, e6, -, e8, e9, -, -, -, -, e14, e15, -, -⟩ := expireItems_rest s
  simp [gateExit, gateEntered, teleportThroughGate, e6, e8, e9, e14, e15]

/-- Once the expiration block leaves the timer at 0 and no item on the grid, the
tick returns without consuming a draw, with the timer at 0, no item on the grid
and the item counters unchanged. -/
theorem moveSnake_after_clear (s : State) (rnd : List (Nat × Nat))
    (hfr : (expireItems s).itemFrame = 0) (hno : NoItems (expireItems s).map) :
    ∃ s', moveSnake s rnd = some s' ∧ moveSnake s [] = some s' ∧ s'.itemFrame = 0 ∧
      NoItems s'.map ∧ s'.collected_growth_items = s.collected_growth_items ∧
      s'.collected_poison_items = s.collected_poison_items := by
  obtain ⟨-, -, -, -, -, -, -, e8, e9, -⟩ := expireItems_rest s
  by_cases hb : inBounds (nextY s) (nextX s)
  swap
  · exact ⟨_, moveSnake_of_oob s rnd hb, moveSnake_of_oob s [] hb, hfr, hno, e8, e9⟩
  rcases target_cases s with ht | ht | ht | ht | ht | ht | ⟨h1, h9, h3, h4, h2, h5⟩
  · exact ⟨_, moveSnake_of_blocked s rnd hb (Or.inl ht),
      moveSnake_of_blocked s [] hb (Or.inl ht), hfr, hno, e8, e9⟩
  · exact ⟨_, moveSnake_of_blocked s rnd hb (Or.inr (Or.inl ht)),
      moveSnake_of_blocked s [] hb (Or.inr (Or.inl ht)), hfr, hno, e8, e9⟩
  · exact ⟨_, moveSnake_of_blocked s rnd hb (Or.inr (Or.inr ht)),
      moveSnake_of_blocked s [] hb (Or.inr (Or.inr ht)), hfr, hno, e8, e9⟩
  · exact absurd ht (hno _ _ hb).1
  · exact absurd ht (hno _ _ hb).2
  · obtain ⟨c1, c2, -, -, -⟩ := gateExit_counters s
    by_cases hc : s.gateCooldown > 0
    · exact ⟨_, moveSnake_of_gate_cooldown s rnd hb ht hc,
        moveSnake_of_gate_cooldown s [] hb ht hc, hfr, hno, e8, e9⟩
    · by_cases hx : gateExitBlocked s
      · refine ⟨_, moveSnake_of_gate_blocked s rnd hb ht hc hx,
          moveSnake_of_gate_blocked s [] hb ht hc hx, ?_, ?_, c1, c2⟩
        · show (gateExit s).2.2.itemFrame = 0
          rw [gateExit_itemFrame]; exact hfr
        · show NoItems (gateExit s).2.2.map
          rw [(gateExit_rest s).2.1]; exact hno
      · obtain ⟨-, -, -, -, -, f6, f7, -, -, -, -, -, -, -, f15⟩ :=
          finishMove_rest (gateArmed s) false (gateExit s).1 (gateExit s).2.1
        refine ⟨_, moveSnake_of_gate s rnd hb ht hc hx, moveSnake_of_gate s [] hb ht hc hx,
          ?_, ?_, ?_, ?_⟩
        · rw [f15]
          show (gateExit s).2.2.itemFrame = 0
          rw [gateExit_itemFrame]; exact hfr
        · apply NoItems.after_finishMove
          show NoItems (gateExit s).2.2.map
          rw [(gateExit_rest s).2.1]; exact hno
        · rw [f6]; exact c1
        · rw [f7]; exact c2
  · obtain ⟨-, -, -, -, -, f6, f7, -, -, -, -, -, -, -, f15⟩ :=
      finishMove_rest (expireItems s) false (nextY s) (nextX s)
    refine ⟨_, moveSnake_of_plain s rnd hb h1 h9 h3 h4 h2 h5,
      moveSnake_of_plain s [] hb h1 h9 h3 h4 h2 h5, ?_, NoItems.after_finishMove hno _ _, ?_, ?_⟩
    · rw [f15]; exact hfr
    · rw [f6, e8]
    · rw [f7, e9]

theorem expireItems_of_timer_zero (s : State) (h0 : s.itemFrame = 0) : expireItems s = s := by
  unfold expireItems
  simp [h0]

theorem expireItems_itemFrame (s : State) :
    (expireItems s).itemFrame = if s.itemFrame > 0 then s.itemFrame - 1 else s.itemFrame := by
  unfold expireItems
  by_cases h0 : s.itemFrame > 0 <;> by_cases h1 : s.itemFrame - 1 = 0 <;> simp [h0, h1]

/-- The timer after a tick is the timer left by the expiration block, or the full
lifespan when an item was spawned. -/
theorem moveSnake_itemFrame (s s' : State) (rnd : List (Nat × Nat))
    (h : moveSnake s rnd = some s') :
    s'.itemFrame = (expireItems s).itemFrame ∨ s'.itemFrame = ITEM_LIFESPAN := by
  by_cases hb : inBounds (nextY s) (nextX s)
  swap
  · rw [moveSnake_of_oob s rnd hb] at h
    cases h; exact Or.inl rfl
  rcases target_cases s with ht | ht | ht | ht | ht | ht | ⟨h1, h9, h3, h4, h2, h5⟩
  · rw [moveSnake_of_blocked s rnd hb (Or.inl ht)] at h
    cases h; exact Or.inl rfl
  · rw [moveSnake_of_blocked s rnd hb (Or.inr (Or.inl ht))] at h
    cases h; exact Or.inl rfl
  · rw [moveSnake_of_blocked s rnd hb (Or.inr (Or.inr ht))] at h
    cases h; exact Or.inl rfl
  · rw [moveSnake_of_growth s rnd hb ht] at h
    obtain ⟨s2, hsp, rfl⟩ := Option.map_eq_some'.mp h
    rw [(finishMove_rest _ _ _ _).2.2.2.2.2.2.2.2.2.2.2.2.2.2]
    have hge : (growthEaten s).itemFrame = (expireItems s).itemFrame := rfl
    rcases spawnGrowthItem_itemFrame _ _ _ hsp with h' | h'
    · exact Or.inl (h'.trans hge)
    · exact Or.inr h'
  · have hpe : (poisonEaten s).itemFrame = (expireItems s).itemFrame := by
      unfold poisonEaten
      rw [(removeTail_rest _).2.2.2.2.2.2.2.2.2.2.2.2.2.2.2]
    by_cases hc : s.snake ≠ [] ∧ (poisonEaten s).snake.length < 3
    · rw [moveSnake_of_poison_short s rnd hb ht hc] at h
      cases h; exact Or.inl hpe
    · rw [moveSnake_of_poison s rnd hb ht hc] at h
      obtain ⟨s4, hsp, rfl⟩ := Option.map_eq_some'.mp h
      rw [(finishMove_rest _ _ _ _).2.2.2.2.2.2.2.2.2.2.2.2.2.2]
      have hpc : (poisonCleared s).itemFrame = (poisonEaten s).itemFrame := rfl
      rcases spawnPoisonItem_itemFrame _ _ _ hsp with h' | h'
      · exact Or.inl (h'.trans (hpc.trans hpe))
      · exact Or.inr h'
  · by_cases hc : s.gateCooldown > 0
    · rw [moveSnake_of_gate_cooldown s rnd hb ht hc] at h
      cases h; exact Or.inl rfl
    · by_cases hx : gateExitBlocked s
      · rw [moveSnake_of_gate_blocked s rnd hb ht hc hx] at h
        cases h
        exact Or.inl (gateExit_itemFrame s)
      · rw [moveSnake_of_gate s rnd hb ht hc hx] at h
        cases h
        rw [(finishMove_rest _ _ _ _).2.2.2.2.2.2.2.2.2.2.2.2.2.2]
        exact Or.inl (gateExit_itemFrame s)
  · rw [moveSnake_of_plain s rnd hb h1 h9 h3 h4 h2 h5] at h
    cases h
    rw [(finishMove_rest _ _ _ _).2.2.2.2.2.2.2.2.2.2.2.2.2.2]
    exact Or.inl rfl

/-- The implication from a timer at 0 to a grid without items is preserved by
every tick of `moveSnake`, from any state. -/
theorem moveSnake_timer_zero_inv (s s' : State) (rnd : List (Nat × Nat))
    (hP : s.itemFrame = 0 → NoItems s.map) (h : moveSnake s rnd = some s') :
    s'.itemFrame = 0 → NoItems s'.map := by
  intro h0'
  by_cases h0 : s.itemFrame = 0
  · have e := expireItems_of_timer_zero s h0
    obtain ⟨t, ht, -, -, hno, -⟩ :=
      moveSnake_after_clear s rnd (by rw [e]; exact h0) (by rw [e]; exact hP h0)
    rw [h] at ht
    cases ht
    exact hno
  by_cases h1 : s.itemFrame = 1
  · obtain ⟨hfr, hno0⟩ := expireItems_of_timer_one s h1
    obtain ⟨t, ht, -, -, hno, -⟩ := moveSnake_after_clear s rnd hfr hno0
    rw [h] at ht
    cases ht
    exact hno
  · exfalso
    rcases moveSnake_itemFrame s s' rnd h with hi | hi
    · rw [expireItems_itemFrame] at hi
      split_ifs at hi <;> omega
    · rw [hi] at h0'
      exact absurd h0' (by decide)

theorem tickRun_after_clear (n : Nat) (s s' : State) (hrun : TickRun n s s') :
    s.itemFrame = 0 → NoItems s.map →
    s'.itemFrame = 0 ∧ NoItems s'.map ∧
    s'.collected_growth_items = s.collected_growth_items ∧
    s'.collected_poison_items = s.collected_poison_items := by
  induction hrun with
  | zero s => exact fun h0 hn => ⟨h0, hn, rfl, rfl⟩
  | succ n s t t' _ htick ih =>
    intro h0 hn
    obtain ⟨i0, i1, i2, i3⟩ := ih h0 hn
    obtain ⟨ch, rnd, hmv⟩ := htick
    obtain ⟨-, u2, -, -, -, -, -, u8, u9, -⟩ := updateDirection_more t ch
    obtain ⟨u0, -⟩ := updateDirection_rest t ch
    have e := expireItems_of_timer_zero (updateDirection t ch) (u2.trans i0)
    obtain ⟨r, hr, -, r0, r1, r2, r3⟩ :=
      moveSnake_after_clear (updateDirection t ch) rnd (by rw [e, u2]; exact i0)
        (by rw [e, u0]; exact i1)
    rw [hmv] at hr
    cases hr
    exact ⟨r0, r1, by rw [r2, u8, i2], by rw [r3, u9, i3]⟩

/-- C26: the implication from an item timer at 0 to a grid without Growth or
Poison cell is preserved by every tick of `moveSnake`, from any state.  From a
state with the timer at 0 and no item on the grid, after any number of ticks (any
keys, any draws) the timer is still 0, no cell holds Growth or Poison and the
growth and poison counters are what they were; and the next tick returns the same
state whatever the draws, also on the empty list of draws, on which a call of a
spawn function below the cap could not return: no spawn function is called. -/
theorem items_never_return (n : Nat) (s s' : State) (h0 : s.itemFrame = 0)
    (hn : NoItems s.map) (hrun : TickRun n s s') :
    s'.itemFrame = 0 ∧ NoItems s'.map ∧
    s'.collected_growth_items = s.collected_growth_items ∧
    s'.collected_poison_items = s.collected_poison_items ∧
    (∀ (ch : Int) (rnd : List (Nat × Nat)),
      (moveSnake (updateDirection s' ch) []).isSome = true ∧
      moveSnake (updateDirection s' ch) rnd = moveSnake (updateDirection s' ch) []) ∧
    (∀ (t t' : State) (rnd : List (Nat × Nat)), (t.itemFrame = 0 → NoItems t.map) →
      moveSnake t rnd = some t' → t'.itemFrame = 0 → NoItems t'.map) := by
  obtain ⟨i0, i1, i2, i3⟩ := tickRun_after_clear n s s' hrun h0 hn
  refine ⟨i0, i1, i2, i3, fun ch rnd => ?_, moveSnake_timer_zero_inv⟩
  obtain ⟨-, u2, -⟩ := updateDirection_more s' ch
  obtain ⟨u0, -⟩ := updateDirection_rest s' ch
  have e := expireItems_of_timer_zero (updateDirection s' ch) (u2.trans i0)
  obtain ⟨r, hr, hr0, -⟩ :=
    moveSnake_after_clear (updateDirection s' ch) rnd (by rw [e, u2]; exact i0)
      (by rw [e, u0]; exact i1)
  rw [hr, hr0]
  exact ⟨rfl, rfl⟩

theorem borderGrid_noItems : NoItems borderGrid := by
  intro y x _
  unfold borderGrid IMMUNE_WALL
  split_ifs <;> decide

theorem stateFacing_noItems (n : Nat) (cell : Int) (h4 : cell ≠ 4) (h2 : cell ≠ 2) :
    NoItems (stateFacing n cell).map := by
  have hmark : ∀ (l : List Pos) (m : Grid), NoItems m → NoItems (markSnake m l) := by
    intro l
    induction l with
    | nil => exact fun m h => h
    | cons p l ih =>
      intro m h
      exact ih _ (h.after_setCell _ _ 3 (by decide) (by decide))
  exact (hmark _ _ borderGrid_noItems).after_setCell _ _ cell h4 h2

/-- Witness of C26: a 4-segment snake on a grid without items and with the timer at
0 steps onto an Empty cell; after the tick the timer is 0 and no item exists. -/
theorem items_never_return_witness :
    NoItems (stateFacing 4 0).map ∧
    TickRun 1 { stateFacing 4 0 with itemFrame := 0 }
      (finishMove
        (expireItems (updateDirection { stateFacing 4 0 with itemFrame := 0 } (-1)))
        false 10 11) ∧
    (finishMove
      (expireItems (updateDirection { stateFacing 4 0 with itemFrame := 0 } (-1)))
      false 10 11).itemFrame = 0 ∧
    NoItems
      (finishMove
        (expireItems (updateDirection { stateFacing 4 0 with itemFrame := 0 } (-1)))
        false 10 11).map := by
  have hn : NoItems (stateFacing 4 0).map := stateFacing_noItems 4 0 (by decide) (by decide)
  have hrun : TickRun 1 { stateFacing 4 0 with itemFrame := 0 }
      (finishMove
        (expireItems (updateDirection { stateFacing 4 0 with itemFrame := 0 } (-1)))
        false 10 11) :=
    TickRun.succ 0 _ _ _ (TickRun.zero _)
      ⟨-1, [], moveSnake_of_plain
        (updateDirection { stateFacing 4 0 with itemFrame := 0 } (-1)) [] (by decide)
        (by decide) (by decide) (by decide) (by decide) (by decide) (by decide)⟩
  obtain ⟨a, b, -⟩ :=
    items_never_return 1 { stateFacing 4 0 with itemFrame := 0 } _ rfl hn hrun
  exact ⟨hn, hrun, a, b⟩

/-! ## Gate cooldown (C28) -/

theorem finishMove_gateCooldown (s : State) (grew : Bool) (ny nx : Int) :
    (finishMove s grew ny nx).gateCooldown =
      if s.stageTurnCounter + 1 > stageTurnLimitPerStage.getD s.currentStage 0 then
        s.gateCooldown
      else if s.gateCooldown > 0 then s.gateCooldown - 1 else s.gateCooldown := by
  unfold finishMove
  obtain ⟨-, -, -, -, r5, -, -, -, -, -, -, r12, r13, -, -, -⟩ := removeTail_rest s
  cases grew <;> simp only [Bool.false_eq_true, if_true, if_false] <;>
    split_ifs <;> first | omega | (simp_all; done) | (simp_all; omega)

/-- Cooldown after a tick that completes its move outside a gate and within the
turn limit. -/
theorem moveSnake_cooldown_step (s s' : State) (rnd : List (Nat × Nat)) (hm : movesOn s)
    (h5 : target s ≠ 5) (hl : ¬ turnLimitHit s) (h : moveSnake s rnd = some s') :
    s'.gateCooldown = if s.gateCooldown > 0 then s.gateCooldown - 1 else s.gateCooldown := by
  obtain ⟨hb, h1, h9, h3, hps, -⟩ := hm
  obtain ⟨-, -, -, -, -, -, e7, -, -, -, -, -, -, e14, e15, -, -⟩ := expireItems_rest s
  unfold turnLimitHit at hl
  by_cases h4 : target s = 4
  · rw [moveSnake_of_growth s rnd hb h4] at h
    obtain ⟨s2, hsp, rfl⟩ := Option.map_eq_some'.mp h
    obtain ⟨-, -, -, -, -, f6, -, -, -, -, -, -, f13, f14, -, -⟩ :=
      spawnGrowthItem_rest _ _ _ hsp
    have a1 : (growthEaten s).stageTurnCounter = s.stageTurnCounter := e14
    have a2 : (growthEaten s).currentStage = s.currentStage := e7
    have a3 : (growthEaten s).gateCooldown = s.gateCooldown := e15
    rw [finishMove_gateCooldown, f13, f14, f6, a1, a2, a3, if_neg hl]
  by_cases h2 : target s = 2
  · have hs : ¬ (s.snake ≠ [] ∧ (poisonEaten s).snake.length < 3) := fun hc => hps ⟨h2, hc⟩
    rw [moveSnake_of_poison s rnd hb h2 hs] at h
    obtain ⟨s4, hsp, rfl⟩ := Option.map_eq_some'.mp h
    obtain ⟨-, -, -, -, -, f6, -, -, -, -, -, -, f13, f14, -, -⟩ :=
      spawnPoisonItem_rest _ _ _ hsp
    obtain ⟨-, -, -, -, r5, -, -, -, -, -, -, r12, r13, -, -, -⟩ :=
      removeTail_rest { expireItems s with
        collected_poison_items := (expireItems s).collected_poison_items + 1,
        total_score_poison := (expireItems s).total_score_poison - 5 }
    have a1 : (poisonCleared s).stageTurnCounter = s.stageTurnCounter := r12.trans e14
    have a2 : (poisonCleared s).currentStage = s.currentStage := r5.trans e7
    have a3 : (poisonCleared s).gateCooldown = s.gateCooldown := r13.trans e15
    rw [finishMove_gateCooldown, f13, f14, f6, a1, a2, a3, if_neg hl]
  · rw [moveSnake_of_plain s rnd hb h1 h9 h3 h4 h2 h5] at h
    cases h
    rw [finishMove_gateCooldown, e14, e15, e7, if_neg hl]

theorem gateArmed_gateCooldown (s : State) : (gateArmed s).gateCooldown = GATE_COOLDOWN_TICKS :=
  rfl

/-- Cooldown after a successful gate traversal within the turn limit. -/
theorem moveSnake_cooldown_armed (s s' : State) (rnd : List (Nat × Nat))
    (hb : inBounds (nextY s) (nextX s)) (ht : target s = 5) (hc : ¬ s.gateCooldown > 0)
    (hx : ¬ gateExitBlocked s) (hl : ¬ turnLimitHit s) (h : moveSnake s rnd = some s') :
    s'.gateCooldown = GATE_COOLDOWN_TICKS - 1 := by
  rw [moveSnake_of_gate s rnd hb ht hc hx] at h
  cases h
  obtain ⟨-, a1, a2, -, -⟩ := gateArmed_rest s
  unfold turnLimitHit at hl
  rw [finishMove_gateCooldown, a1, a2, if_neg hl, gateArmed_gateCooldown]
  decide

/-- No tick makes the cooldown negative. -/
theorem moveSnake_cooldown_nonneg (s s' : State) (rnd : List (Nat × Nat))
    (h0 : 0 ≤ s.gateCooldown) (h : moveSnake s rnd = some s') : 0 ≤ s'.gateCooldown := by
  obtain ⟨-, -, -, -, -, -, -, -, -, -, -, -, -, -, e15, -, -⟩ := expireItems_rest s
  have hfin : ∀ (t : State) (grew : Bool) (ny nx : Int), 0 ≤ t.gateCooldown →
      0 ≤ (finishMove t grew ny nx).gateCooldown := by
    intro t grew ny nx ht
    rw [finishMove_gateCooldown]
    split_ifs <;> omega
  by_cases hb : inBounds (nextY s) (nextX s)
  swap
  · rw [moveSnake_of_oob s rnd hb] at h
    cases h; exact e15.symm ▸ h0
  rcases target_cases s with ht | ht | ht | ht | ht | ht | ⟨h1, h9, h3, h4, h2, h5⟩
  · rw [moveSnake_of_blocked s rnd hb (Or.inl ht)] at h
    cases h; exact e15.symm ▸ h0
  · rw [moveSnake_of_blocked s rnd hb (Or.inr (Or.inl ht))] at h
    cases h; exact e15.symm ▸ h0
  · rw [moveSnake_of_blocked s rnd hb (Or.inr (Or.inr ht))] at h
    cases h; exact e15.symm ▸ h0
  · rw [moveSnake_of_growth s rnd hb ht] at h
    obtain ⟨s2, hsp, rfl⟩ := Option.map_eq_some'.mp h
    apply hfin
    rw [(spawnGrowthItem_rest _ _ _ hsp).2.2.2.2.2.2.2.2.2.2.2.2.2.1]
    exact e15.symm ▸ h0
  · have hpe : (poisonEaten s).gateCooldown = s.gateCooldown := by
      unfold poisonEaten
      rw [(removeTail_rest _).2.2.2.2.2.2.2.2.2.2.2.2.1]
      exact e15
    by_cases hc : s.snake ≠ [] ∧ (poisonEaten s).snake.length < 3
    · rw [moveSnake_of_poison_short s rnd hb ht hc] at h
      cases h; exact hpe.symm ▸ h0
    · rw [moveSnake_of_poison s rnd hb ht hc] at h
      obtain ⟨s4, hsp, rfl⟩ := Option.map_eq_some'.mp h
      apply hfin
      rw [(spawnPoisonItem_rest _ _ _ hsp).2.2.2.2.2.2.2.2.2.2.2.2.2.1]
      exact hpe.symm ▸ h0
  · by_cases hc : s.gateCooldown > 0
    · rw [moveSnake_of_gate_cooldown s rnd hb ht hc] at h
      cases h; exact e15.symm ▸ h0
    · by_cases hx : gateExitBlocked s
      · rw [moveSnake_of_gate_blocked s rnd hb ht hc hx] at h
        cases h
        exact (gateExit_counters s).2.2.2.1.symm ▸ h0
      · rw [moveSnake_of_gate s rnd hb ht hc hx] at h
        cases h
        apply hfin
        rw [gateArmed_gateCooldown]; decide
  · rw [moveSnake_of_plain s rnd hb h1 h9 h3 h4 h2 h5] at h
    cases h
    apply hfin
    exact e15.symm ▸ h0

/-- After `n` quiet ticks a non-negative cooldown `c` has become `c - n`, or 0 when
`n` exceeds `c`. -/
theorem quietRun_cooldown (n : Nat) (s s' : State) (hrun : QuietRun n s s') :
    0 ≤ s.gateCooldown →
    s'.gateCooldown = if (n : Int) ≤ s.gateCooldown then s.gateCooldown - n else 0 := by
  induction hrun with
  | zero s =>
    intro h0
    simp [h0]
  | succ n s t t' _ htick ih =>
    intro h0
    obtain ⟨ch, rnd, hm, h5, hl, hmv⟩ := htick
    have hstep := moveSnake_cooldown_step _ _ rnd hm h5 hl hmv
    rw [(updateDirection_more t ch).2.2.2.1, ih h0] at hstep
    rw [hstep]
    push_cast
    split_ifs <;> omega

/-- A tick entering a gate ends with reason 6 exactly when the cooldown is
positive, the reason not being 6 before. -/
theorem moveSnake_gate_reason_six (s s' : State) (rnd : List (Nat × Nat))
    (hb : inBounds (nextY s) (nextX s)) (ht : target s = 5) (h6 : s.gameOverReason ≠ 6)
    (h : moveSnake s rnd = some s') : s'.gameOverReason = 6 ↔ s.gateCooldown > 0 := by
  by_cases hc : s.gateCooldown > 0
  · rw [moveSnake_of_gate_cooldown s rnd hb ht hc] at h
    cases h
    exact ⟨fun _ => hc, fun _ => rfl⟩
  · refine ⟨fun h' => ?_, fun h' => absurd h' hc⟩
    exfalso
    by_cases hx : gateExitBlocked s
    · rw [moveSnake_of_gate_blocked s rnd hb ht hc hx] at h
      cases h
      have : (gateCrashed s).gameOverReason =
          if (gateExit s).2.2.map (gateExit s).1 (gateExit s).2.1 = 3 then 3 else 2 := rfl
      rw [this] at h'
      split_ifs at h' <;> exact absurd h' (by decide)
    · rw [moveSnake_of_gate s rnd hb ht hc hx] at h
      cases h
      obtain ⟨a3, -, -, -, -⟩ := gateArmed_rest s
      rw [(finishMove_rest _ _ _ _).2.2.2.1, a3] at h'
      split_ifs at h'
      · exact absurd h' (by decide)
      · exact h6 h'

/-- C28: after a tick in which the snake traverses a gate and is not terminated by
the turn limit the cooldown is `GATE_COOLDOWN_TICKS - 1 = 4`; after `j` further
ticks that complete their move outside a gate and within the turn limit it is
`4 - j`, and 0 from `j = 4` on, never negative (no tick at all makes a
non-negative cooldown negative); a gate entered on the next tick, the `j + 1`-th
after the traversal, ends the tick with reason 6 exactly when `j + 1 ≤ 4`. -/
theorem gate_cooldown_effective (s0 s1 s2 s3 : State) (rnd0 rnd : List (Nat × Nat))
    (j : Nat) (ch : Int)
    (hb0 : inBounds (nextY s0) (nextX s0)) (ht0 : target s0 = 5)
    (hc0 : ¬ s0.gateCooldown > 0) (hx0 : ¬ gateExitBlocked s0) (hl0 : ¬ turnLimitHit s0)
    (h0 : moveSnake s0 rnd0 = some s1) (hrun : QuietRun j s1 s2)
    (h6 : s2.gameOverReason ≠ 6)
    (hb : inBounds (nextY (updateDirection s2 ch)) (nextX (updateDirection s2 ch)))
    (ht : target (updateDirection s2 ch) = 5)
    (h3 : moveSnake (updateDirection s2 ch) rnd = some s3) :
    s1.gateCooldown = GATE_COOLDOWN_TICKS - 1 ∧ s1.gateCooldown = 4 ∧
    s2.gateCooldown = (if j ≤ 4 then 4 - (j : Int) else 0) ∧ 0 ≤ s2.gateCooldown ∧
    (s3.gameOverReason = 6 ↔ j + 1 ≤ 4) ∧
    (∀ (t t' : State) (r : List (Nat × Nat)), 0 ≤ t.gateCooldown → moveSnake t r = some t' →
      0 ≤ t'.gateCooldown) := by
  have h1 := moveSnake_cooldown_armed s0 s1 rnd0 hb0 ht0 hc0 hx0 hl0 h0
  have h14 : s1.gateCooldown = 4 := by rw [h1]; decide
  have h2 := quietRun_cooldown j s1 s2 hrun (by rw [h14]; decide)
  rw [h14] at h2
  have h2' : s2.gateCooldown = if j ≤ 4 then 4 - (j : Int) else 0 := by
    rw [h2]
    split_ifs <;> omega
  have hu6 : (updateDirection s2 ch).gameOverReason ≠ 6 := by
    rcases updateDirection_reason s2 ch with h | h
    · rw [h]; decide
    · rw [h]; exact h6
  have hiff := moveSnake_gate_reason_six _ _ rnd hb ht hu6 h3
  rw [(updateDirection_more s2 ch).2.2.2.1, h2'] at hiff
  refine ⟨h1, h14, h2', ?_, ?_, moveSnake_cooldown_nonneg⟩
  · rw [h2']; split_ifs <;> omega
  · rw [hiff]
    split_ifs <;> omega

/-- Witness of C28: the snake enters `gateA = (10, 11)`, leaves `gateB = (11, 12)`
upwards onto `(10, 12)` with the cooldown at 4, and turns Left into `gateA` on the
first tick after the traversal, which ends with reason 6. -/
theorem gate_cooldown_effective_witness :
    moveSnake cooldownDemoState [] =
      some (finishMove (gateArmed cooldownDemoState) false 10 12) ∧
    (finishMove (gateArmed cooldownDemoState) false 10 12).gateCooldown = 4 ∧
    target (updateDirection (finishMove (gateArmed cooldownDemoState) false 10 12) KEY_LEFT)
      = 5 ∧
    (∀ s3, moveSnake
        (updateDirection (finishMove (gateArmed cooldownDemoState) false 10 12) KEY_LEFT) []
          = some s3 → s3.gameOverReason = 6) := by
  have h0 : moveSnake cooldownDemoState [] =
      some (finishMove (gateArmed cooldownDemoState) false 10 12) :=
    moveSnake_of_gate cooldownDemoState [] (by decide) (by decide) (by decide) (by decide)
  have ht : target
      (updateDirection (finishMove (gateArmed cooldownDemoState) false 10 12) KEY_LEFT) = 5 := by
    decide
  refine ⟨h0, ?_, ht, fun s3 h3 => ?_⟩
  · exact (gate_cooldown_effective cooldownDemoState _ _
      { expireItems
          (updateDirection (finishMove (gateArmed cooldownDemoState) false 10 12) KEY_LEFT)
        with gameOverReason := 6 } [] [] 0 KEY_LEFT
      (by decide) (by decide) (by decide) (by decide) (by decide) h0 (QuietRun.zero _)
      (by decide) (by decide) ht
      (moveSnake_of_gate_cooldown _ [] (by decide) ht (by decide))).2.1
  · exact ((gate_cooldown_effective cooldownDemoState _ _ s3 [] [] 0 KEY_LEFT
      (by decide) (by decide) (by decide) (by decide) (by decide) h0 (QuietRun.zero _)
      (by decide) (by decide) ht h3).2.2.2.2.1).mpr (by decide)

/-! ## The corners (C23) -/

theorem corners_setCell {m : Grid} (h : Corners m) (y x v : Int) (hc : ¬ isCorner y x)
    (hv : v ≠ IMMUNE_WALL) : Corners (setCell m y x v) := by
  intro i j hb
  unfold setCell
  by_cases hij : i = y ∧ j = x
  · obtain ⟨rfl, rfl⟩ := hij
    simp only [and_self, if_true]
    exact ⟨fun e => absurd e hv, fun e => absurd e hc⟩
  · rw [if_neg hij]
    exact h i j hb

theorem corners_not_corner {m : Grid} (h : Corners m) (y x : Int) (hb : inBounds y x)
    (hv : m y x ≠ IMMUNE_WALL) : ¬ isCorner y x :=
  fun hc => hv ((h y x hb).mpr hc)

theorem corners_expire {s : State} (h : Corners s.map) : Corners (expireItems s).map := by
  intro y x hb
  rw [expireItems_map]
  split_ifs with hc
  · have hne : s.map y x ≠ IMMUNE_WALL := by
      rcases hc.2.2 with h4 | h2
      · rw [h4]; decide
      · rw [h2]; decide
    exact ⟨fun e => absurd e (by decide), fun e => absurd ((h y x hb).mpr e) hne⟩
  · exact h y x hb

theorem synced_not_corner {m : Grid} {sn : List Pos} (hs : Synced m sn) (hc : Corners m) :
    ∀ p ∈ sn, ¬ isCorner p.1 p.2 := by
  intro p hp
  have hb := hs.2.1 p hp
  have h3 : m p.1 p.2 = 3 := (hs.2.2 p.1 p.2 hb).mpr hp
  exact corners_not_corner hc _ _ hb (by rw [h3]; decide)

theorem corners_removeTail {s : State} (h : Corners s.map)
    (hsn : ∀ p ∈ s.snake, ¬ isCorner p.1 p.2) : Corners (removeTail s).map := by
  rcases List.eq_nil_or_concat s.snake with hnil | ⟨l, t, hl⟩
  · rw [removeTail_of_nil s hnil]; exact h
  · rw [List.concat_eq_append] at hl
    rw [removeTail_of_append s l t hl]
    exact corners_setCell h _ _ 0 (hsn t (by rw [hl]; simp)) (by decide)

theorem corners_finishMove {s : State} (h : Corners s.map)
    (hsn : ∀ p ∈ s.snake, ¬ isCorner p.1 p.2) (grew : Bool) (ny nx : Int)
    (hn : ¬ isCorner ny nx) : Corners (finishMove s grew ny nx).map := by
  rw [finishMove_map]
  cases grew
  · simp only [if_true]
    exact corners_setCell (corners_removeTail h hsn) _ _ 3 hn (by decide)
  · simp only [Bool.true_eq_false, if_false]
    exact corners_setCell h _ _ 3 hn (by decide)

theorem corners_spawnGrowth {s s2 : State} {rnd : List (Nat × Nat)} (h : Corners s.map)
    (hsp : spawnGrowthItem s rnd = some s2) : Corners s2.map := by
  rcases spawnGrowthItem_map s s2 rnd hsp with hm | ⟨y, x, hb, h0, hm⟩
  · rw [hm]; exact h
  · rw [hm]
    exact corners_setCell h y x 4 (corners_not_corner h y x hb (by rw [h0]; decide)) (by decide)

theorem corners_spawnPoison {s s2 : State} {rnd : List (Nat × Nat)} (h : Corners s.map)
    (hsp : spawnPoisonItem s rnd = some s2) : Corners s2.map := by
  rcases spawnPoisonItem_map s s2 rnd hsp with hm | ⟨y, x, hb, h0, hm⟩
  · rw [hm]; exact h
  · rw [hm]
    exact corners_setCell h y x 2 (corners_not_corner h y x hb (by rw [h0]; decide)) (by decide)

/-- A tick of `moveSnake` neither writes ImmuneWall nor writes onto a corner. -/
theorem corners_moveSnake {s s' : State} {rnd : List (Nat × Nat)}
    (hs : Synced s.map s.snake) (hc : Corners s.map) (h : moveSnake s rnd = some s') :
    Corners s'.map := by
  have he := corners_expire hc
  have hsn := synced_not_corner hs hc
  obtain ⟨e1, -⟩ := expireItems_rest s
  by_cases hb : inBounds (nextY s) (nextX s)
  swap
  · rw [moveSnake_of_oob s rnd hb] at h
    cases h; exact he
  rcases target_cases s with ht | ht | ht | ht | ht | ht | ⟨h1, h9, h3, h4, h2, h5⟩
  · rw [moveSnake_of_blocked s rnd hb (Or.inl ht)] at h
    cases h; exact he
  · rw [moveSnake_of_blocked s rnd hb (Or.inr (Or.inl ht))] at h
    cases h; exact he
  · rw [moveSnake_of_blocked s rnd hb (Or.inr (Or.inr ht))] at h
    cases h; exact he
  · have hn : ¬ isCorner (nextY s) (nextX s) :=
      corners_not_corner he _ _ hb (by show target s ≠ IMMUNE_WALL; rw [ht]; decide)
    rw [moveSnake_of_growth s rnd hb ht] at h
    obtain ⟨s2, hsp, rfl⟩ := Option.map_eq_some'.mp h
    have hg : Corners (growthEaten s).map := corners_setCell he _ _ 0 hn (by decide)
    have h2 := corners_spawnGrowth hg hsp
    refine corners_finishMove h2 ?_ true _ _ hn
    rw [(spawnGrowthItem_rest _ _ _ hsp).1]
    exact e1 ▸ hsn
  · have hn : ¬ isCorner (nextY s) (nextX s) :=
      corners_not_corner he _ _ hb (by show target s ≠ IMMUNE_WALL; rw [ht]; decide)
    have hpe : Corners (poisonEaten s).map := by
      unfold poisonEaten
      exact corners_removeTail he (e1 ▸ hsn)
    have hpsn : ∀ p ∈ (poisonEaten s).snake, ¬ isCorner p.1 p.2 := by
      intro p hp
      rw [poisonEaten_snake] at hp
      exact hsn p (List.dropLast_subset _ hp)
    by_cases hcs : s.snake ≠ [] ∧ (poisonEaten s).snake.length < 3
    · rw [moveSnake_of_poison_short s rnd hb ht hcs] at h
      cases h; exact hpe
    · rw [moveSnake_of_poison s rnd hb ht hcs] at h
      obtain ⟨s4, hsp, rfl⟩ := Option.map_eq_some'.mp h
      have hpc : Corners (poisonCleared s).map := corners_setCell hpe _ _ 0 hn (by decide)
      have h4 := corners_spawnPoison hpc hsp
      refine corners_finishMove h4 ?_ false _ _ hn
      rw [(spawnPoisonItem_rest _ _ _ hsp).1]
      exact hpsn
  · by_cases hcd : s.gateCooldown > 0
    · rw [moveSnake_of_gate_cooldown s rnd hb ht hcd] at h
      cases h; exact he
    · have hgm : (gateExit s).2.2.map = (expireItems s).map := (gateExit_rest s).2.1
      by_cases hx : gateExitBlocked s
      · rw [moveSnake_of_gate_blocked s rnd hb ht hcd hx] at h
        cases h
        show Corners (gateExit s).2.2.map
        rw [hgm]; exact he
      · rw [moveSnake_of_gate s rnd hb ht hcd hx] at h
        cases h
        obtain ⟨-, -, -, a4, a5⟩ := gateArmed_rest s
        unfold gateExitBlocked at hx
        simp only [not_or, not_lt, ge_iff_le, not_le] at hx
        obtain ⟨x1, x2, x3, x4, -, x6, -⟩ := hx
        have hbx : inBounds (gateExit s).1 (gateExit s).2.1 := ⟨x1, x2, x3, x4⟩
        refine corners_finishMove (a4 ▸ he) (a5 ▸ hsn) false _ _ ?_
        exact corners_not_corner he _ _ hbx (hgm ▸ x6)
  · have hn : ¬ isCorner (nextY s) (nextX s) := corners_not_corner he _ _ hb h9
    rw [moveSnake_of_plain s rnd hb h1 h9 h3 h4 h2 h5] at h
    cases h
    exact corners_finishMove he (e1 ▸ hsn) false _ _ hn

theorem corners_fresh (s : State) (stage : Nat) (wallDraw : Nat → Int → Int → Bool) :
    Corners (freshStage s stage wallDraw).map := by
  have hbase : Corners (placeInnerWalls (buildWalls s.map) (wallDraw stage)) := by
    intro y x hb
    unfold placeInnerWalls buildWalls isCorner
    simp only [if_pos hb]
    unfold IMMUNE_WALL
    split_ifs <;> simp_all
  have h1 := corners_setCell hbase (HEIGHT / 2) (WIDTH / 2) 0 (by decide) (by decide)
  have h2 := corners_setCell h1 (HEIGHT / 2) (WIDTH / 2 - 1) 0 (by decide) (by decide)
  have h3 := corners_setCell h2 (HEIGHT / 2) (WIDTH / 2 - 2) 0 (by decide) (by decide)
  have h4 := corners_setCell h3 (HEIGHT / 2) (WIDTH / 2 - 2) 3 (by decide) (by decide)
  have h5 := corners_setCell h4 (HEIGHT / 2) (WIDTH / 2 - 1) 3 (by decide) (by decide)
  exact corners_setCell h5 (HEIGHT / 2) (WIDTH / 2) 3 (by decide) (by decide)

theorem corners_revertGates {s : State} (h : Corners s.map)
    (hA : ¬ isCorner s.gateA.1 s.gateA.2) (hB : ¬ isCorner s.gateB.1 s.gateB.2) :
    Corners (revertGates s) := by
  have h1 : Corners (if s.gateA.1 ≠ -1 then setCell s.map s.gateA.1 s.gateA.2 1 else s.map) := by
    split_ifs
    · exact corners_setCell h _ _ 1 hA (by decide)
    · exact h
  unfold revertGates
  by_cases hb1 : s.gateB.1 ≠ -1
  · simp only [if_pos hb1]
    exact corners_setCell h1 _ _ 1 hB (by decide)
  · simp only [if_neg hb1]
    exact h1

/-- The function `spawnGates` keeps the corners and never records a corner as a
gate, whatever rearrangement the shuffle performs. -/
theorem corners_spawnGates {s : State} (shuffle : List Pos → List Pos)
    (hperm : ∀ l, (shuffle l).Perm l) (h : Corners s.map)
    (hA : ¬ isCorner s.gateA.1 s.gateA.2) (hB : ¬ isCorner s.gateB.1 s.gateB.2) :
    Corners (spawnGates s shuffle).map ∧
    ¬ isCorner (spawnGates s shuffle).gateA.1 (spawnGates s shuffle).gateA.2 ∧
    ¬ isCorner (spawnGates s shuffle).gateB.1 (spawnGates s shuffle).gateB.2 := by
  have hr := corners_revertGates h hA hB
  rw [spawnGates_eq]
  split_ifs with hlen
  · have hout : ¬ isCorner (-1) (-1) := by decide
    exact ⟨hr, hout, hout⟩
  · have hl : (shuffle (wallCandidates (revertGates s))).length =
        (wallCandidates (revertGates s)).length := (hperm _).length_eq
    have ha : (shuffle (wallCandidates (revertGates s))).getD 0 (-1, -1) ∈
        wallCandidates (revertGates s) := by
      rw [List.getD_eq_getElem _ _ (by omega)]
      exact (hperm _).subset (List.getElem_mem _)
    have hb : (shuffle (wallCandidates (revertGates s))).getD 1 (-1, -1) ∈
        wallCandidates (revertGates s) := by
      rw [List.getD_eq_getElem _ _ (by omega)]
      exact (hperm _).subset (List.getElem_mem _)
    obtain ⟨hab, ha1⟩ := mem_wallCandidates ha
    obtain ⟨hbb, hb1⟩ := mem_wallCandidates hb
    have hna := corners_not_corner hr _ _ hab (by rw [ha1]; decide)
    have hnb := corners_not_corner hr _ _ hbb (by rw [hb1]; decide)
    exact ⟨corners_setCell (corners_setCell hr _ _ 5 hna (by decide)) _ _ 5 hnb (by decide),
      hna, hnb⟩

theorem initStage_corners (s s' : State) (stage : Nat) (wallDraw : Nat → Int → Int → Bool)
    (rndG rndP : List (Nat × Nat)) (shuffle : List Pos → List Pos)
    (hperm : ∀ l, (shuffle l).Perm l)
    (hA : ¬ isCorner s.gateA.1 s.gateA.2) (hB : ¬ isCorner s.gateB.1 s.gateB.2)
    (h : initStage s stage wallDraw rndG rndP shuffle = some s') :
    Corners s'.map ∧ ¬ isCorner s'.gateA.1 s'.gateA.2 ∧ ¬ isCorner s'.gateB.1 s'.gateB.2 := by
  rw [initStage_eq] at h
  obtain ⟨s3, h3, h⟩ := Option.bind_eq_some.mp h
  obtain ⟨s4, h4, rfl⟩ := Option.map_eq_some'.mp h
  have c3 := corners_spawnGrowth (corners_fresh s stage wallDraw) h3
  have c4 := corners_spawnPoison c3 h4
  obtain ⟨-, -, -, -, -, -, -, -, -, -, -, -, -, -, f15, f16⟩ := spawnGrowthItem_rest _ _ _ h3
  obtain ⟨-, -, -, -, -, -, -, -, -, -, -, -, -, -, g15, g16⟩ := spawnPoisonItem_rest _ _ _ h4
  have hgA : ¬ isCorner s4.gateA.1 s4.gateA.2 := by rw [g15, f15]; exact hA
  have hgB : ¬ isCorner s4.gateB.1 s4.gateB.2 := by rw [g16, f16]; exact hB
  exact corners_spawnGates shuffle hperm c4 hgA hgB

/-- Every reachable state satisfies the corner invariant. -/
theorem Reachable.cornerInv {s : State} (h : Reachable s) : CornerInv s := by
  refine ⟨h.inv, ?_⟩
  induction h with
  | start wallDraw rndG rndP shuffle s hperm hs =>
    unfold playGameStart at hs
    refine initStage_corners _ s _ wallDraw rndG rndP shuffle hperm ?_ ?_ hs
    · decide
    · decide
  | restart s0 wallDraw rndG rndP shuffle s _ hperm hs ih =>
    unfold playGameStart at hs
    refine initStage_corners _ s _ wallDraw rndG rndP shuffle hperm ?_ ?_ hs
    · exact ih.2.1
    · exact ih.2.2
  | moved s0 ch rnd s h0 hs ih =>
    obtain ⟨u1, u2, u3, u4⟩ := updateDirection_rest s0 ch
    have hsy : Synced (updateDirection s0 ch).map (updateDirection s0 ch).snake := by
      rw [u1, u2]; exact h0.inv.1
    obtain ⟨g1, g2⟩ := moveSnake_gates _ _ _ hs
    refine ⟨corners_moveSnake hsy (u1 ▸ ih.1) hs, ?_, ?_⟩
    · rw [g1, u3]; exact ih.2.1
    · rw [g2, u4]; exact ih.2.2
  | advanced s0 wallDraw rndG rndP shuffle s _ hperm hs ih =>
    unfold advanceStage at hs
    simp only at hs
    split_ifs at hs
    · cases hs; exact ih
    · refine initStage_corners _ s _ wallDraw rndG rndP shuffle hperm ?_ ?_ hs
      · exact ih.2.1
      · exact ih.2.2

/-- C23: in every state reachable from a session start by ticks and stage
advancements (so after every `initStage`, with its two item spawns and its
`spawnGates`, and after every `moveSnake`), a cell of the grid holds ImmuneWall
(9) exactly when it is one of the four corners `(0, 0)`, `(0, WIDTH - 1)`,
`(HEIGHT - 1, 0)`, `(HEIGHT - 1, WIDTH - 1)`, and neither recorded gate is a
corner.  Moreover `initStage`, called on any state whose recorded gates are not
corners, returns a grid with exactly the corners ImmuneWall and gates off the
corners, and `moveSnake` keeps that property of the grid from any state whose
snake cells are marked SnakeBody. -/
theorem corners_stay_immune (s : State) (h : Reachable s) :
    (∀ y x, inBounds y x → (s.map y x = IMMUNE_WALL ↔ isCorner y x)) ∧
    s.map 0 0 = IMMUNE_WALL ∧ s.map 0 (WIDTH - 1) = IMMUNE_WALL ∧
    s.map (HEIGHT - 1) 0 = IMMUNE_WALL ∧ s.map (HEIGHT - 1) (WIDTH - 1) = IMMUNE_WALL ∧
    ¬ isCorner s.gateA.1 s.gateA.2 ∧ ¬ isCorner s.gateB.1 s.gateB.2 ∧
    (∀ (t t' : State) (stage : Nat) (wallDraw : Nat → Int → Int → Bool)
      (rndG rndP : List (Nat × Nat)) (shuffle : List Pos → List Pos),
      (∀ l, (shuffle l).Perm l) → ¬ isCorner t.gateA.1 t.gateA.2 →
      ¬ isCorner t.gateB.1 t.gateB.2 →
      initStage t stage wallDraw rndG rndP shuffle = some t' →
      Corners t'.map ∧ ¬ isCorner t'.gateA.1 t'.gateA.2 ∧ ¬ isCorner t'.gateB.1 t'.gateB.2) ∧
    (∀ (t t' : State) (rnd : List (Nat × Nat)), Synced t.map t.snake → Corners t.map →
      moveSnake t rnd = some t' → Corners t'.map) := by
  obtain ⟨-, hc, hA, hB⟩ := h.cornerInv
  refine ⟨hc, ?_, ?_, ?_, ?_, hA, hB, ?_, ?_⟩
  · exact (hc 0 0 (by decide)).mpr (by decide)
  · exact (hc 0 (WIDTH - 1) (by decide)).mpr (by decide)
  · exact (hc (HEIGHT - 1) 0 (by decide)).mpr (by decide)
  · exact (hc (HEIGHT - 1) (WIDTH - 1) (by decide)).mpr (by decide)
  · intro t t' stage wallDraw rndG rndP shuffle hperm hA hB hi
    exact initStage_corners t t' stage wallDraw rndG rndP shuffle hperm hA hB hi
  · intro t t' rnd hs hc ht
    exact corners_moveSnake hs hc ht

set_option maxRecDepth 100000 in
/-- Witness of C23: the state after a session start from the boot state with no
inner wall, the item draws `(3, 3)` and `(5, 5)` and the identity shuffle has
ImmuneWall on the corner `(0, 0)` and its gates off the corners. -/
theorem corners_stay_immune_witness :
    ∃ s, playGameStart bootState (fun _ _ _ => false) [(3, 3)] [(5, 5)] id = some s ∧
      s.map 0 0 = IMMUNE_WALL ∧ ¬ isCorner s.gateA.1 s.gateA.2 := by
  have hsome :
      (playGameStart bootState (fun _ _ _ => false) [(3, 3)] [(5, 5)] id).isSome = true := by
    decide
  obtain ⟨s, hs⟩ := Option.isSome_iff_exists.mp hsome
  obtain ⟨-, h00, -, -, -, hA, -⟩ :=
    corners_stay_immune s (Reachable.start _ _ _ _ s (fun l => List.Perm.refl l) hs)
  exact ⟨s, hs, h00, hA⟩

/-! ## At most one item of each kind (C27) -/

theorem atMostOne_of_sub {m m' : Grid} {k : Int} (h : AtMostOne m k)
    (hsub : ∀ y x, inBounds y x → m' y x = k → m y x = k) : AtMostOne m' k :=
  fun y x y' x' hb hb' e e' => h y x y' x' hb hb' (hsub y x hb e) (hsub y' x' hb' e')

theorem noneOf_of_sub {m m' : Grid} {k : Int} (h : NoneOf m k)
    (hsub : ∀ y x, inBounds y x → m' y x = k → m y x = k) : NoneOf m' k :=
  fun y x hb e => h y x hb (hsub y x hb e)

theorem atMostOne_of_noneOf {m : Grid} {k : Int} (h : NoneOf m k) : AtMostOne m k :=
  fun y x _ _ hb _ e _ => absurd e (h y x hb)

theorem setCell_sub (m : Grid) (y x v k : Int) (hv : v ≠ k) :
    ∀ i j, inBounds i j → setCell m y x v i j = k → m i j = k := by
  intro i j _ e
  unfold setCell at e
  split_ifs at e
  · exact absurd e hv
  · exact e

/-- Writing `k` on a grid without any `k` leaves exactly that one. -/
theorem atMostOne_setCell_new {m : Grid} {k : Int} (h : NoneOf m k) (y x : Int) :
    AtMostOne (setCell m y x k) k := by
  intro i j i' j' hb hb' e e'
  unfold setCell at e e'
  split_ifs at e e' with h1 h2 h2
  · rw [h1.1, h1.2, h2.1, h2.2]
  · exact absurd e' (h _ _ hb')
  · exact absurd e (h _ _ hb)
  · exact absurd e (h _ _ hb)

/-- Clearing the one cell that holds `k` leaves none. -/
theorem noneOf_of_cleared {m m' : Grid} {k : Int} (h : AtMostOne m k) (y0 x0 : Int)
    (hb0 : inBounds y0 x0) (h0 : m y0 x0 = k)
    (hsub : ∀ y x, inBounds y x → m' y x = k → m y x = k ∧ ¬ (y = y0 ∧ x = x0)) :
    NoneOf m' k := by
  intro y x hb e
  obtain ⟨e1, hne⟩ := hsub y x hb e
  have := h y x y0 x0 hb hb0 e1 h0
  exact hne ⟨congrArg Prod.fst this, congrArg Prod.snd this⟩

theorem expireItems_sub (s : State) (k : Int) (hk : k ≠ 0) :
    ∀ y x, inBounds y x → (expireItems s).map y x = k → s.map y x = k := by
  intro y x _ e
  rw [expireItems_map] at e
  split_ifs at e
  · exact absurd e.symm hk
  · exact e

theorem removeTail_sub (s : State) (k : Int) (hk : k ≠ 0) :
    ∀ y x, inBounds y x → (removeTail s).map y x = k → s.map y x = k := by
  rcases List.eq_nil_or_concat s.snake with hnil | ⟨l, t, hl⟩
  · rw [removeTail_of_nil s hnil]
    exact fun _ _ _ e => e
  · rw [List.concat_eq_append] at hl
    rw [removeTail_of_append s l t hl]
    exact setCell_sub s.map _ _ 0 k (Ne.symm hk)

theorem finishMove_sub (s : State) (grew : Bool) (ny nx k : Int) (hk : k ≠ 0) (hk3 : k ≠ 3) :
    ∀ y x, inBounds y x → (finishMove s grew ny nx).map y x = k → s.map y x = k := by
  intro y x hb e
  rw [finishMove_map] at e
  have e1 := setCell_sub _ ny nx 3 k (Ne.symm hk3) y x hb e
  cases grew
  · simp only [if_true] at e1
    exact removeTail_sub s k hk y x hb e1
  · simp only [Bool.true_eq_false, if_false] at e1
    exact e1

/-- After `spawnGrowthItem` on a grid without Growth cell there is at most one, and
no cell has become Poison. -/
theorem spawnGrowthItem_atMostOne {s s2 : State} {rnd : List (Nat × Nat)}
    (h4 : NoneOf s.map 4) (hsp : spawnGrowthItem s rnd = some s2) :
    AtMostOne s2.map 4 ∧ ∀ y x, inBounds y x → s2.map y x = 2 → s.map y x = 2 := by
  rcases spawnGrowthItem_map s s2 rnd hsp with hm | ⟨y, x, -, -, hm⟩
  · rw [hm]; exact ⟨atMostOne_of_noneOf h4, fun _ _ _ e => e⟩
  · rw [hm]; exact ⟨atMostOne_setCell_new h4 y x, setCell_sub s.map y x 4 2 (by decide)⟩

theorem spawnPoisonItem_atMostOne {s s2 : State} {rnd : List (Nat × Nat)}
    (h2 : NoneOf s.map 2) (hsp : spawnPoisonItem s rnd = some s2) :
    AtMostOne s2.map 2 ∧ ∀ y x, inBounds y x → s2.map y x = 4 → s.map y x = 4 := by
  rcases spawnPoisonItem_map s s2 rnd hsp with hm | ⟨y, x, -, -, hm⟩
  · rw [hm]; exact ⟨atMostOne_of_noneOf h2, fun _ _ _ e => e⟩
  · rw [hm]; exact ⟨atMostOne_setCell_new h2 y x, setCell_sub s.map y x 2 4 (by decide)⟩

/-- A tick of `moveSnake` keeps the grid at no more than one Growth and one Poison
cell. -/
theorem atMostOne_moveSnake {s s' : State} {rnd : List (Nat × Nat)}
    (h4 : AtMostOne s.map 4) (h2 : AtMostOne s.map 2) (h : moveSnake s rnd = some s') :
    AtMostOne s'.map 4 ∧ AtMostOne s'.map 2 := by
  have e4 := atMostOne_of_sub h4 (expireItems_sub s 4 (by decide))
  have e2 := atMostOne_of_sub h2 (expireItems_sub s 2 (by decide))
  have hfin : ∀ (t : State) (g : Bool) (y x : Int), AtMostOne t.map 4 → AtMostOne t.map 2 →
      AtMostOne (finishMove t g y x).map 4 ∧ AtMostOne (finishMove t g y x).map 2 :=
    fun t g y x a4 a2 =>
      ⟨atMostOne_of_sub a4 (finishMove_sub t g y x 4 (by decide) (by decide)),
        atMostOne_of_sub a2 (finishMove_sub t g y x 2 (by decide) (by decide))⟩
  by_cases hb : inBounds (nextY s) (nextX s)
  swap
  · rw [moveSnake_of_oob s rnd hb] at h
    cases h; exact ⟨e4, e2⟩
  rcases target_cases s with ht | ht | ht | ht | ht | ht | ⟨h1, h9, h3, h4', h2', h5⟩
  · rw [moveSnake_of_blocked s rnd hb (Or.inl ht)] at h
    cases h; exact ⟨e4, e2⟩
  · rw [moveSnake_of_blocked s rnd hb (Or.inr (Or.inl ht))] at h
    cases h; exact ⟨e4, e2⟩
  · rw [moveSnake_of_blocked s rnd hb (Or.inr (Or.inr ht))] at h
    cases h; exact ⟨e4, e2⟩
  · rw [moveSnake_of_growth s rnd hb ht] at h
    obtain ⟨s2, hsp, rfl⟩ := Option.map_eq_some'.mp h
    have g4 : NoneOf (growthEaten s).map 4 := by
      refine noneOf_of_cleared e4 (nextY s) (nextX s) hb ht fun y x _ e => ?_
      have e' : setCell (expireItems s).map (nextY s) (nextX s) 0 y x = 4 := e
      unfold setCell at e'
      split_ifs at e' with hc
      · exact absurd e' (by decide)
      · exact ⟨e', hc⟩
    have g2 : AtMostOne (growthEaten s).map 2 :=
      atMostOne_of_sub e2 (setCell_sub (expireItems s).map _ _ 0 2 (by decide))
    obtain ⟨k4, ksub⟩ := spawnGrowthItem_atMostOne g4 hsp
    exact hfin s2 true _ _ k4 (atMostOne_of_sub g2 ksub)
  · have p4 : AtMostOne (poisonEaten s).map 4 := by
      unfold poisonEaten
      exact atMostOne_of_sub e4 (removeTail_sub _ 4 (by decide))
    have psub : ∀ y x, inBounds y x → (poisonEaten s).map y x = 2 →
        (expireItems s).map y x = 2 := by
      unfold poisonEaten
      exact removeTail_sub _ 2 (by decide)
    by_cases hcs : s.snake ≠ [] ∧ (poisonEaten s).snake.length < 3
    · rw [moveSnake_of_poison_short s rnd hb ht hcs] at h
      cases h; exact ⟨p4, atMostOne_of_sub e2 psub⟩
    · rw [moveSnake_of_poison s rnd hb ht hcs] at h
      obtain ⟨s4, hsp, rfl⟩ := Option.map_eq_some'.mp h
      have c2 : NoneOf (poisonCleared s).map 2 := by
        refine noneOf_of_cleared e2 (nextY s) (nextX s) hb ht fun y x hyx e => ?_
        have e' : setCell (poisonEaten s).map (nextY s) (nextX s) 0 y x = 2 := e
        unfold setCell at e'
        split_ifs at e' with hc
        · exact absurd e' (by decide)
        · exact ⟨psub y x hyx e', hc⟩
      have c4 : AtMostOne (poisonCleared s).map 4 :=
        atMostOne_of_sub p4 (setCell_sub (poisonEaten s).map _ _ 0 4 (by decide))
      obtain ⟨k2, ksub⟩ := spawnPoisonItem_atMostOne c2 hsp
      exact hfin s4 false _ _ (atMostOne_of_sub c4 ksub) k2
  · have hgm : (gateExit s).2.2.map = (expireItems s).map := (gateExit_rest s).2.1
    by_cases hcd : s.gateCooldown > 0
    · rw [moveSnake_of_gate_cooldown s rnd hb ht hcd] at h
      cases h; exact ⟨e4, e2⟩
    · by_cases hx : gateExitBlocked s
      · rw [moveSnake_of_gate_blocked s rnd hb ht hcd hx] at h
        cases h
        show AtMostOne (gateExit s).2.2.map 4 ∧ AtMostOne (gateExit s).2.2.map 2
        rw [hgm]; exact ⟨e4, e2⟩
      · rw [moveSnake_of_gate s rnd hb ht hcd hx] at h
        cases h
        obtain ⟨-, -, -, a4, -⟩ := gateArmed_rest s
        exact hfin _ false _ _ (a4 ▸ e4) (a4 ▸ e2)
  · rw [moveSnake_of_plain s rnd hb h1 h9 h3 h4' h2' h5] at h
    cases h
    exact hfin _ false _ _ e4 e2

theorem freshStage_noneOf (s : State) (stage : Nat) (wallDraw : Nat → Int → Int → Bool)
    (k : Int) (hk : k = 4 ∨ k = 2) : NoneOf (freshStage s stage wallDraw).map k := by
  have hbase : NoneOf (placeInnerWalls (buildWalls s.map) (wallDraw stage)) k := by
    intro y x hb
    unfold placeInnerWalls buildWalls
    simp only [if_pos hb]
    unfold IMMUNE_WALL
    rcases hk with rfl | rfl <;> split_ifs <;> decide
  have h0 : (0 : Int) ≠ k := by rcases hk with rfl | rfl <;> decide
  have h3 : (3 : Int) ≠ k := by rcases hk with rfl | rfl <;> decide
  intro y x hb e
  refine hbase y x hb ?_
  have e' : setCell (setCell (setCell (setCell (setCell (setCell
      (placeInnerWalls (buildWalls s.map) (wallDraw stage))
      (HEIGHT / 2) (WIDTH / 2) 0) (HEIGHT / 2) (WIDTH / 2 - 1) 0) (HEIGHT / 2) (WIDTH / 2 - 2) 0)
      (HEIGHT / 2) (WIDTH / 2 - 2) 3) (HEIGHT / 2) (WIDTH / 2 - 1) 3) (HEIGHT / 2) (WIDTH / 2) 3
      y x = k := e
  have e1 := setCell_sub _ _ _ 3 k h3 y x hb e'
  have e2 := setCell_sub _ _ _ 3 k h3 y x hb e1
  have e3 := setCell_sub _ _ _ 3 k h3 y x hb e2
  have e4 := setCell_sub _ _ _ 0 k h0 y x hb e3
  have e5 := setCell_sub _ _ _ 0 k h0 y x hb e4
  exact setCell_sub _ _ _ 0 k h0 y x hb e5

theorem spawnGates_sub (s : State) (shuffle : List Pos → List Pos) (k : Int)
    (hk : k = 4 ∨ k = 2) :
    ∀ y x, inBounds y x → (spawnGates s shuffle).map y x = k → s.map y x = k := by
  have h1 : (1 : Int) ≠ k := by rcases hk with rfl | rfl <;> decide
  have h5 : (5 : Int) ≠ k := by rcases hk with rfl | rfl <;> decide
  have hrev : ∀ y x, inBounds y x → revertGates s y x = k → s.map y x = k := by
    intro y x hb e
    unfold revertGates at e
    by_cases hB : s.gateB.1 ≠ -1 <;> by_cases hA : s.gateA.1 ≠ -1
    · simp only [if_pos hB, if_pos hA] at e
      exact setCell_sub _ _ _ 1 k h1 y x hb (setCell_sub _ _ _ 1 k h1 y x hb e)
    · simp only [if_pos hB, if_neg hA] at e
      exact setCell_sub _ _ _ 1 k h1 y x hb e
    · simp only [if_neg hB, if_pos hA] at e
      exact setCell_sub _ _ _ 1 k h1 y x hb e
    · simp only [if_neg hB, if_neg hA] at e
      exact e
  intro y x hb e
  rw [spawnGates_eq] at e
  split_ifs at e
  · exact hrev y x hb e
  · exact hrev y x hb (setCell_sub _ _ _ 5 k h5 y x hb (setCell_sub _ _ _ 5 k h5 y x hb e))

/-- After `initStage`, from any state, the grid holds at most one Growth and at
most one Poison cell. -/
theorem initStage_atMostOne (s s' : State) (stage : Nat) (wallDraw : Nat → Int → Int → Bool)
    (rndG rndP : List (Nat × Nat)) (shuffle : List Pos → List Pos)
    (h : initStage s stage wallDraw rndG rndP shuffle = some s') :
    AtMostOne s'.map 4 ∧ AtMostOne s'.map 2 := by
  rw [initStage_eq] at h
  obtain ⟨s3, h3, h⟩ := Option.bind_eq_some.mp h
  obtain ⟨s4, h4, rfl⟩ := Option.map_eq_some'.mp h
  obtain ⟨a4, asub⟩ :=
    spawnGrowthItem_atMostOne (freshStage_noneOf s stage wallDraw 4 (Or.inl rfl)) h3
  have n2 : NoneOf s3.map 2 :=
    noneOf_of_sub (freshStage_noneOf s stage wallDraw 2 (Or.inr rfl)) asub
  obtain ⟨b2, bsub⟩ := spawnPoisonItem_atMostOne n2 h4
  exact ⟨atMostOne_of_sub (atMostOne_of_sub a4 bsub) (spawnGates_sub s4 shuffle 4 (Or.inl rfl)),
    atMostOne_of_sub b2 (spawnGates_sub s4 shuffle 2 (Or.inr rfl))⟩

theorem Reachable.atMostOne {s : State} (h : Reachable s) :
    AtMostOne s.map 4 ∧ AtMostOne s.map 2 := by
  induction h with
  | start wallDraw rndG rndP shuffle s _ hs =>
    unfold playGameStart at hs
    exact initStage_atMostOne _ s _ wallDraw rndG rndP shuffle hs
  | restart s0 wallDraw rndG rndP shuffle s _ _ hs _ =>
    unfold playGameStart at hs
    exact initStage_atMostOne _ s _ wallDraw rndG rndP shuffle hs
  | moved s0 ch rnd s _ hs ih =>
    obtain ⟨u1, -⟩ := updateDirection_rest s0 ch
    exact atMostOne_moveSnake (u1 ▸ ih.1) (u1 ▸ ih.2) hs
  | advanced s0 wallDraw rndG rndP shuffle s _ _ hs ih =>
    unfold advanceStage at hs
    simp only at hs
    split_ifs at hs
    · cases hs; exact ih
    · exact initStage_atMostOne _ s _ wallDraw rndG rndP shuffle hs

theorem countCells_le_one {m : Grid} {k : Int} (h : AtMostOne m k) : countCells m k ≤ 1 := by
  unfold countCells
  have hnd : (allCells.filter fun p => m p.1 p.2 = k).Nodup := allCells_nodup.filter _
  have heq : ∀ p ∈ allCells.filter (fun p => m p.1 p.2 = k),
      ∀ q ∈ allCells.filter (fun p => m p.1 p.2 = k), p = q := by
    intro p hp q hq
    rw [List.mem_filter, mem_allCells] at hp hq
    exact h p.1 p.2 q.1 q.2 hp.1 hq.1 (by simpa using hp.2) (by simpa using hq.2)
  generalize (allCells.filter fun p => m p.1 p.2 = k) = l at hnd heq
  match l, hnd, heq with
  | [], _, _ => simp
  | [_], _, _ => simp
  | a :: b :: t, hnd, heq =>
    exfalso
    have hab : a = b := heq a (by simp) b (by simp)
    rw [hab] at hnd
    exact (List.nodup_cons.mp hnd).1 (by simp)

/-- C27: in every state reachable from a session start by ticks (any key, any
draws) and stage advancements, the grid holds at most one Growth cell and at most
one Poison cell, so the counts compared with the caps `maxGrowthItems = 3` and
`maxPoisonItems = 3` by the spawn functions stay below them. -/
theorem at_most_one_item_per_kind (s : State) (h : Reachable s) :
    countCells s.map 4 ≤ 1 ∧ countCells s.map 2 ≤ 1 ∧
    countCells s.map 4 < maxGrowthItems ∧ countCells s.map 2 < maxPoisonItems ∧
    AtMostOne s.map 4 ∧ AtMostOne s.map 2 := by
  obtain ⟨h4, h2⟩ := h.atMostOne
  have c4 := countCells_le_one h4
  have c2 := countCells_le_one h2
  refine ⟨c4, c2, ?_, ?_, h4, h2⟩
  · unfold maxGrowthItems; omega
  · unfold maxPoisonItems; omega

set_option maxRecDepth 100000 in
/-- Witness of C27: the state after a session start from the boot state with no
inner wall, the item draws `(3, 3)` and `(5, 5)` and the identity shuffle holds
no more than one Growth and one Poison cell. -/
theorem at_most_one_item_per_kind_witness :
    ∃ s, playGameStart bootState (fun _ _ _ => false) [(3, 3)] [(5, 5)] id = some s ∧
      countCells s.map 4 ≤ 1 ∧ countCells s.map 2 ≤ 1 := by
  have hsome :
      (playGameStart bootState (fun _ _ _ => false) [(3, 3)] [(5, 5)] id).isSome = true := by
    decide
  obtain ⟨s, hs⟩ := Option.isSome_iff_exists.mp hsome
  obtain ⟨h4, h2, -⟩ :=
    at_most_one_item_per_kind s (Reachable.start _ _ _ _ s (fun l => List.Perm.refl l) hs)
  exact ⟨s, hs, h4, h2⟩

end SnakeGame
